import Mathlib

/-!
# Fujiyama renderer: triangle primitive and object instance

A shallow embedding of `src/Triangle.c` and `src/ObjectInstance.c`.

* A C `double` is an element of a linearly ordered field `K`; every definition is
  executable at `K = ℚ` and every theorem holds at `K = ℝ` as well. The operations on
  `double`s are the operations of the field: exact arithmetic.
* `Triangle.c` has a second embedding, the definitions `…_rnd`, in which the result of
  every operation is rounded; `fl` is the rounding of binary64, and the runs in binary64
  evaluate the `…_rnd` definitions with it.
* A `double[3]` is a `Vec3`, a `double[6]` box is a `Box`.
* A pointer is an `Option Nat`: `none` is `NULL`, `some a` is the address `a`.
* A function writing through pointer arguments returns the written values next to its
  C return value.
* A failed `assert` aborts the program: functions containing one return an `Option`,
  `none` being the abort.
-/

set_option linter.unusedSectionVars false

namespace Fujiyama

variable {K : Type} [LinearOrderedField K]

/-! ## Vectors (`Vector.h`, not part of the sources at hand) -/

/-- A `double[3]`: `x`, `y`, `z` are the components `[0]`, `[1]`, `[2]`. -/
structure Vec3 (K : Type) where
  x : K
  y : K
  z : K

/-- Modelled from the spec: the macro `VEC3_SUB(dst, a, b)` of `Vector.h` (missing),
the component-wise difference `a - b` ("edge1 = v1 - v0"). -/
def VEC3_SUB (a b : Vec3 K) : Vec3 K :=
  ⟨a.x - b.x, a.y - b.y, a.z - b.z⟩

/-- Modelled from the spec: the macro `VEC3_CROSS(dst, a, b)` of `Vector.h` (missing),
the cross product `a × b` ("pvec = dir × edge2"). -/
def VEC3_CROSS (a b : Vec3 K) : Vec3 K :=
  ⟨a.y * b.z - a.z * b.y, a.z * b.x - a.x * b.z, a.x * b.y - a.y * b.x⟩

/-- Modelled from the spec: the macro `VEC3_DOT(a, b)` of `Vector.h` (missing),
the dot product `a · b` ("det = edge1 · pvec"). -/
def VEC3_DOT (a b : Vec3 K) : K :=
  a.x * b.x + a.y * b.y + a.z * b.z

/-! ## `Triangle.c` in exact arithmetic -/

/-- The constant `#define EPSILON 1e-6`: the C literal `1e-6` is the `double` nearest to
`10⁻⁶`, which is `4722366482869645 / 2⁷²`, a little below `10⁻⁶`. -/
def EPSILON : K := 4722366482869645 / 2 ^ 72

/-- The determinant `det = VEC3_DOT(edge1, pvec)` that `TriRayIntersect` computes first, in
exact arithmetic. -/
def triDet (vert0 vert1 vert2 dir : Vec3 K) : K :=
  VEC3_DOT (VEC3_SUB vert1 vert0) (VEC3_CROSS dir (VEC3_SUB vert2 vert0))

/-- The outcome of a call of `TriRayIntersect`: the returned `int` and the contents of
`*t`, `*u`, `*v` when the call returns. -/
structure TriHit (K : Type) where
  ret : Int
  t : K
  u : K
  v : K

/-- The function `TriRayIntersect` of `Triangle.c` in exact arithmetic. The arguments `t`,
`u`, `v` are the contents of `*t`, `*u`, `*v` when the call is made. The function with
every operation rounded is `TriRayIntersect_rnd`. -/
def TriRayIntersect (vert0 vert1 vert2 orig dir : Vec3 K) (cull_backfaces : Int)
    (t u v : K) : TriHit K :=
  let edge1 := VEC3_SUB vert1 vert0
  let edge2 := VEC3_SUB vert2 vert0
  let pvec := VEC3_CROSS dir edge2
  let det := VEC3_DOT edge1 pvec
  if cull_backfaces ≠ 0 then
    if det < EPSILON then ⟨0, t, u, v⟩
    else
      let tvec := VEC3_SUB orig vert0
      let u1 := VEC3_DOT tvec pvec
      if u1 < 0 ∨ u1 > det then ⟨0, t, u1, v⟩
      else
        let qvec := VEC3_CROSS tvec edge1
        let v1 := VEC3_DOT dir qvec
        if v1 < 0 ∨ u1 + v1 > det then ⟨0, t, u1, v1⟩
        else
          let t1 := VEC3_DOT edge2 qvec
          let inv_det := 1 / det
          ⟨1, t1 * inv_det, u1 * inv_det, v1 * inv_det⟩
  else
    if det > -EPSILON ∧ det < EPSILON then ⟨0, t, u, v⟩
    else
      let inv_det := 1 / det
      let tvec := VEC3_SUB orig vert0
      let u1 := VEC3_DOT tvec pvec * inv_det
      if u1 < 0 ∨ u1 > 1 then ⟨0, t, u1, v⟩
      else
        let qvec := VEC3_CROSS tvec edge1
        let v1 := VEC3_DOT dir qvec * inv_det
        if v1 < 0 ∨ u1 + v1 > 1 then ⟨0, t, u1, v1⟩
        else ⟨1, VEC3_DOT edge2 qvec * inv_det, u1, v1⟩

/-- The point `orig + t * dir` of the ray at parameter `t`. -/
def rayAt (orig dir : Vec3 K) (t : K) : Vec3 K :=
  ⟨orig.x + t * dir.x, orig.y + t * dir.y, orig.z + t * dir.z⟩

/-- The point `a * vert0 + b * vert1 + c * vert2`. -/
def triPoint (vert0 vert1 vert2 : Vec3 K) (a b c : K) : Vec3 K :=
  ⟨a * vert0.x + b * vert1.x + c * vert2.x,
   a * vert0.y + b * vert1.y + c * vert2.y,
   a * vert0.z + b * vert1.z + c * vert2.z⟩

/-- The un-normalised `u`: `VEC3_DOT(tvec, pvec)` in `TriRayIntersect`. -/
def triU (vert0 vert2 orig dir : Vec3 K) : K :=
  VEC3_DOT (VEC3_SUB orig vert0) (VEC3_CROSS dir (VEC3_SUB vert2 vert0))

/-- The un-normalised `v`: `VEC3_DOT(dir, qvec)` in `TriRayIntersect`. -/
def triV (vert0 vert1 orig dir : Vec3 K) : K :=
  VEC3_DOT dir (VEC3_CROSS (VEC3_SUB orig vert0) (VEC3_SUB vert1 vert0))

/-- The un-normalised `t`: `VEC3_DOT(edge2, qvec)` in `TriRayIntersect`. -/
def triT (vert0 vert1 vert2 orig : Vec3 K) : K :=
  VEC3_DOT (VEC3_SUB vert2 vert0) (VEC3_CROSS (VEC3_SUB orig vert0) (VEC3_SUB vert1 vert0))

/-! ## Data of `ObjectInstance.c` -/

/-- A pointer: `none` is `NULL`, `some a` is the address `a`. -/
abbrev Ptr := Option Nat

/-- A `double[6]` bounding box `{xmin, ymin, zmin, xmax, ymax, zmax}`. -/
structure Box (K : Type) where
  xmin : K
  ymin : K
  zmin : K
  xmax : K
  ymax : K
  zmax : K

/-- The constant `FLT_MAX` of `<float.h>` (IEEE single precision). -/
def FLT_MAX : K := 340282346638528859811704183484516925440

/-- The box `{FLT_MAX, FLT_MAX, FLT_MAX, -FLT_MAX, -FLT_MAX, -FLT_MAX}` that
`ObjectInstance.c` uses as the empty box. -/
def emptyBox : Box K :=
  ⟨FLT_MAX, FLT_MAX, FLT_MAX, -FLT_MAX, -FLT_MAX, -FLT_MAX⟩

/-- Modelled from the spec: the macro `MAX(a, b)` of `Numeric.h` (missing), the larger of
its two arguments ("maximum scale per axis"). -/
def MAX (a b : K) : K :=
  if a < b then b else a

/-- A `double[16]`, the 4×4 matrix of a `Transform`; `m0 … m15` are the entries
`[0] … [15]`. -/
structure Mat4 (K : Type) where
  m0 : K
  m1 : K
  m2 : K
  m3 : K
  m4 : K
  m5 : K
  m6 : K
  m7 : K
  m8 : K
  m9 : K
  m10 : K
  m11 : K
  m12 : K
  m13 : K
  m14 : K
  m15 : K

/-- The `struct Transform` of `Transform.h`. -/
structure Transform (K : Type) where
  matrix : Mat4 K
  inverse : Mat4 K
  transform_order : Int
  rotate_order : Int
  translate : Vec3 K
  rotate : Vec3 K
  scale : Vec3 K

/-- One entry of a `struct PropertySampleList` (`Property.h`, missing): the fields
`vector` and `time` that `ObjectInstance.c` and the spec name. -/
structure PropertySample (K : Type) where
  vector : Vec3 K
  time : K

/-- The `struct PropertySampleList` of `Property.h` (missing), with the two fields
`ObjectInstance.c` uses: the array `samples`, as the function from an index to the entry
stored there, and `sample_count`. -/
structure PropertySampleList (K : Type) where
  samples : Nat → PropertySample K
  sample_count : Nat

/-- The `struct TransformSampleList` of `Transform.h`. -/
structure TransformSampleList (K : Type) where
  translate : PropertySampleList K
  rotate : PropertySampleList K
  scale : PropertySampleList K
  transform_order : Int
  rotate_order : Int
  transform_sample : Transform K
  last_sample_time : K

/-- The `struct ObjectInstance` of `ObjectInstance.c`. -/
structure ObjectInstance (K : Type) where
  acc : Ptr
  volume : Ptr
  bounds : Box K
  transform_samples : TransformSampleList K
  shader : Ptr
  target_lights : Ptr
  n_target_lights : Int
  reflection_target : Ptr
  refraction_target : Ptr

/-- The fields of `struct Ray` (`Ray.h`, missing) that `ObjectInstance.c` uses. -/
structure Ray (K : Type) where
  orig : Vec3 K
  dir : Vec3 K
  tmin : K
  tmax : K

/-- The fields of `struct Intersection` (`Intersection.h`, missing) that
`ObjectInstance.c` uses. -/
structure Intersection (K : Type) where
  P : Vec3 K
  N : Vec3 K
  dPds : Vec3 K
  dPdt : Vec3 K
  object : Ptr

/-- The fields of `struct Interval` (`Interval.h`, missing) that `ObjectInstance.c`
uses. -/
structure Interval (K : Type) where
  tmin : K
  tmax : K
  object : Ptr

/-- The functions `ObjectInstance.c` calls and does not define: those declared in
`Transform.h`, and those of `Accelerator.h`, `Volume.h`, `Box.h` and `Vector.h`, which are
not part of the sources at hand. Each takes the values its C arguments point to and
returns the values it writes. The embedding of `ObjectInstance.c` is parametric in them
and the theorems hold for every choice. -/
structure Env (K : Type) where
  /-- The call `AccGetBounds(acc, bounds)`: the bounds written. -/
  AccGetBounds : Ptr → Box K
  /-- The call `AccIntersect(acc, time, ray, isect)`: the return value and `*isect` on return. -/
  AccIntersect : Ptr → K → Ray K → Intersection K → Int × Intersection K
  /-- The call `VolGetBounds(volume, bounds)`: the bounds written. -/
  VolGetBounds : Ptr → Box K
  /-- The call `BoxDiagonal(box)`. -/
  BoxDiagonal : Box K → K
  /-- The call `BoxCentroid(box, centroid)`: the centroid written. -/
  BoxCentroid : Box K → Vec3 K
  /-- The call `BoxAddBox(box, otherbox)`: `box` on return. -/
  BoxAddBox : Box K → Box K → Box K
  /-- The call `BoxRayIntersect(box, orig, dir, tmin, tmax, &hit_tmin, &hit_tmax)`, the last two
  arguments being `*hit_tmin` and `*hit_tmax` at the call: the return value and
  `*hit_tmin`, `*hit_tmax` on return. -/
  BoxRayIntersect : Box K → Vec3 K → Vec3 K → K → K → K → K → Int × K × K
  /-- The call `VEC3_NORMALIZE(v)`: `v` on return. -/
  VEC3_NORMALIZE : Vec3 K → Vec3 K
  /-- The call `XfmInitTransformSampleList(list)`: `*list` on return. -/
  XfmInitTransformSampleList : TransformSampleList K
  /-- The call `XfmLerpTransformSample(list, time)`: `*list` on return. -/
  XfmLerpTransformSample : TransformSampleList K → K → TransformSampleList K
  /-- The call `XfmPushTranslateSample(list, tx, ty, tz, time)`: `*list` on return. -/
  XfmPushTranslateSample : TransformSampleList K → K → K → K → K → TransformSampleList K
  /-- The call `XfmPushRotateSample(list, rx, ry, rz, time)`: `*list` on return. -/
  XfmPushRotateSample : TransformSampleList K → K → K → K → K → TransformSampleList K
  /-- The call `XfmPushScaleSample(list, sx, sy, sz, time)`: `*list` on return. -/
  XfmPushScaleSample : TransformSampleList K → K → K → K → K → TransformSampleList K
  /-- The call `XfmSetSampleTransformOrder(list, order)`: `*list` on return. -/
  XfmSetSampleTransformOrder : TransformSampleList K → Int → TransformSampleList K
  /-- The call `XfmSetSampleRotateOrder(list, order)`: `*list` on return. -/
  XfmSetSampleRotateOrder : TransformSampleList K → Int → TransformSampleList K
  /-- The call `XfmSetTransform(transform, transform_order, rotate_order, T, R, S)`: `*transform`
  on return. -/
  XfmSetTransform : Int → Int → Vec3 K → Vec3 K → Vec3 K → Transform K
  /-- The call `XfmTransformPoint(transform, point)`: `point` on return. -/
  XfmTransformPoint : Transform K → Vec3 K → Vec3 K
  /-- The call `XfmTransformVector(transform, vector)`: `vector` on return. -/
  XfmTransformVector : Transform K → Vec3 K → Vec3 K
  /-- The call `XfmTransformBounds(transform, bounds)`: `bounds` on return. -/
  XfmTransformBounds : Transform K → Box K → Box K
  /-- The call `XfmTransformPointInverse(transform, point)`: `point` on return. -/
  XfmTransformPointInverse : Transform K → Vec3 K → Vec3 K
  /-- The call `XfmTransformVectorInverse(transform, vector)`: `vector` on return. -/
  XfmTransformVectorInverse : Transform K → Vec3 K → Vec3 K

/-! ## Functions of `ObjectInstance.c` -/

/-- The function `ObjIsSurface`; `none` is the failed `assert(obj->volume == NULL)`. -/
def ObjIsSurface (obj : ObjectInstance K) : Option Int :=
  if obj.acc = none then some 0
  else if obj.volume = none then some 1
  else none

/-- The function `ObjIsVolume`; `none` is the failed `assert(obj->acc == NULL)`. -/
def ObjIsVolume (obj : ObjectInstance K) : Option Int :=
  if obj.volume = none then some 0
  else if obj.acc = none then some 1
  else none

/-- The function `ObjGetBounds`: the box copied to `bounds`. -/
def ObjGetBounds (obj : ObjectInstance K) : Box K :=
  obj.bounds

/-- The max-scale loop of `merge_sampled_bounds`: `S` starts as `samples[0].vector` and
takes `MAX` with the samples `1 ≤ i < sample_count`. -/
def maxScaleLoop (scale : PropertySampleList K) : Vec3 K :=
  (List.range' 1 (scale.sample_count - 1)).foldl
    (fun S i => ⟨MAX S.x (scale.samples i).vector.x, MAX S.y (scale.samples i).vector.y,
      MAX S.z (scale.samples i).vector.z⟩)
    (scale.samples 0).vector

/-- The static function `merge_sampled_bounds`. -/
def merge_sampled_bounds (E : Env K) (obj : ObjectInstance K) : ObjectInstance K :=
  let merged_bounds : Box K := ⟨FLT_MAX, FLT_MAX, FLT_MAX, -FLT_MAX, -FLT_MAX, -FLT_MAX⟩
  let original_bounds : Box K := ObjGetBounds obj
  let original_bounds : Box K :=
    if obj.transform_samples.rotate.sample_count > 1 then
      let diagonal := E.BoxDiagonal original_bounds
      let centroid := E.BoxCentroid original_bounds
      ⟨centroid.x - diagonal, centroid.y - diagonal, centroid.z - diagonal,
        centroid.x + diagonal, centroid.y + diagonal, centroid.z + diagonal⟩
    else original_bounds
  let S : Vec3 K := maxScaleLoop obj.transform_samples.scale
  let merged_bounds : Box K :=
    (List.range obj.transform_samples.translate.sample_count).foldl
      (fun merged_bounds i =>
        let T := (obj.transform_samples.translate.samples i).vector
        let R := (obj.transform_samples.rotate.samples i).vector
        let transform := E.XfmSetTransform obj.transform_samples.transform_order
          obj.transform_samples.rotate_order T R S
        let sample_bounds := E.XfmTransformBounds transform original_bounds
        E.BoxAddBox merged_bounds sample_bounds)
      merged_bounds
  { obj with bounds := merged_bounds }

/-- The static function `update_object_bounds`; `none` when an assertion of
`ObjIsSurface` or `ObjIsVolume` fails. -/
def update_object_bounds (E : Env K) (obj : ObjectInstance K) : Option (ObjectInstance K) :=
  match ObjIsSurface obj with
  | none => none
  | some s =>
    if s ≠ 0 then
      some (merge_sampled_bounds E { obj with bounds := E.AccGetBounds obj.acc })
    else
      match ObjIsVolume obj with
      | none => none
      | some v =>
        if v ≠ 0 then
          some (merge_sampled_bounds E { obj with bounds := E.VolGetBounds obj.volume })
        else
          some (merge_sampled_bounds E { obj with bounds :=
            ⟨FLT_MAX, FLT_MAX, FLT_MAX, -FLT_MAX, -FLT_MAX, -FLT_MAX⟩ })

/-- The function `ObjNew` when `malloc` succeeds; `mem` is the content of the block
`malloc` returned, so its fields are what `update_object_bounds` finds in the fields not
yet assigned. -/
def ObjNew (E : Env K) (mem : ObjectInstance K) (acc : Ptr) : Option (ObjectInstance K) :=
  let obj := { mem with acc := acc, volume := none }
  let obj := { obj with transform_samples := E.XfmInitTransformSampleList }
  match update_object_bounds E obj with
  | none => none
  | some obj =>
    some { obj with shader := none, target_lights := none, n_target_lights := 0,
                    reflection_target := none, refraction_target := none }

/-- The function `ObjSetVolume`: the return value and `*obj` on return; `none` when an
assertion fails. -/
def ObjSetVolume (E : Env K) (obj : ObjectInstance K) (volume : Ptr) :
    Option (Int × ObjectInstance K) :=
  if obj.acc ≠ none then some (-1, obj)
  else if obj.volume ≠ none then some (-1, obj)
  else
    match update_object_bounds E { obj with volume := volume } with
    | none => none
    | some obj => if obj.acc = none ∧ obj.volume ≠ none then some (0, obj) else none

/-- The function `ObjSetTranslate`. -/
def ObjSetTranslate (E : Env K) (obj : ObjectInstance K) (tx ty tz time : K) :
    Option (ObjectInstance K) :=
  let list := E.XfmPushTranslateSample obj.transform_samples tx ty tz time
  update_object_bounds E { obj with transform_samples := list }

/-- The function `ObjSetRotate`. -/
def ObjSetRotate (E : Env K) (obj : ObjectInstance K) (rx ry rz time : K) :
    Option (ObjectInstance K) :=
  let list := E.XfmPushRotateSample obj.transform_samples rx ry rz time
  update_object_bounds E { obj with transform_samples := list }

/-- The function `ObjSetScale`. -/
def ObjSetScale (E : Env K) (obj : ObjectInstance K) (sx sy sz time : K) :
    Option (ObjectInstance K) :=
  let list := E.XfmPushScaleSample obj.transform_samples sx sy sz time
  update_object_bounds E { obj with transform_samples := list }

/-- The function `ObjSetTransformOrder`. -/
def ObjSetTransformOrder (E : Env K) (obj : ObjectInstance K) (order : Int) :
    Option (ObjectInstance K) :=
  let list := E.XfmSetSampleTransformOrder obj.transform_samples order
  update_object_bounds E { obj with transform_samples := list }

/-- The function `ObjSetRotateOrder`. -/
def ObjSetRotateOrder (E : Env K) (obj : ObjectInstance K) (order : Int) :
    Option (ObjectInstance K) :=
  let list := E.XfmSetSampleRotateOrder obj.transform_samples order
  update_object_bounds E { obj with transform_samples := list }

/-- The function `ObjSetShader`. -/
def ObjSetShader (obj : ObjectInstance K) (shader : Ptr) : ObjectInstance K :=
  { obj with shader := shader }

/-- The function `ObjSetLightList`. -/
def ObjSetLightList (obj : ObjectInstance K) (lights : Ptr) (count : Int) :
    ObjectInstance K :=
  { obj with target_lights := lights, n_target_lights := count }

/-- The function `ObjSetReflectTarget`; `none` is the failed `assert(grp != NULL)`. -/
def ObjSetReflectTarget (obj : ObjectInstance K) (grp : Ptr) : Option (ObjectInstance K) :=
  if grp ≠ none then some { obj with reflection_target := grp } else none

/-- The function `ObjSetRefractTarget`; `none` is the failed `assert(grp != NULL)`. -/
def ObjSetRefractTarget (obj : ObjectInstance K) (grp : Ptr) : Option (ObjectInstance K) :=
  if grp ≠ none then some { obj with refraction_target := grp } else none

/-- The static function `get_interpolated_transform`: it writes the interpolation cache
of the instance through a cast of the `const` pointer and returns the address of the
cached transform; here, `*obj` on return and the transform the returned pointer points
to. -/
def get_interpolated_transform (E : Env K) (obj : ObjectInstance K) (time : K) :
    ObjectInstance K × Transform K :=
  let list := E.XfmLerpTransformSample obj.transform_samples time
  ({ obj with transform_samples := list }, list.transform_sample)

/-- What a call of `ObjIntersect` leaves: the return value, `*isect`, `*obj` and `*ray`
on return. -/
structure IntersectResult (K : Type) where
  ret : Int
  isect : Intersection K
  obj : ObjectInstance K
  ray : Ray K

/-- The function `ObjIntersect`; `self` is the pointer `obj` and `obj` the instance it
points to. `none` when the assertion of `ObjIsSurface` fails. -/
def ObjIntersect (E : Env K) (self : Ptr) (obj : ObjectInstance K) (time : K)
    (ray : Ray K) (isect : Intersection K) : Option (IntersectResult K) :=
  match ObjIsSurface obj with
  | none => none
  | some s =>
    if s = 0 then some ⟨0, isect, obj, ray⟩
    else
      let (obj, transform_interp) := get_interpolated_transform E obj time
      let ray_object_space := ray
      let ray_object_space := { ray_object_space with
        orig := E.XfmTransformPointInverse transform_interp ray_object_space.orig }
      let ray_object_space := { ray_object_space with
        dir := E.XfmTransformVectorInverse transform_interp ray_object_space.dir }
      let (hit, isect) := E.AccIntersect obj.acc time ray_object_space isect
      if hit = 0 then some ⟨0, isect, obj, ray⟩
      else
        let isect := { isect with P := E.XfmTransformPoint transform_interp isect.P }
        let isect := { isect with N := E.XfmTransformVector transform_interp isect.N }
        let isect := { isect with N := E.VEC3_NORMALIZE isect.N }
        let isect := { isect with dPds := E.XfmTransformVector transform_interp isect.dPds }
        let isect := { isect with dPdt := E.XfmTransformVector transform_interp isect.dPdt }
        let isect := { isect with object := self }
        some ⟨1, isect, obj, ray⟩

/-- What a call of `ObjVolumeIntersect` leaves: the return value, `*interval` and `*obj`
on return. -/
structure VolumeIntersectResult (K : Type) where
  ret : Int
  interval : Interval K
  obj : ObjectInstance K

/-- The function `ObjVolumeIntersect`; `self` is the pointer `obj` and `obj` the instance
it points to. `none` when the assertion of `ObjIsVolume` fails. -/
def ObjVolumeIntersect (E : Env K) (self : Ptr) (obj : ObjectInstance K) (time : K)
    (ray : Ray K) (interval : Interval K) : Option (VolumeIntersectResult K) :=
  let boxhit_tmin : K := 0
  let boxhit_tmax : K := 0
  match ObjIsVolume obj with
  | none => none
  | some s =>
    if s = 0 then some ⟨0, interval, obj⟩
    else
      let volume_bounds := E.VolGetBounds obj.volume
      let (obj, transform_interp) := get_interpolated_transform E obj time
      let ray_object_space := ray
      let ray_object_space := { ray_object_space with
        orig := E.XfmTransformPointInverse transform_interp ray_object_space.orig }
      let ray_object_space := { ray_object_space with
        dir := E.XfmTransformVectorInverse transform_interp ray_object_space.dir }
      let (hit, boxhit_tmin, boxhit_tmax) := E.BoxRayIntersect volume_bounds
        ray_object_space.orig ray_object_space.dir ray_object_space.tmin
        ray_object_space.tmax boxhit_tmin boxhit_tmax
      if hit = 0 then some ⟨0, interval, obj⟩
      else
        let interval := { interval with tmin := boxhit_tmin }
        let interval := { interval with tmax := boxhit_tmax }
        let interval := { interval with object := self }
        some ⟨1, interval, obj⟩

/-- What a call of `ObjGetVolumeSample` leaves: the return value, `*sample` and `*obj` on
return. -/
structure VolumeSampleResult (K S : Type) where
  ret : Int
  sample : S
  obj : ObjectInstance K

/-- The function `ObjGetVolumeSample`. The type `S` stands for `struct VolumeSample` and
`VolGetSample` for the function of that name (`Volume.h`, missing): from the volume, the
point and `*sample` at the call to the return value and `*sample` on return. `none` when
the assertion of `ObjIsVolume` fails. -/
def ObjGetVolumeSample {S : Type} (E : Env K) (VolGetSample : Ptr → Vec3 K → S → Int × S)
    (obj : ObjectInstance K) (time : K) (point : Vec3 K) (sample : S) :
    Option (VolumeSampleResult K S) :=
  match ObjIsVolume obj with
  | none => none
  | some s =>
    if s = 0 then some ⟨0, sample, obj⟩
    else
      let (obj, transform_interp) := get_interpolated_transform E obj time
      let point_in_objspace := point
      let point_in_objspace := E.XfmTransformPointInverse transform_interp point_in_objspace
      let (hit, sample) := VolGetSample obj.volume point_in_objspace sample
      some ⟨hit, sample, obj⟩

/-! ## Call sequences on an instance -/

/-- A call of one of the setters of `ObjectInstance.h` on an instance. -/
inductive Call (K : Type) where
  | SetVolume (volume : Ptr)
  | SetTranslate (tx ty tz time : K)
  | SetRotate (rx ry rz time : K)
  | SetScale (sx sy sz time : K)
  | SetTransformOrder (order : Int)
  | SetRotateOrder (order : Int)
  | SetShader (shader : Ptr)
  | SetLightList (lights : Ptr) (count : Int)
  | SetReflectTarget (grp : Ptr)
  | SetRefractTarget (grp : Ptr)

/-- The instance after one call; `none` when the call aborts on an assertion. -/
def Call.exec (E : Env K) (obj : ObjectInstance K) : Call K → Option (ObjectInstance K)
  | .SetVolume volume => (ObjSetVolume E obj volume).map Prod.snd
  | .SetTranslate tx ty tz time => ObjSetTranslate E obj tx ty tz time
  | .SetRotate rx ry rz time => ObjSetRotate E obj rx ry rz time
  | .SetScale sx sy sz time => ObjSetScale E obj sx sy sz time
  | .SetTransformOrder order => ObjSetTransformOrder E obj order
  | .SetRotateOrder order => ObjSetRotateOrder E obj order
  | .SetShader shader => some (ObjSetShader obj shader)
  | .SetLightList lights count => some (ObjSetLightList obj lights count)
  | .SetReflectTarget grp => ObjSetReflectTarget obj grp
  | .SetRefractTarget grp => ObjSetRefractTarget obj grp

/-- The instance after a sequence of calls, first call first; `none` when one of them
aborts. -/
def runCalls (E : Env K) (obj : ObjectInstance K) : List (Call K) → Option (ObjectInstance K)
  | [] => some obj
  | c :: cs =>
    match c.exec E obj with
    | none => none
    | some obj => runCalls E obj cs

/-- The instance `ObjNew(acc)` creates, after the given calls. -/
def created (E : Env K) (mem : ObjectInstance K) (acc : Ptr) (calls : List (Call K)) :
    Option (ObjectInstance K) :=
  match ObjNew E mem acc with
  | none => none
  | some obj => runCalls E obj calls

/-! ## The bounds computation in the words of the spec (§4.4) -/

/-- The vectors of the samples `samples[0] … samples[sample_count - 1]` of a sequence. -/
def sampleVectors (p : PropertySampleList K) : List (Vec3 K) :=
  (List.range p.sample_count).map fun i => (p.samples i).vector

/-- The local bounds of an instance: those of its accelerator, else those of its volume,
else (an instance with neither) the empty box. -/
def localBounds (E : Env K) (obj : ObjectInstance K) : Box K :=
  if obj.acc ≠ none then E.AccGetBounds obj.acc
  else if obj.volume ≠ none then E.VolGetBounds obj.volume
  else emptyBox

/-- Step 1 of §4.4: with more than one rotation sample the box is replaced by the cube
centred at its centroid with half-extent its diagonal. -/
def specExpand (E : Env K) (rotate : PropertySampleList K) (box : Box K) : Box K :=
  if 1 < rotate.sample_count then
    ⟨(E.BoxCentroid box).x - E.BoxDiagonal box, (E.BoxCentroid box).y - E.BoxDiagonal box,
      (E.BoxCentroid box).z - E.BoxDiagonal box, (E.BoxCentroid box).x + E.BoxDiagonal box,
      (E.BoxCentroid box).y + E.BoxDiagonal box, (E.BoxCentroid box).z + E.BoxDiagonal box⟩
  else box

/-- Step 2 of §4.4: the maximum per axis across all scale samples (a sequence without a
sample has none; the unit scale stands in for it). -/
def specMaxScale (scale : PropertySampleList K) : Vec3 K :=
  match sampleVectors scale with
  | [] => ⟨1, 1, 1⟩
  | v :: vs =>
    ⟨(vs.map Vec3.x).foldr max v.x, (vs.map Vec3.y).foldr max v.y,
      (vs.map Vec3.z).foldr max v.z⟩

/-- Steps 3 and 4 of §4.4: for every translate sample, the transform of that sample, the
rotate sample at the same index and the maximum scale is applied to the box of step 1;
the union of the resulting boxes is the world bounds. -/
def computeBounds (E : Env K) (box : Box K) (list : TransformSampleList K) : Box K :=
  ((List.range list.translate.sample_count).map fun i =>
      E.XfmTransformBounds
        (E.XfmSetTransform list.transform_order list.rotate_order
          (list.translate.samples i).vector (list.rotate.samples i).vector
          (specMaxScale list.scale))
        (specExpand E list.rotate box)).foldl E.BoxAddBox emptyBox

/-! ## The collaborators as the spec describes them

The functions of `Env` are not in the sources at hand. For runs on concrete instances they
are modelled here from §4.1, §4.2 and §4.4 of the spec. What the spec leaves open is a
parameter: the cosine and sine (`trig`) and the square root (`sqrt`) of the C library,
which have no exact values in `ℚ`, the scene (`Scene`), and the content of a freshly
initialised sample list. -/

/-- Modelled from the spec: the product of two 4×4 matrices stored row by row, entry
`[4 * i + j]` being row `i`, column `j` (`Matrix.h` is missing). -/
def Mat4.mul (a b : Mat4 K) : Mat4 K :=
  ⟨a.m0 * b.m0 + a.m1 * b.m4 + a.m2 * b.m8 + a.m3 * b.m12,
   a.m0 * b.m1 + a.m1 * b.m5 + a.m2 * b.m9 + a.m3 * b.m13,
   a.m0 * b.m2 + a.m1 * b.m6 + a.m2 * b.m10 + a.m3 * b.m14,
   a.m0 * b.m3 + a.m1 * b.m7 + a.m2 * b.m11 + a.m3 * b.m15,
   a.m4 * b.m0 + a.m5 * b.m4 + a.m6 * b.m8 + a.m7 * b.m12,
   a.m4 * b.m1 + a.m5 * b.m5 + a.m6 * b.m9 + a.m7 * b.m13,
   a.m4 * b.m2 + a.m5 * b.m6 + a.m6 * b.m10 + a.m7 * b.m14,
   a.m4 * b.m3 + a.m5 * b.m7 + a.m6 * b.m11 + a.m7 * b.m15,
   a.m8 * b.m0 + a.m9 * b.m4 + a.m10 * b.m8 + a.m11 * b.m12,
   a.m8 * b.m1 + a.m9 * b.m5 + a.m10 * b.m9 + a.m11 * b.m13,
   a.m8 * b.m2 + a.m9 * b.m6 + a.m10 * b.m10 + a.m11 * b.m14,
   a.m8 * b.m3 + a.m9 * b.m7 + a.m10 * b.m11 + a.m11 * b.m15,
   a.m12 * b.m0 + a.m13 * b.m4 + a.m14 * b.m8 + a.m15 * b.m12,
   a.m12 * b.m1 + a.m13 * b.m5 + a.m14 * b.m9 + a.m15 * b.m13,
   a.m12 * b.m2 + a.m13 * b.m6 + a.m14 * b.m10 + a.m15 * b.m14,
   a.m12 * b.m3 + a.m13 * b.m7 + a.m14 * b.m11 + a.m15 * b.m15⟩

/-- Modelled from the spec: the transpose of a 4×4 matrix ("rotation transposed"). -/
def Mat4.transpose (a : Mat4 K) : Mat4 K :=
  ⟨a.m0, a.m4, a.m8, a.m12, a.m1, a.m5, a.m9, a.m13, a.m2, a.m6, a.m10, a.m14, a.m3, a.m7, a.m11, a.m15⟩

/-- Modelled from the spec: the identity matrix. -/
def Mat4.identity : Mat4 K :=
  ⟨1, 0, 0, 0, 0, 1, 0, 0, 0, 0, 1, 0, 0, 0, 0, 1⟩

/-- Modelled from the spec: the elementary translate matrix of §4.1. -/
def translateMatrix (t : Vec3 K) : Mat4 K :=
  ⟨1, 0, 0, t.x, 0, 1, 0, t.y, 0, 0, 1, t.z, 0, 0, 0, 1⟩

/-- Modelled from the spec: the elementary scale matrix of §4.1. -/
def scaleMatrix (s : Vec3 K) : Mat4 K :=
  ⟨s.x, 0, 0, 0, 0, s.y, 0, 0, 0, 0, s.z, 0, 0, 0, 0, 1⟩

/-- Modelled from the spec: the rotation about the x axis with cosine `cs.1` and sine
`cs.2`. -/
def rotateXMatrix (cs : K × K) : Mat4 K :=
  ⟨1, 0, 0, 0, 0, cs.1, -cs.2, 0, 0, cs.2, cs.1, 0, 0, 0, 0, 1⟩

/-- Modelled from the spec: the rotation about the y axis with cosine `cs.1` and sine
`cs.2`. -/
def rotateYMatrix (cs : K × K) : Mat4 K :=
  ⟨cs.1, 0, cs.2, 0, 0, 1, 0, 0, -cs.2, 0, cs.1, 0, 0, 0, 0, 1⟩

/-- Modelled from the spec: the rotation about the z axis with cosine `cs.1` and sine
`cs.2`. -/
def rotateZMatrix (cs : K × K) : Mat4 K :=
  ⟨cs.1, -cs.2, 0, 0, cs.2, cs.1, 0, 0, 0, 0, 1, 0, 0, 0, 0, 1⟩

/-- Modelled from the spec: three maps composed in the order one of the six permutations
names, the first letter applied first. The codes are those of `enum TransformOrder`:
`ORDER_SRT = 0 … ORDER_TSR = 5` with `(a, b, c) = (S, R, T)` and
`ORDER_XYZ = 6 … ORDER_ZYX = 11` with `(a, b, c) = (X, Y, Z)`. The matrix of "first `p`,
then `q`, then `r`" is `r * q * p`. Another code leaves the identity. -/
def composeInOrder (order : Int) (a b c : Mat4 K) : Mat4 K :=
  if order = 0 ∨ order = 6 then c.mul (b.mul a)
  else if order = 1 ∨ order = 7 then b.mul (c.mul a)
  else if order = 2 ∨ order = 8 then c.mul (a.mul b)
  else if order = 3 ∨ order = 9 then a.mul (c.mul b)
  else if order = 4 ∨ order = 10 then a.mul (b.mul c)
  else if order = 5 ∨ order = 11 then b.mul (a.mul c)
  else Mat4.identity

/-- Modelled from the spec: the inverses `a`, `b`, `c` of three maps composed in the
reverse of the order `composeInOrder` uses ("composed in reverse order"). -/
def composeInReverse (order : Int) (a b c : Mat4 K) : Mat4 K :=
  if order = 0 ∨ order = 6 then a.mul (b.mul c)
  else if order = 1 ∨ order = 7 then a.mul (c.mul b)
  else if order = 2 ∨ order = 8 then b.mul (a.mul c)
  else if order = 3 ∨ order = 9 then b.mul (c.mul a)
  else if order = 4 ∨ order = 10 then c.mul (b.mul a)
  else if order = 5 ∨ order = 11 then c.mul (a.mul b)
  else Mat4.identity

/-- Modelled from the spec: `XfmSetTransform` of `Transform.h`, the `Set` of §4.1. The
matrix composes the elementary scale, rotate and translate matrices in `transform_order`,
the rotation composing the three axis rotations in `rotate_order`; the inverse composes,
in reverse order, the reciprocal scale, the transposed rotation and the negated
translation. -/
def specSetTransform (trig : K → K × K) (transform_order rotate_order : Int)
    (T R S : Vec3 K) : Transform K :=
  let rot := composeInOrder rotate_order (rotateXMatrix (trig R.x))
    (rotateYMatrix (trig R.y)) (rotateZMatrix (trig R.z))
  { matrix := composeInOrder transform_order (scaleMatrix S) rot (translateMatrix T)
    inverse := composeInReverse transform_order (scaleMatrix ⟨1 / S.x, 1 / S.y, 1 / S.z⟩)
      rot.transpose (translateMatrix ⟨-T.x, -T.y, -T.z⟩)
    transform_order := transform_order
    rotate_order := rotate_order
    translate := T
    rotate := R
    scale := S }

/-- Modelled from the spec: a matrix applied to a point ("point transforms apply
translation"). -/
def Mat4.applyPoint (m : Mat4 K) (p : Vec3 K) : Vec3 K :=
  ⟨m.m0 * p.x + m.m1 * p.y + m.m2 * p.z + m.m3,
   m.m4 * p.x + m.m5 * p.y + m.m6 * p.z + m.m7,
   m.m8 * p.x + m.m9 * p.y + m.m10 * p.z + m.m11⟩

/-- Modelled from the spec: a matrix applied to a vector ("vectors do not"). -/
def Mat4.applyVector (m : Mat4 K) (v : Vec3 K) : Vec3 K :=
  ⟨m.m0 * v.x + m.m1 * v.y + m.m2 * v.z,
   m.m4 * v.x + m.m5 * v.y + m.m6 * v.z,
   m.m8 * v.x + m.m9 * v.y + m.m10 * v.z⟩

/-- Modelled from the spec: `BoxAddPoint` of `Box.h` (missing), the box grown to hold a
point. -/
def BoxAddPoint (box : Box K) (p : Vec3 K) : Box K :=
  ⟨min box.xmin p.x, min box.ymin p.y, min box.zmin p.z,
   max box.xmax p.x, max box.ymax p.y, max box.zmax p.z⟩

/-- Modelled from the spec: `BoxAddBox` of `Box.h` (missing), the axis-aligned union of
two boxes. -/
def specBoxAddBox (box other : Box K) : Box K :=
  ⟨min box.xmin other.xmin, min box.ymin other.ymin, min box.zmin other.zmin,
   max box.xmax other.xmax, max box.ymax other.ymax, max box.zmax other.zmax⟩

/-- The eight corners of a box. -/
def Box.corners (b : Box K) : List (Vec3 K) :=
  [⟨b.xmin, b.ymin, b.zmin⟩, ⟨b.xmax, b.ymin, b.zmin⟩, ⟨b.xmin, b.ymax, b.zmin⟩,
   ⟨b.xmax, b.ymax, b.zmin⟩, ⟨b.xmin, b.ymin, b.zmax⟩, ⟨b.xmax, b.ymin, b.zmax⟩,
   ⟨b.xmin, b.ymax, b.zmax⟩, ⟨b.xmax, b.ymax, b.zmax⟩]

/-- Modelled from the spec: `ApplyBounds` of §4.1 for a matrix: the eight corners of the
box are transformed and the enclosing axis-aligned box is taken. -/
def Mat4.applyBounds (m : Mat4 K) (b : Box K) : Box K :=
  (b.corners.map m.applyPoint).foldl BoxAddPoint emptyBox

/-- Modelled from the spec: `BoxCentroid` of `Box.h` (missing), the centre of the box. -/
def specBoxCentroid (b : Box K) : Vec3 K :=
  ⟨(b.xmin + b.xmax) / 2, (b.ymin + b.ymax) / 2, (b.zmin + b.zmax) / 2⟩

/-- Modelled from the spec: `BoxDiagonal` of `Box.h` (missing), the "half-diagonal length"
of the box. -/
def specBoxDiagonal (sqrt : K → K) (b : Box K) : K :=
  sqrt ((b.xmax - b.xmin) * (b.xmax - b.xmin) + (b.ymax - b.ymin) * (b.ymax - b.ymin)
    + (b.zmax - b.zmin) * (b.zmax - b.zmin)) / 2

/-- Modelled from the spec: `VEC3_NORMALIZE` of `Vector.h` (missing), the vector divided
by its length; the zero vector is left as it is. -/
def specNormalize (sqrt : K → K) (v : Vec3 K) : Vec3 K :=
  let len := sqrt (VEC3_DOT v v)
  if len = 0 then v else ⟨v.x / len, v.y / len, v.z / len⟩

/-- One axis of the slab test: the parameter interval `[lo, hi]` cut down to the part
where `orig + t * dir` lies between `bmin` and `bmax`; `none` when that part is empty
because the ray runs beside the slab. -/
def slabAxis (bmin bmax orig dir : K) (lohi : K × K) : Option (K × K) :=
  if dir = 0 then
    if bmin ≤ orig ∧ orig ≤ bmax then some lohi else none
  else
    let t0 := (bmin - orig) / dir
    let t1 := (bmax - orig) / dir
    some (max lohi.1 (min t0 t1), min lohi.2 (max t0 t1))

/-- Modelled from the spec: `BoxRayIntersect` of `Box.h` (missing), the slab test of
§4.3: the entry and exit parameters of the ray against the box, clamped to
`[tmin, tmax]`; a miss leaves `*hit_tmin` and `*hit_tmax` alone. -/
def specBoxRayIntersect (box : Box K) (orig dir : Vec3 K) (tmin tmax hit_tmin hit_tmax : K) :
    Int × K × K :=
  match (slabAxis box.xmin box.xmax orig.x dir.x (tmin, tmax)).bind
      (fun r => (slabAxis box.ymin box.ymax orig.y dir.y r).bind
        (fun r => slabAxis box.zmin box.zmax orig.z dir.z r)) with
  | none => (0, hit_tmin, hit_tmax)
  | some r => if r.1 ≤ r.2 then (1, r.1, r.2) else (0, hit_tmin, hit_tmax)

/-- The samples `samples[0] … samples[sample_count - 1]` of a sequence. -/
def sampleList (p : PropertySampleList K) : List (PropertySample K) :=
  (List.range p.sample_count).map p.samples

/-- Modelled from the spec: the interpolation of one property in §4.2. The bracketing pair
of samples is located by time, a time outside the sampled range is clamped to the first or
last sample, and between two samples the vectors are interpolated linearly with
`u = (time - t0) / (t1 - t0)`. The spec gives no value for a sequence without a sample;
the zero vector stands in. -/
def lerpSamples : List (PropertySample K) → K → Vec3 K
  | [], _ => ⟨0, 0, 0⟩
  | [a], _ => a.vector
  | a :: b :: rest, time =>
    if time ≤ a.time then a.vector
    else if time ≤ b.time then
      let u := (time - a.time) / (b.time - a.time)
      ⟨a.vector.x + u * (b.vector.x - a.vector.x), a.vector.y + u * (b.vector.y - a.vector.y),
        a.vector.z + u * (b.vector.z - a.vector.z)⟩
    else lerpSamples (b :: rest) time

/-- Modelled from the spec: `Interpolate(time)` of §4.2 as a function of the samples: the
transform set from the three interpolated vectors. -/
def specInterpolate (trig : K → K × K) (list : TransformSampleList K) (time : K) :
    Transform K :=
  specSetTransform trig list.transform_order list.rotate_order
    (lerpSamples (sampleList list.translate) time)
    (lerpSamples (sampleList list.rotate) time)
    (lerpSamples (sampleList list.scale) time)

/-- Modelled from the spec: `XfmLerpTransformSample` of `Transform.h`: the interpolated
transform is stored in the cache `transform_sample` with its time; a query at the cached
time leaves the list as it is. -/
def specLerpTransformSample (trig : K → K × K) (list : TransformSampleList K) (time : K) :
    TransformSampleList K :=
  if time = list.last_sample_time then list
  else { list with transform_sample := specInterpolate trig list time,
                   last_sample_time := time }

/-- Modelled from the spec: a sample appended to a sequence (§4.2, "appends to the
respective sequence"). -/
def pushSample (p : PropertySampleList K) (x y z time : K) : PropertySampleList K :=
  { samples := fun i => if i = p.sample_count then ⟨⟨x, y, z⟩, time⟩ else p.samples i
    sample_count := p.sample_count + 1 }

/-- The part of the scene an instance refers to: what `AccGetBounds`, `AccIntersect` and
`VolGetBounds` answer for an accelerator or volume pointer. -/
structure Scene (K : Type) where
  AccGetBounds : Ptr → Box K
  AccIntersect : Ptr → K → Ray K → Intersection K → Int × Intersection K
  VolGetBounds : Ptr → Box K

/-- Modelled from the spec: the functions `ObjectInstance.c` calls, as §4.1, §4.2 and §4.4
describe them, over a scene; `init` is the list `XfmInitTransformSampleList` leaves. -/
def specEnv (trig : K → K × K) (sqrt : K → K) (scene : Scene K)
    (init : TransformSampleList K) : Env K where
  AccGetBounds := scene.AccGetBounds
  AccIntersect := scene.AccIntersect
  VolGetBounds := scene.VolGetBounds
  BoxDiagonal := specBoxDiagonal sqrt
  BoxCentroid := specBoxCentroid
  BoxAddBox := specBoxAddBox
  BoxRayIntersect := specBoxRayIntersect
  VEC3_NORMALIZE := specNormalize sqrt
  XfmInitTransformSampleList := init
  XfmLerpTransformSample := specLerpTransformSample trig
  XfmPushTranslateSample := fun list x y z time =>
    { list with translate := pushSample list.translate x y z time }
  XfmPushRotateSample := fun list x y z time =>
    { list with rotate := pushSample list.rotate x y z time }
  XfmPushScaleSample := fun list x y z time =>
    { list with scale := pushSample list.scale x y z time }
  XfmSetSampleTransformOrder := fun list order => { list with transform_order := order }
  XfmSetSampleRotateOrder := fun list order => { list with rotate_order := order }
  XfmSetTransform := specSetTransform trig
  XfmTransformPoint := fun t p => t.matrix.applyPoint p
  XfmTransformVector := fun t v => t.matrix.applyVector v
  XfmTransformBounds := fun t b => t.matrix.applyBounds b
  XfmTransformPointInverse := fun t p => t.inverse.applyPoint p
  XfmTransformVectorInverse := fun t v => t.inverse.applyVector v

/-! ## A concrete scene for runs -/

/-- The function `TriComputeBounds` of `Triangle.c`: the box written to `box`. -/
def TriComputeBounds (vert0 vert1 vert2 : Vec3 K) : Box K :=
  let box : Box K := ⟨FLT_MAX, FLT_MAX, FLT_MAX, -FLT_MAX, -FLT_MAX, -FLT_MAX⟩
  let box := BoxAddPoint box vert0
  let box := BoxAddPoint box vert1
  BoxAddPoint box vert2

/-- A scene for the runs below: every accelerator holds the one triangle
`(1,1,1), (2,1,1), (1,2,1)`, tested without culling within the ray's `[tmin, tmax]`, and
every volume fills the unit cube. -/
def triangleScene : Scene K where
  AccGetBounds := fun _ => TriComputeBounds ⟨1, 1, 1⟩ ⟨2, 1, 1⟩ ⟨1, 2, 1⟩
  AccIntersect := fun _ _ ray isect =>
    let h := TriRayIntersect ⟨1, 1, 1⟩ ⟨2, 1, 1⟩ ⟨1, 2, 1⟩ ray.orig ray.dir 0 0 0 0
    if h.ret = 1 ∧ ray.tmin ≤ h.t ∧ h.t ≤ ray.tmax then
      (1, { isect with P := rayAt ray.orig ray.dir h.t, N := ⟨0, 0, 1⟩,
                       dPds := ⟨1, 0, 0⟩, dPdt := ⟨0, 1, 0⟩ })
    else (0, isect)
  VolGetBounds := fun _ => ⟨0, 0, 0, 1, 1, 1⟩

/-- A freshly initialised sample list for the runs below, the pose at rest: one sample per
property at time 0 (no translation, no rotation, unit scale), the orders `ORDER_SRT` and
`ORDER_ZXY`, and an interpolation cache holding the identity for a time no query uses. -/
def restPose : TransformSampleList K where
  translate := ⟨fun _ => ⟨⟨0, 0, 0⟩, 0⟩, 1⟩
  rotate := ⟨fun _ => ⟨⟨0, 0, 0⟩, 0⟩, 1⟩
  scale := ⟨fun i => if i = 0 then ⟨⟨1, 1, 1⟩, 0⟩ else ⟨⟨0, 0, 0⟩, 0⟩, 1⟩
  transform_order := 0
  rotate_order := 10
  transform_sample := ⟨Mat4.identity, Mat4.identity, 0, 10, ⟨0, 0, 0⟩, ⟨0, 0, 0⟩, ⟨1, 1, 1⟩⟩
  last_sample_time := -FLT_MAX

/-- A block of memory for `ObjNew` in the runs below: every field zero. -/
def zeroMemory : ObjectInstance K where
  acc := none
  volume := none
  bounds := ⟨0, 0, 0, 0, 0, 0⟩
  transform_samples :=
    { translate := ⟨fun _ => ⟨⟨0, 0, 0⟩, 0⟩, 0⟩
      rotate := ⟨fun _ => ⟨⟨0, 0, 0⟩, 0⟩, 0⟩
      scale := ⟨fun _ => ⟨⟨0, 0, 0⟩, 0⟩, 0⟩
      transform_order := 0
      rotate_order := 0
      transform_sample :=
        ⟨⟨0, 0, 0, 0, 0, 0, 0, 0, 0, 0, 0, 0, 0, 0, 0, 0⟩,
          ⟨0, 0, 0, 0, 0, 0, 0, 0, 0, 0, 0, 0, 0, 0, 0, 0⟩, 0, 0, ⟨0, 0, 0⟩, ⟨0, 0, 0⟩,
          ⟨0, 0, 0⟩⟩
      last_sample_time := 0 }
  shader := none
  target_lights := none
  n_target_lights := 0
  reflection_target := none
  refraction_target := none

/-- The cosine and sine of the angle 0, the only angle the runs below turn by. -/
def trigZero : ℚ → ℚ × ℚ :=
  fun _ => (1, 0)

/-- The collaborators of the runs below: the spec's functions over `triangleScene`,
starting from `restPose`, with the square root of `ℚ` (exact on squares). -/
def runEnv : Env ℚ :=
  specEnv trigZero Rat.sqrt triangleScene restPose

/-- A surface instance for the runs below: the accelerator at address 1, at rest. -/
def restingSurface : ObjectInstance ℚ :=
  { (zeroMemory : ObjectInstance ℚ) with
    acc := some 1, bounds := ⟨1, 1, 1, 2, 2, 1⟩, transform_samples := restPose }

/-- A volume instance for the runs below: the volume at address 5, at rest. -/
def restingVolume : ObjectInstance ℚ :=
  { (zeroMemory : ObjectInstance ℚ) with
    volume := some 5, bounds := ⟨0, 0, 0, 1, 1, 1⟩, transform_samples := restPose }

/-- A ray for the runs below: from `(5/4, 5/4, 2)` straight down onto the triangle of
`triangleScene`. -/
def downRay : Ray ℚ :=
  ⟨⟨5 / 4, 5 / 4, 2⟩, ⟨0, 0, -1⟩, 0, 10⟩

/-- An intersection record for the runs below, not yet written. -/
def blankIsect : Intersection ℚ :=
  ⟨⟨0, 0, 0⟩, ⟨0, 0, 0⟩, ⟨0, 0, 0⟩, ⟨0, 0, 0⟩, none⟩

/-- The box `a` lies inside the box `b`. -/
def Box.inside (a b : Box K) : Prop :=
  b.xmin ≤ a.xmin ∧ b.ymin ≤ a.ymin ∧ b.zmin ≤ a.zmin ∧
  a.xmax ≤ b.xmax ∧ a.ymax ≤ b.ymax ∧ a.zmax ≤ b.zmax

/-! ## The other functions of `Triangle.c` in exact arithmetic -/

/-- Modelled from the spec: the macro `VEC3_LEN(a)` of `Vector.h` (missing), the Euclidean
length of `a` ("magnitude"), over the square root `sqrt`. -/
def specLen (sqrt : K → K) (a : Vec3 K) : K :=
  sqrt (VEC3_DOT a a)

/-- The function `TriComputeArea` of `Triangle.c` in exact arithmetic; the argument
`VEC3_LEN` is the macro of that name. The function with every operation rounded is
`TriComputeArea_rnd`. -/
def TriComputeArea (VEC3_LEN : Vec3 K → K) (vert0 vert1 vert2 : Vec3 K) : K :=
  let a := VEC3_SUB vert1 vert0
  let b := VEC3_SUB vert2 vert0
  let cross := VEC3_CROSS a b
  1 / 2 * VEC3_LEN cross

/-- The function `TriComputeFaceNormal` of `Triangle.c` in exact arithmetic: the vector
written to `N`; the argument `VEC3_NORMALIZE` is the macro of that name. The function with
every operation rounded is `TriComputeFaceNormal_rnd`. -/
def TriComputeFaceNormal (VEC3_NORMALIZE : Vec3 K → Vec3 K) (vert0 vert1 vert2 : Vec3 K) :
    Vec3 K :=
  let edge1 := VEC3_SUB vert1 vert0
  let edge2 := VEC3_SUB vert2 vert0
  let N := VEC3_CROSS edge1 edge2
  VEC3_NORMALIZE N

/-- The function `TriComputeNormal` of `Triangle.c` in exact arithmetic: the vector written
to `N`. The function with every operation rounded is `TriComputeNormal_rnd`. -/
def TriComputeNormal (N0 N1 N2 : Vec3 K) (u v : K) : Vec3 K :=
  let t := 1 - u - v
  ⟨t * N0.x + u * N1.x + v * N2.x,
   t * N0.y + u * N1.y + v * N2.y,
   t * N0.z + u * N1.z + v * N2.z⟩

/-- Three points on one line: each is `p + s * d` for a common point `p` and a common
direction `d`. -/
def OnOneLine (a b c : Vec3 K) : Prop :=
  ∃ p d : Vec3 K, ∃ sa sb sc : K, a = rayAt p d sa ∧ b = rayAt p d sb ∧ c = rayAt p d sc

/-! ## The loops of `merge_sampled_bounds`, observed -/

/-- The value of `original_bounds` in `merge_sampled_bounds` when the accumulation loop
starts: the box every per-sample transform is applied to. -/
def rotationBounds (E : Env K) (obj : ObjectInstance K) : Box K :=
  let original_bounds : Box K := ObjGetBounds obj
  if obj.transform_samples.rotate.sample_count > 1 then
    let diagonal := E.BoxDiagonal original_bounds
    let centroid := E.BoxCentroid original_bounds
    ⟨centroid.x - diagonal, centroid.y - diagonal, centroid.z - diagonal,
      centroid.x + diagonal, centroid.y + diagonal, centroid.z + diagonal⟩
  else original_bounds

/-- The static function `merge_sampled_bounds` with a log: next to the instance it
leaves, the indices `i` of the reads `rotate.samples[i]` of the accumulation loop, in the
order they are made. -/
def merge_sampled_bounds_logged (E : Env K) (obj : ObjectInstance K) :
    ObjectInstance K × List Nat :=
  let merged_bounds : Box K := ⟨FLT_MAX, FLT_MAX, FLT_MAX, -FLT_MAX, -FLT_MAX, -FLT_MAX⟩
  let original_bounds : Box K := ObjGetBounds obj
  let original_bounds : Box K :=
    if obj.transform_samples.rotate.sample_count > 1 then
      let diagonal := E.BoxDiagonal original_bounds
      let centroid := E.BoxCentroid original_bounds
      ⟨centroid.x - diagonal, centroid.y - diagonal, centroid.z - diagonal,
        centroid.x + diagonal, centroid.y + diagonal, centroid.z + diagonal⟩
    else original_bounds
  let S : Vec3 K := maxScaleLoop obj.transform_samples.scale
  let logged : Box K × List Nat :=
    (List.range obj.transform_samples.translate.sample_count).foldl
      (fun logged i =>
        let T := (obj.transform_samples.translate.samples i).vector
        let R := (obj.transform_samples.rotate.samples i).vector
        let transform := E.XfmSetTransform obj.transform_samples.transform_order
          obj.transform_samples.rotate_order T R S
        let sample_bounds := E.XfmTransformBounds transform original_bounds
        (E.BoxAddBox logged.1 sample_bounds, logged.2 ++ [i]))
      (merged_bounds, [])
  ({ obj with bounds := logged.1 }, logged.2)

/-! ## More of the concrete scene -/

/-- A sample list for the runs below: the pose at rest with a second scale sample, the
scale `(2, 2, 2)` at time 1; the interpolation cache still holds the identity. -/
def growingPose : TransformSampleList ℚ :=
  { (restPose : TransformSampleList ℚ) with
    scale := ⟨fun i => if i = 0 then ⟨⟨1, 1, 1⟩, 0⟩ else ⟨⟨2, 2, 2⟩, 1⟩, 2⟩ }

/-- A surface instance for the runs below: the accelerator at address 1, growing from
scale 1 at time 0 to scale 2 at time 1. -/
def growingSurface : ObjectInstance ℚ :=
  { restingSurface with bounds := ⟨2, 2, 2, 4, 4, 2⟩, transform_samples := growingPose }

/-- A volume instance for the runs below: the volume at address 5, growing from scale 1 at
time 0 to scale 2 at time 1. -/
def growingVolume : ObjectInstance ℚ :=
  { restingVolume with bounds := ⟨0, 0, 0, 2, 2, 2⟩, transform_samples := growingPose }

/-- A ray for the runs below: from `(7/4, 7/4, 5)` straight down. It meets the triangle
of `triangleScene` scaled by 3/2 and passes beside the triangle itself. -/
def highRay : Ray ℚ :=
  ⟨⟨7 / 4, 7 / 4, 5⟩, ⟨0, 0, -1⟩, 0, 10⟩

/-- A ray for the runs below: from `(5/4, 5/4, 3)` straight down. It crosses the unit cube
scaled by 3/2 and passes beside the unit cube itself. -/
def cubeRay : Ray ℚ :=
  ⟨⟨5 / 4, 5 / 4, 3⟩, ⟨0, 0, -1⟩, 0, 10⟩

/-- A scale sequence for the runs below: the samples `(-3, 1, 1)` at time 0 and
`(2, 1, 1)` at time 1. -/
def mirrorScale : PropertySampleList ℚ :=
  ⟨fun i => if i = 0 then ⟨⟨-3, 1, 1⟩, 0⟩ else ⟨⟨2, 1, 1⟩, 1⟩, 2⟩

/-- A surface instance for the runs below: local bounds `[0,2] × [0,1] × [0,2]` and two
rotation samples, both without rotation. -/
def turningBox : ObjectInstance ℚ :=
  { restingSurface with
    bounds := ⟨0, 0, 0, 2, 1, 2⟩
    transform_samples := { (restPose : TransformSampleList ℚ) with
      rotate := ⟨fun i => if i = 0 then ⟨⟨0, 0, 0⟩, 0⟩ else ⟨⟨0, 0, 0⟩, 1⟩, 2⟩ } }

/-- An instance for the runs below with neither accelerator nor volume, at rest: what
`ObjNew(NULL)` leaves but for the bounds. -/
def restingEmpty : ObjectInstance ℚ :=
  { (zeroMemory : ObjectInstance ℚ) with transform_samples := restPose }

/-! ## `Triangle.c` with rounding

The definitions of `Triangle.c` above take every operation on a `double` as the exact
operation of the field. Those below take a rounding `rnd` and apply it to the result of
every addition, subtraction, multiplication and division, in the order the C expressions
evaluate them; comparisons and constants are exact. With `rnd` the identity they are the
definitions above; with `rnd = fl` they are the code in binary64 arithmetic. -/

/-- Modelled from the spec: the macro `VEC3_SUB(dst, a, b)` of `Vector.h` (missing), each
difference rounded. -/
def VEC3_SUB_rnd (rnd : K → K) (a b : Vec3 K) : Vec3 K :=
  ⟨rnd (a.x - b.x), rnd (a.y - b.y), rnd (a.z - b.z)⟩

/-- Modelled from the spec: the macro `VEC3_CROSS(dst, a, b)` of `Vector.h` (missing),
each product and each difference rounded. -/
def VEC3_CROSS_rnd (rnd : K → K) (a b : Vec3 K) : Vec3 K :=
  ⟨rnd (rnd (a.y * b.z) - rnd (a.z * b.y)),
   rnd (rnd (a.z * b.x) - rnd (a.x * b.z)),
   rnd (rnd (a.x * b.y) - rnd (a.y * b.x))⟩

/-- Modelled from the spec: the macro `VEC3_DOT(a, b)` of `Vector.h` (missing), each
product and each sum rounded, the sums taken from the left. -/
def VEC3_DOT_rnd (rnd : K → K) (a b : Vec3 K) : K :=
  rnd (rnd (rnd (a.x * b.x) + rnd (a.y * b.y)) + rnd (a.z * b.z))

/-- Modelled from the spec: the macro `VEC3_LEN(a)` of `Vector.h` (missing), the square
root `sqrt` of the rounded `VEC3_DOT(a, a)`. -/
def VEC3_LEN_rnd (rnd : K → K) (sqrt : K → K) (a : Vec3 K) : K :=
  sqrt (VEC3_DOT_rnd rnd a a)

/-- Modelled from the spec: the macro `VEC3_NORMALIZE(a)` of `Vector.h` (missing), each
component divided by the length and rounded; the zero vector is left as it is. -/
def VEC3_NORMALIZE_rnd (rnd : K → K) (sqrt : K → K) (a : Vec3 K) : Vec3 K :=
  let len := VEC3_LEN_rnd rnd sqrt a
  if len = 0 then a else ⟨rnd (a.x / len), rnd (a.y / len), rnd (a.z / len)⟩

/-- The determinant `det = VEC3_DOT(edge1, pvec)` as `TriRayIntersect` computes it under
the rounding `rnd`. -/
def triDet_rnd (rnd : K → K) (vert0 vert1 vert2 dir : Vec3 K) : K :=
  VEC3_DOT_rnd rnd (VEC3_SUB_rnd rnd vert1 vert0)
    (VEC3_CROSS_rnd rnd dir (VEC3_SUB_rnd rnd vert2 vert0))

/-- The function `TriRayIntersect` of `Triangle.c` under the rounding `rnd`. The arguments
`t`, `u`, `v` are the contents of `*t`, `*u`, `*v` when the call is made. -/
def TriRayIntersect_rnd (rnd : K → K) (vert0 vert1 vert2 orig dir : Vec3 K)
    (cull_backfaces : Int) (t u v : K) : TriHit K :=
  let edge1 := VEC3_SUB_rnd rnd vert1 vert0
  let edge2 := VEC3_SUB_rnd rnd vert2 vert0
  let pvec := VEC3_CROSS_rnd rnd dir edge2
  let det := VEC3_DOT_rnd rnd edge1 pvec
  if cull_backfaces ≠ 0 then
    if det < EPSILON then ⟨0, t, u, v⟩
    else
      let tvec := VEC3_SUB_rnd rnd orig vert0
      let u1 := VEC3_DOT_rnd rnd tvec pvec
      if u1 < 0 ∨ u1 > det then ⟨0, t, u1, v⟩
      else
        let qvec := VEC3_CROSS_rnd rnd tvec edge1
        let v1 := VEC3_DOT_rnd rnd dir qvec
        if v1 < 0 ∨ rnd (u1 + v1) > det then ⟨0, t, u1, v1⟩
        else
          let t1 := VEC3_DOT_rnd rnd edge2 qvec
          let inv_det := rnd (1 / det)
          ⟨1, rnd (t1 * inv_det), rnd (u1 * inv_det), rnd (v1 * inv_det)⟩
  else
    if det > -EPSILON ∧ det < EPSILON then ⟨0, t, u, v⟩
    else
      let inv_det := rnd (1 / det)
      let tvec := VEC3_SUB_rnd rnd orig vert0
      let u1 := rnd (VEC3_DOT_rnd rnd tvec pvec * inv_det)
      if u1 < 0 ∨ u1 > 1 then ⟨0, t, u1, v⟩
      else
        let qvec := VEC3_CROSS_rnd rnd tvec edge1
        let v1 := rnd (VEC3_DOT_rnd rnd dir qvec * inv_det)
        if v1 < 0 ∨ rnd (u1 + v1) > 1 then ⟨0, t, u1, v1⟩
        else ⟨1, rnd (VEC3_DOT_rnd rnd edge2 qvec * inv_det), u1, v1⟩

/-- The function `TriComputeArea` of `Triangle.c` under the rounding `rnd`; the argument
`VEC3_LEN` is the macro of that name. -/
def TriComputeArea_rnd (rnd : K → K) (VEC3_LEN : Vec3 K → K) (vert0 vert1 vert2 : Vec3 K) :
    K :=
  let a := VEC3_SUB_rnd rnd vert1 vert0
  let b := VEC3_SUB_rnd rnd vert2 vert0
  let cross := VEC3_CROSS_rnd rnd a b
  rnd (1 / 2 * VEC3_LEN cross)

/-- The function `TriComputeFaceNormal` of `Triangle.c` under the rounding `rnd`: the
vector written to `N`; the argument `VEC3_NORMALIZE` is the macro of that name. -/
def TriComputeFaceNormal_rnd (rnd : K → K) (VEC3_NORMALIZE : Vec3 K → Vec3 K)
    (vert0 vert1 vert2 : Vec3 K) : Vec3 K :=
  let edge1 := VEC3_SUB_rnd rnd vert1 vert0
  let edge2 := VEC3_SUB_rnd rnd vert2 vert0
  let N := VEC3_CROSS_rnd rnd edge1 edge2
  VEC3_NORMALIZE N

/-- The function `TriComputeNormal` of `Triangle.c` under the rounding `rnd`: the vector
written to `N`. -/
def TriComputeNormal_rnd (rnd : K → K) (N0 N1 N2 : Vec3 K) (u v : K) : Vec3 K :=
  let t := rnd (rnd (1 - u) - v)
  ⟨rnd (rnd (rnd (t * N0.x) + rnd (u * N1.x)) + rnd (v * N2.x)),
   rnd (rnd (rnd (t * N0.y) + rnd (u * N1.y)) + rnd (v * N2.y)),
   rnd (rnd (rnd (t * N0.z) + rnd (u * N1.z)) + rnd (v * N2.z))⟩

/-! ## Binary64 arithmetic

The rounding of IEEE 754 binary64, the `double` of the C implementations the renderer is
built for, on the rationals: a binary64 number is `m * 2 ^ k` with `|m| < 2 ^ 53` and
`-1074 ≤ k`. Overflow is left out: no run below comes near `2 ^ 1024`. -/

/-- Rounding to the nearest integer, a tie going to the even neighbour. -/
def roundHalfEven (y : ℚ) : ℤ :=
  if y - ⌊y⌋ < 1 / 2 then ⌊y⌋
  else if 1 / 2 < y - ⌊y⌋ then ⌊y⌋ + 1
  else if ⌊y⌋ % 2 = 0 then ⌊y⌋ else ⌊y⌋ + 1

/-- The exponent `k` of the spacing `2 ^ k` of the binary64 numbers around `x ≠ 0`: 52
below the exponent of `x` for a normal number, `-1074` in the subnormal range. -/
def ulpExp (x : ℚ) : ℤ :=
  max (Int.log 2 |x|) (-1022) - 52

/-- The binary64 number nearest to `x`, a tie going to the even significand: the result
of a `double` operation whose exact result is `x`. -/
def fl (x : ℚ) : ℚ :=
  roundHalfEven (x / 2 ^ ulpExp x) * 2 ^ ulpExp x

/-- The function `sqrt` of the C library on a binary64 number `x ≥ 0`: the binary64
number nearest to the square root. With `4 ^ h ≤ x < 4 ^ (h + 1)` the root lies in
`[2 ^ h, 2 ^ (h + 1))`, where the spacing is `2 ^ (h - 52)`; `m` is the root in units of
that spacing, rounded down, and the root is rounded up when it lies above `m + 1/2`. -/
def sqrtDouble (x : ℚ) : ℚ :=
  if x ≤ 0 then 0
  else
    let h : ℤ := Int.log 4 x
    let s : ℚ := x * 4 ^ (52 - h)
    let m : ℕ := Nat.sqrt ⌊s⌋₊
    let c : ℚ := (m + 1 / 2) * (m + 1 / 2)
    let n : ℕ := if s < c then m else if c < s then m + 1 else if m % 2 = 0 then m else m + 1
    n * 2 ^ (h - 52)

/-! ## Lemmas on binary64 rounding -/

lemma roundHalfEven_intCast (m : ℤ) : roundHalfEven (m : ℚ) = m := by
  unfold roundHalfEven
  rw [Int.floor_intCast]
  simp

lemma roundHalfEven_of_abs_lt (y : ℚ) (m : ℤ) (h : |y - m| < 1 / 2) : roundHalfEven y = m := by
  obtain ⟨h1, h2⟩ := abs_lt.mp h
  unfold roundHalfEven
  by_cases hm : (m : ℚ) ≤ y
  · have hf : ⌊y⌋ = m := by
      rw [Int.floor_eq_iff]
      constructor
      · exact hm
      · linarith
    rw [hf, if_pos (by linarith)]
  · have hf : ⌊y⌋ = m - 1 := by
      rw [Int.floor_eq_iff]
      push_cast
      constructor <;> linarith
    rw [hf]
    push_cast
    rw [if_neg (by linarith), if_pos (by linarith)]
    ring

lemma ulpExp_of_binade (x : ℚ) (e : ℤ) (he : -1022 ≤ e) (hlo : 2 ^ e ≤ |x|)
    (hhi : |x| < 2 ^ (e + 1)) : ulpExp x = e - 52 := by
  have hpos : 0 < |x| := lt_of_lt_of_le (by positivity) hlo
  have h1 : e ≤ Int.log 2 |x| := by
    rw [← Int.zpow_le_iff_le_log (by norm_num) hpos]
    simpa using hlo
  have h2 : Int.log 2 |x| < e + 1 := by
    rw [← Int.lt_zpow_iff_log_lt (by norm_num) hpos]
    simpa using hhi
  unfold ulpExp
  have : Int.log 2 |x| = e := by omega
  rw [this, max_eq_left he]

lemma fl_zero : fl 0 = 0 := by
  simp [fl, roundHalfEven]

lemma ulpExp_of_small (x : ℚ) (hpos : 0 < |x|) (h : |x| < 2 ^ (-1022 : ℤ)) :
    ulpExp x = -1074 := by
  unfold ulpExp
  have hl : Int.log 2 |x| < -1022 := by
    rw [← Int.lt_zpow_iff_log_lt (by norm_num) hpos]
    simpa using h
  rw [max_eq_right hl.le]
  norm_num

/-- A number in the binade `[2 ^ e, 2 ^ (e + 1))` rounds to `m * 2 ^ (e - 52)` when `m` is
within a half of `x / 2 ^ (e - 52)`. -/
lemma fl_round (x : ℚ) (e m : ℤ) (he : -1022 ≤ e) (hlo : 2 ^ e ≤ |x|)
    (hhi : |x| < 2 ^ (e + 1)) (hm : |x / 2 ^ (e - 52) - m| < 1 / 2) :
    fl x = m * 2 ^ (e - 52) := by
  unfold fl
  rw [ulpExp_of_binade x e he hlo hhi, roundHalfEven_of_abs_lt _ m hm]

/-- A number below half the smallest subnormal rounds to zero. -/
lemma fl_underflow (x : ℚ) (h : |x| < 2 ^ (-1075 : ℤ)) : fl x = 0 := by
  rcases eq_or_lt_of_le (abs_nonneg x) with h0 | hpos
  · rw [abs_eq_zero.mp h0.symm, fl_zero]
  have hs : |x| < 2 ^ (-1022 : ℤ) :=
    lt_of_lt_of_le h (zpow_le_zpow_right₀ (by norm_num) (by norm_num))
  unfold fl
  rw [ulpExp_of_small x hpos hs]
  have : roundHalfEven (x / 2 ^ (-1074 : ℤ)) = 0 := by
    apply roundHalfEven_of_abs_lt
    rw [Int.cast_zero, sub_zero, abs_div, abs_of_pos (by positivity : (0 : ℚ) < 2 ^ (-1074 : ℤ)),
      div_lt_iff₀ (by positivity)]
    calc |x| < 2 ^ (-1075 : ℤ) := h
      _ = 1 / 2 * 2 ^ (-1074 : ℤ) := by
        rw [show (-1075 : ℤ) = -1074 - 1 by norm_num, zpow_sub₀ (by norm_num)]
        norm_num
  rw [this]
  simp

/-- A binary64 number is its own rounding: `m * 2 ^ k` with `|m| < 2 ^ 53` and
`-1074 ≤ k`. -/
lemma fl_exact (x : ℚ) (m k : ℤ) (hx : x = m * 2 ^ k) (hm : |m| < 2 ^ 53) (hk : -1074 ≤ k) :
    fl x = x := by
  rcases eq_or_lt_of_le (abs_nonneg x) with h0 | hpos
  · rw [abs_eq_zero.mp h0.symm, fl_zero]
  have hu : ulpExp x ≤ k := by
    unfold ulpExp
    have hl : Int.log 2 |x| < 53 + k := by
      rw [← Int.lt_zpow_iff_log_lt (by norm_num) hpos]
      rw [hx, abs_mul, abs_of_pos (by positivity : (0 : ℚ) < 2 ^ k), zpow_add₀ (by norm_num)]
      apply mul_lt_mul_of_pos_right _ (by positivity)
      have : ((|m| : ℤ) : ℚ) < ((2 ^ 53 : ℤ) : ℚ) := Int.cast_lt.mpr hm
      norm_num at this ⊢
      exact this
    have := max_lt hl (by omega : (-1022 : ℤ) < 53 + k)
    omega
  obtain ⟨n, hn⟩ := Int.eq_ofNat_of_zero_le (sub_nonneg.mpr hu)
  have hq : x / 2 ^ ulpExp x = ((m * 2 ^ n : ℤ) : ℚ) := by
    have h2 : (2 : ℚ) ^ k / 2 ^ ulpExp x = 2 ^ n := by
      rw [← zpow_sub₀ (by norm_num), hn, zpow_natCast]
    rw [hx] at h2 ⊢
    rw [mul_div_assoc, h2]
    push_cast
    rfl
  unfold fl
  rw [hq, roundHalfEven_intCast, ← hq]
  field_simp

/-- The rounding of a positive number, without absolute values. -/
lemma fl_round_pos (x : ℚ) (e m : ℤ) (he : -1022 ≤ e) (hlo : 2 ^ e ≤ x)
    (hhi : x < 2 ^ (e + 1)) (h1 : (m : ℚ) - 1 / 2 < x / 2 ^ (e - 52))
    (h2 : x / 2 ^ (e - 52) < m + 1 / 2) : fl x = m * 2 ^ (e - 52) := by
  have hpos : 0 < x := lt_of_lt_of_le (by positivity) hlo
  apply fl_round x e m he
  · rwa [abs_of_pos hpos]
  · rwa [abs_of_pos hpos]
  · rw [abs_lt]; constructor <;> linarith

/-- The rounding of a negative number, without absolute values. -/
lemma fl_round_neg (x : ℚ) (e m : ℤ) (he : -1022 ≤ e) (hlo : 2 ^ e ≤ -x)
    (hhi : -x < 2 ^ (e + 1)) (h1 : (m : ℚ) - 1 / 2 < x / 2 ^ (e - 52))
    (h2 : x / 2 ^ (e - 52) < m + 1 / 2) : fl x = m * 2 ^ (e - 52) := by
  have hpos : 0 < -x := lt_of_lt_of_le (by positivity) hlo
  have hneg : x < 0 := by linarith
  apply fl_round x e m he
  · rwa [abs_of_neg hneg]
  · rwa [abs_of_neg hneg]
  · rw [abs_lt]; constructor <;> linarith

/-- A number below half the smallest subnormal rounds to zero, without absolute values. -/
lemma fl_underflow_pos (x : ℚ) (h0 : 0 ≤ x) (h : x < 2 ^ (-1075 : ℤ)) : fl x = 0 :=
  fl_underflow x (by rwa [abs_of_nonneg h0])

lemma roundHalfEven_of_le_even (y : ℚ) (m : ℤ) (h1 : (m : ℚ) - 1 / 2 ≤ y)
    (h2 : y ≤ m + 1 / 2) (hev : m % 2 = 0) : roundHalfEven y = m := by
  rcases eq_or_lt_of_le h1 with e1 | l1
  · have hf : ⌊y⌋ = m - 1 := by
      rw [Int.floor_eq_iff]
      push_cast
      constructor <;> linarith
    unfold roundHalfEven
    rw [hf]
    push_cast
    rw [if_neg (by linarith), if_neg (by linarith), if_neg (by omega)]
    ring
  rcases eq_or_lt_of_le h2 with e2 | l2
  · have hf : ⌊y⌋ = m := by
      rw [Int.floor_eq_iff]
      constructor <;> linarith
    unfold roundHalfEven
    rw [hf, if_neg (by linarith), if_neg (by linarith), if_pos hev]
  · exact roundHalfEven_of_abs_lt y m (by rw [abs_lt]; constructor <;> linarith)

/-- The rounding of a positive number half way between two binary64 numbers: the one
with the even significand. -/
lemma fl_round_pos_even (x : ℚ) (e m : ℤ) (he : -1022 ≤ e) (hlo : 2 ^ e ≤ x)
    (hhi : x < 2 ^ (e + 1)) (h1 : (m : ℚ) - 1 / 2 ≤ x / 2 ^ (e - 52))
    (h2 : x / 2 ^ (e - 52) ≤ m + 1 / 2) (hev : m % 2 = 0) : fl x = m * 2 ^ (e - 52) := by
  have hpos : 0 < x := lt_of_lt_of_le (by positivity) hlo
  unfold fl
  rw [ulpExp_of_binade x e he (by rwa [abs_of_pos hpos]) (by rwa [abs_of_pos hpos]),
    roundHalfEven_of_le_even _ m h1 h2 hev]

/-- The rounding of a negative number half way between two binary64 numbers: the one
with the even significand. -/
lemma fl_round_neg_even (x : ℚ) (e m : ℤ) (he : -1022 ≤ e) (hlo : 2 ^ e ≤ -x)
    (hhi : -x < 2 ^ (e + 1)) (h1 : (m : ℚ) - 1 / 2 ≤ x / 2 ^ (e - 52))
    (h2 : x / 2 ^ (e - 52) ≤ m + 1 / 2) (hev : m % 2 = 0) : fl x = m * 2 ^ (e - 52) := by
  have hpos : 0 < -x := lt_of_lt_of_le (by positivity) hlo
  have hneg : x < 0 := by linarith
  unfold fl
  rw [ulpExp_of_binade x e he (by rwa [abs_of_neg hneg]) (by rwa [abs_of_neg hneg]),
    roundHalfEven_of_le_even _ m h1 h2 hev]

lemma sqrtDouble_zero : sqrtDouble 0 = 0 := by
  simp [sqrtDouble]

/-- The value of `sqrtDouble` at `x` with `4 ^ h ≤ x < 4 ^ (h + 1)` when the root, in
units of `2 ^ (h - 52)`, lies in `[m, m + 1/2)`: the root is rounded down. -/
lemma sqrtDouble_down (x : ℚ) (h : ℤ) (m : ℕ) (hlo : 4 ^ h ≤ x) (hhi : x < 4 ^ (h + 1))
    (h1 : (m : ℚ) * m ≤ x * 4 ^ (52 - h))
    (h2 : x * 4 ^ (52 - h) < (m + 1 / 2) * (m + 1 / 2)) :
    sqrtDouble x = m * 2 ^ (h - 52) := by
  have hpos : 0 < x := lt_of_lt_of_le (by positivity) hlo
  have hl : Int.log 4 x = h := by
    have a1 : h ≤ Int.log 4 x := by
      rw [← Int.zpow_le_iff_le_log (by norm_num) hpos]
      simpa using hlo
    have a2 : Int.log 4 x < h + 1 := by
      rw [← Int.lt_zpow_iff_log_lt (by norm_num) hpos]
      simpa using hhi
    omega
  have hs0 : 0 ≤ x * 4 ^ (52 - h) := by positivity
  have hm : Nat.sqrt ⌊x * 4 ^ (52 - h)⌋₊ = m := by
    symm
    rw [Nat.eq_sqrt]
    constructor
    · apply Nat.le_floor
      push_cast
      exact h1
    · rw [Nat.floor_lt hs0]
      push_cast
      nlinarith
  unfold sqrtDouble
  rw [if_neg (not_le.mpr hpos)]
  simp only [hl, hm]
  rw [if_pos h2]

/-- The value of `sqrtDouble` at `x` with `4 ^ h ≤ x < 4 ^ (h + 1)` when the root, in
units of `2 ^ (h - 52)`, lies in `(m + 1/2, m + 1)`: the root is rounded up. -/
lemma sqrtDouble_up (x : ℚ) (h : ℤ) (m : ℕ) (hlo : 4 ^ h ≤ x) (hhi : x < 4 ^ (h + 1))
    (h1 : ((m : ℚ) + 1 / 2) * (m + 1 / 2) < x * 4 ^ (52 - h))
    (h2 : x * 4 ^ (52 - h) < ((m : ℚ) + 1) * (m + 1)) :
    sqrtDouble x = (m + 1) * 2 ^ (h - 52) := by
  have hpos : 0 < x := lt_of_lt_of_le (by positivity) hlo
  have hl : Int.log 4 x = h := by
    have a1 : h ≤ Int.log 4 x := by
      rw [← Int.zpow_le_iff_le_log (by norm_num) hpos]
      simpa using hlo
    have a2 : Int.log 4 x < h + 1 := by
      rw [← Int.lt_zpow_iff_log_lt (by norm_num) hpos]
      simpa using hhi
    omega
  have hs0 : 0 ≤ x * 4 ^ (52 - h) := by positivity
  have hm : Nat.sqrt ⌊x * 4 ^ (52 - h)⌋₊ = m := by
    symm
    rw [Nat.eq_sqrt]
    constructor
    · apply Nat.le_floor
      push_cast
      nlinarith
    · rw [Nat.floor_lt hs0]
      push_cast
      exact h2
  unfold sqrtDouble
  rw [if_neg (not_le.mpr hpos)]
  simp only [hl, hm]
  rw [if_neg (not_lt.mpr h1.le), if_pos h1]
  push_cast
  ring

/-- Rounding to binary64 keeps a number that is not negative from becoming negative. -/
lemma fl_nonneg (x : ℚ) (hx : 0 ≤ x) : 0 ≤ fl x := by
  unfold fl
  have hy : 0 ≤ x / 2 ^ ulpExp x := by positivity
  have hf : 0 ≤ ⌊x / 2 ^ ulpExp x⌋ := Int.floor_nonneg.mpr hy
  have hr : 0 ≤ roundHalfEven (x / 2 ^ ulpExp x) := by
    unfold roundHalfEven
    split_ifs <;> omega
  have hc : (0 : ℚ) ≤ roundHalfEven (x / 2 ^ ulpExp x) := by exact_mod_cast hr
  positivity

/-- The binary64 square root is not negative. -/
lemma sqrtDouble_nonneg (x : ℚ) : 0 ≤ sqrtDouble x := by
  unfold sqrtDouble
  split_ifs
  · exact le_refl 0
  · positivity

lemma roundHalfEven_neg (y : ℚ) : roundHalfEven (-y) = -roundHalfEven y := by
  have hfl : (⌊y⌋ : ℚ) ≤ y := Int.floor_le y
  have hlt : y < ⌊y⌋ + 1 := Int.lt_floor_add_one y
  by_cases hint : y = ⌊y⌋
  · rw [hint, ← Int.cast_neg, roundHalfEven_intCast, roundHalfEven_intCast]
  have hpos : (⌊y⌋ : ℚ) < y := lt_of_le_of_ne hfl (Ne.symm hint)
  have hneg : ⌊-y⌋ = -⌊y⌋ - 1 := by
    rw [Int.floor_eq_iff]
    push_cast
    constructor <;> linarith
  unfold roundHalfEven
  rw [hneg]
  push_cast
  by_cases h1 : y - ⌊y⌋ < 1 / 2
  · rw [if_pos h1, if_neg (by linarith), if_pos (by linarith)]
    ring
  · by_cases h2 : 1 / 2 < y - ⌊y⌋
    · rw [if_neg h1, if_pos h2, if_pos (by linarith)]
      ring
    · have h3 : y - ⌊y⌋ = 1 / 2 := le_antisymm (not_lt.mp h2) (not_lt.mp h1)
      rw [if_neg h1, if_neg h2, if_neg (by linarith), if_neg (by linarith)]
      by_cases hev : ⌊y⌋ % 2 = 0
      · rw [if_pos hev, if_neg (by omega)]
        ring
      · rw [if_neg hev, if_pos (by omega)]
        ring

/-- Rounding to binary64 commutes with the change of sign. -/
lemma fl_neg (x : ℚ) : fl (-x) = -fl x := by
  unfold fl ulpExp
  rw [abs_neg, neg_div, roundHalfEven_neg]
  push_cast
  ring

/-! ## The binary64 roundings the runs meet

Each lemma rounds one number: `fl_value_n x hx` is the rounding of the number `hx` names
as `x`, so that it applies to `x` written as a sum, a difference, a product or a quotient. -/

lemma fl_value_1 (x : ℚ) (hx : x = 1) :
    fl x = 1 := by
  subst hx
  exact fl_exact _ (1) (0) (by norm_num) (by norm_num) (by norm_num)

lemma fl_value_2 (x : ℚ) (hx : x = 0) :
    fl x = 0 := by
  subst hx
  exact fl_zero

lemma fl_value_3 (x : ℚ) (hx : x = (-(4722366482869645 / 2 ^ 72))) :
    fl x = (-(4722366482869645 / 2 ^ 72)) := by
  subst hx
  exact fl_exact _ (-4722366482869645) (-72) (by norm_num) (by norm_num) (by norm_num)

lemma fl_value_4 (x : ℚ) (hx : x = 4722366482869645 / 2 ^ 72) :
    fl x = 4722366482869645 / 2 ^ 72 := by
  subst hx
  exact fl_exact _ (4722366482869645) (-72) (by norm_num) (by norm_num) (by norm_num)

lemma fl_value_5 (x : ℚ) (hx : x = 4722366482869645213696 / 4722366482869645) :
    fl x = 1000000 := by
  subst hx
  have h := fl_round_pos (4722366482869645213696 / 4722366482869645) (19) (8589934592000000) (by norm_num) (by norm_num) (by norm_num)
    (by norm_num) (by norm_num)
  rw [h]; norm_num

lemma fl_value_6 (x : ℚ) (hx : x = 1 / 4) :
    fl x = 1 / 4 := by
  subst hx
  exact fl_exact _ (1) (-2) (by norm_num) (by norm_num) (by norm_num)

lemma fl_value_7 (x : ℚ) (hx : x = 4722366482869645 / 2 ^ 74) :
    fl x = 4722366482869645 / 2 ^ 74 := by
  subst hx
  exact fl_exact _ (4722366482869645) (-74) (by norm_num) (by norm_num) (by norm_num)

lemma fl_value_8 (x : ℚ) (hx : x = 73786976294838203125 / 295147905179352825856) :
    fl x = 1 / 4 := by
  subst hx
  have h := fl_round_pos (73786976294838203125 / 295147905179352825856) (-3) (9007199254740992) (by norm_num) (by norm_num) (by norm_num)
    (by norm_num) (by norm_num)
  rw [h]; norm_num

lemma fl_value_9 (x : ℚ) (hx : x = (-(1 / 4))) :
    fl x = (-(1 / 4)) := by
  subst hx
  exact fl_exact _ (-1) (-2) (by norm_num) (by norm_num) (by norm_num)

lemma fl_value_10 (x : ℚ) (hx : x = 1 / 2) :
    fl x = 1 / 2 := by
  subst hx
  exact fl_exact _ (1) (-1) (by norm_num) (by norm_num) (by norm_num)

lemma fl_value_11 (x : ℚ) (hx : x = 1000000) :
    fl x = 1000000 := by
  subst hx
  exact fl_exact _ (15625) (6) (by norm_num) (by norm_num) (by norm_num)

lemma fl_value_12 (x : ℚ) (hx : x = 4722366482869645 / 2 ^ 73) :
    fl x = 4722366482869645 / 2 ^ 73 := by
  subst hx
  exact fl_exact _ (4722366482869645) (-73) (by norm_num) (by norm_num) (by norm_num)

lemma fl_value_13 (x : ℚ) (hx : x = 3) :
    fl x = 3 := by
  subst hx
  exact fl_exact _ (3) (0) (by norm_num) (by norm_num) (by norm_num)

lemma fl_value_14 (x : ℚ) (hx : x = 5) :
    fl x = 5 := by
  subst hx
  exact fl_exact _ (5) (0) (by norm_num) (by norm_num) (by norm_num)

lemma fl_value_15 (x : ℚ) (hx : x = 6) :
    fl x = 6 := by
  subst hx
  exact fl_exact _ (3) (1) (by norm_num) (by norm_num) (by norm_num)

lemma fl_value_16 (x : ℚ) (hx : x = 10) :
    fl x = 10 := by
  subst hx
  exact fl_exact _ (5) (1) (by norm_num) (by norm_num) (by norm_num)

lemma fl_value_17 (x : ℚ) (hx : x = 90071992547409910) :
    fl x = 90071992547409904 := by
  subst hx
  have h := fl_round_pos 90071992547409910 (56) (5629499534213119) (by norm_num) (by norm_num) (by norm_num)
    (by norm_num) (by norm_num)
  rw [h]; norm_num

lemma fl_value_18 (x : ℚ) (hx : x = (-90071992547409904)) :
    fl x = (-90071992547409904) := by
  subst hx
  exact fl_exact _ (-5629499534213119) (4) (by norm_num) (by norm_num) (by norm_num)

lemma fl_value_19 (x : ℚ) (hx : x = 54043195528445946) :
    fl x = 54043195528445944 := by
  subst hx
  have h := fl_round_pos 54043195528445946 (55) (6755399441055743) (by norm_num) (by norm_num) (by norm_num)
    (by norm_num) (by norm_num)
  rw [h]; norm_num

lemma fl_value_20 (x : ℚ) (hx : x = 54043195528445944) :
    fl x = 54043195528445944 := by
  subst hx
  exact fl_exact _ (6755399441055743) (3) (by norm_num) (by norm_num) (by norm_num)

lemma fl_value_21 (x : ℚ) (hx : x = (-270215977642229712)) :
    fl x = (-270215977642229696) := by
  subst hx
  have h := fl_round_neg_even (-270215977642229712) (57) (-8444249301319678) (by norm_num) (by norm_num) (by norm_num)
    (by norm_num) (by norm_num) (by norm_num)
  rw [h]; norm_num

lemma fl_value_22 (x : ℚ) (hx : x = 270215977642229720) :
    fl x = 270215977642229728 := by
  subst hx
  have h := fl_round_pos 270215977642229720 (57) (8444249301319679) (by norm_num) (by norm_num) (by norm_num)
    (by norm_num) (by norm_num)
  rw [h]; norm_num

lemma fl_value_23 (x : ℚ) (hx : x = 32) :
    fl x = 32 := by
  subst hx
  exact fl_exact _ (1) (5) (by norm_num) (by norm_num) (by norm_num)

lemma fl_value_24 (x : ℚ) (hx : x = 1 / 32) :
    fl x = 1 / 32 := by
  subst hx
  exact fl_exact _ (1) (-5) (by norm_num) (by norm_num) (by norm_num)

lemma fl_value_25 (x : ℚ) (hx : x = 2) :
    fl x = 2 := by
  subst hx
  exact fl_exact _ (1) (1) (by norm_num) (by norm_num) (by norm_num)

lemma fl_value_26 (x : ℚ) (hx : x = 9007199254740994) :
    fl x = 9007199254740994 := by
  subst hx
  exact fl_exact _ (4503599627370497) (1) (by norm_num) (by norm_num) (by norm_num)

lemma fl_value_27 (x : ℚ) (hx : x = (-9007199254740994)) :
    fl x = (-9007199254740994) := by
  subst hx
  exact fl_exact _ (-4503599627370497) (1) (by norm_num) (by norm_num) (by norm_num)

lemma fl_value_28 (x : ℚ) (hx : x = 13510798882111491) :
    fl x = 13510798882111492 := by
  subst hx
  have h := fl_round_pos_even 13510798882111491 (53) (6755399441055746) (by norm_num) (by norm_num) (by norm_num)
    (by norm_num) (by norm_num) (by norm_num)
  rw [h]; norm_num

lemma fl_value_29 (x : ℚ) (hx : x = 13510798882111492) :
    fl x = 13510798882111492 := by
  subst hx
  exact fl_exact _ (3377699720527873) (2) (by norm_num) (by norm_num) (by norm_num)

lemma fl_value_30 (x : ℚ) (hx : x = 13510798882111497) :
    fl x = 13510798882111496 := by
  subst hx
  have h := fl_round_pos_even 13510798882111497 (53) (6755399441055748) (by norm_num) (by norm_num) (by norm_num)
    (by norm_num) (by norm_num) (by norm_num)
  rw [h]; norm_num

lemma fl_value_31 (x : ℚ) (hx : x = (-13510798882111490)) :
    fl x = (-13510798882111490) := by
  subst hx
  exact fl_exact _ (-6755399441055745) (1) (by norm_num) (by norm_num) (by norm_num)

lemma fl_value_32 (x : ℚ) (hx : x = (-1)) :
    fl x = (-1) := by
  subst hx
  exact fl_exact _ (-1) (0) (by norm_num) (by norm_num) (by norm_num)

lemma fl_value_33 (x : ℚ) (hx : x = 14167099448608935 / 2 ^ 74) :
    fl x = 1770887431076117 / 2 ^ 71 := by
  subst hx
  have h := fl_round_pos_even (14167099448608935 / 2 ^ 74) (-21) (7083549724304468) (by norm_num) (by norm_num) (by norm_num)
    (by norm_num) (by norm_num) (by norm_num)
  rw [h]; norm_num

lemma fl_value_34 (x : ℚ) (hx : x = 2000000) :
    fl x = 2000000 := by
  subst hx
  exact fl_exact _ (15625) (7) (by norm_num) (by norm_num) (by norm_num)

lemma fl_value_35 (x : ℚ) (hx : x = 73786976294838203125 / 147573952589676412928) :
    fl x = 1 / 2 := by
  subst hx
  have h := fl_round_pos (73786976294838203125 / 147573952589676412928) (-2) (9007199254740992) (by norm_num) (by norm_num) (by norm_num)
    (by norm_num) (by norm_num)
  rw [h]; norm_num

lemma fl_value_36 (x : ℚ) (hx : x = (-(7205759403792793 / 36028797018963968))) :
    fl x = (-(7205759403792793 / 36028797018963968)) := by
  subst hx
  exact fl_exact _ (-7205759403792793) (-55) (by norm_num) (by norm_num) (by norm_num)

lemma fl_value_37 (x : ℚ) (hx : x = (-(5404319552844595 / 18014398509481984))) :
    fl x = (-(5404319552844595 / 18014398509481984)) := by
  subst hx
  exact fl_exact _ (-5404319552844595) (-54) (by norm_num) (by norm_num) (by norm_num)

lemma fl_value_38 (x : ℚ) (hx : x = (-(21617278211378379 / 36028797018963968))) :
    fl x = (-(5404319552844595 / 9007199254740992)) := by
  subst hx
  have h := fl_round_neg (-(21617278211378379 / 36028797018963968)) (-1) (-5404319552844595) (by norm_num) (by norm_num) (by norm_num)
    (by norm_num) (by norm_num)
  rw [h]; norm_num

lemma fl_value_39 (x : ℚ) (hx : x = (-(5404319552844595 / 9007199254740992))) :
    fl x = (-(5404319552844595 / 9007199254740992)) := by
  subst hx
  exact fl_exact _ (-5404319552844595) (-53) (by norm_num) (by norm_num) (by norm_num)

lemma fl_value_40 (x : ℚ) (hx : x = 7205759403792793 / 36028797018963968) :
    fl x = 7205759403792793 / 36028797018963968 := by
  subst hx
  exact fl_exact _ (7205759403792793) (-55) (by norm_num) (by norm_num) (by norm_num)

lemma fl_value_41 (x : ℚ) (hx : x = (-2)) :
    fl x = (-2) := by
  subst hx
  exact fl_exact _ (-1) (1) (by norm_num) (by norm_num) (by norm_num)

lemma fl_value_42 (x : ℚ) (hx : x = (-(3602879701896397 / 36028797018963968))) :
    fl x = (-(3602879701896397 / 36028797018963968)) := by
  subst hx
  exact fl_exact _ (-3602879701896397) (-55) (by norm_num) (by norm_num) (by norm_num)

lemma fl_value_43 (x : ℚ) (hx : x = 3602879701896397 / 18014398509481984) :
    fl x = 3602879701896397 / 18014398509481984 := by
  subst hx
  exact fl_exact _ (3602879701896397) (-54) (by norm_num) (by norm_num) (by norm_num)

lemma fl_value_44 (x : ℚ) (hx : x = (-(1 / 36028797018963968))) :
    fl x = (-(1 / 36028797018963968)) := by
  subst hx
  exact fl_exact _ (-1) (-55) (by norm_num) (by norm_num) (by norm_num)

lemma fl_value_45 (x : ℚ) (hx : x = 1 / 2 ^ 110) :
    fl x = 1 / 2 ^ 110 := by
  subst hx
  exact fl_exact _ (1) (-110) (by norm_num) (by norm_num) (by norm_num)

lemma fl_value_46 (x : ℚ) (hx : x = 1 / 72057594037927936) :
    fl x = 1 / 72057594037927936 := by
  subst hx
  exact fl_exact _ (1) (-56) (by norm_num) (by norm_num) (by norm_num)

lemma fl_value_47 (x : ℚ) (hx : x = 1 / 2 ^ 600) :
    fl x = 1 / 2 ^ 600 := by
  subst hx
  exact fl_exact _ (1) (-600) (by norm_num) (by norm_num) (by norm_num)

lemma fl_value_48 (x : ℚ) (hx : x = 1 / 2 ^ 1200) :
    fl x = 0 := by
  subst hx
  exact fl_underflow_pos _ (by norm_num) (by norm_num)

lemma fl_value_49 (x : ℚ) (hx : x = (-(4503599627370496 / 6369051672525773))) :
    fl x = (-(1592262918131443 / 2251799813685248)) := by
  subst hx
  have h := fl_round_neg (-(4503599627370496 / 6369051672525773)) (-1) (-6369051672525772) (by norm_num) (by norm_num) (by norm_num)
    (by norm_num) (by norm_num)
  rw [h]; norm_num

lemma fl_value_50 (x : ℚ) (hx : x = 4503599627370496 / 6369051672525773) :
    fl x = 1592262918131443 / 2251799813685248 := by
  subst hx
  have h := fl_round_pos (4503599627370496 / 6369051672525773) (-1) (6369051672525772) (by norm_num) (by norm_num) (by norm_num)
    (by norm_num) (by norm_num)
  rw [h]; norm_num

lemma fl_value_51 (x : ℚ) (hx : x = 12610078956637389 / 18014398509481984) :
    fl x = 3152519739159347 / 4503599627370496 := by
  subst hx
  have h := fl_round_pos_even (12610078956637389 / 18014398509481984) (-1) (6305039478318694) (by norm_num) (by norm_num) (by norm_num)
    (by norm_num) (by norm_num) (by norm_num)
  rw [h]; norm_num

lemma fl_value_52 (x : ℚ) (hx : x = 7205759403792793 / 18014398509481984) :
    fl x = 7205759403792793 / 18014398509481984 := by
  subst hx
  exact fl_exact _ (7205759403792793) (-54) (by norm_num) (by norm_num) (by norm_num)

lemma fl_value_53 (x : ℚ) (hx : x = 25961484292674137422076541266821 / 2 ^ 109) :
    fl x = 5764607523034235 / 144115188075855872 := by
  subst hx
  have h := fl_round_pos (25961484292674137422076541266821 / 2 ^ 109) (-5) (5764607523034235) (by norm_num) (by norm_num) (by norm_num)
    (by norm_num) (by norm_num)
  rw [h]; norm_num

lemma fl_value_54 (x : ℚ) (hx : x = 19471113219505603967277331424215 / 2 ^ 109) :
    fl x = 1080863910568919 / 36028797018963968 := by
  subst hx
  have h := fl_round_pos (19471113219505603967277331424215 / 2 ^ 109) (-6) (8646911284551352) (by norm_num) (by norm_num) (by norm_num)
    (by norm_num) (by norm_num)
  rw [h]; norm_num

lemma fl_value_55 (x : ℚ) (hx : x = 10088063165309911 / 144115188075855872) :
    fl x = 1261007895663739 / 18014398509481984 := by
  subst hx
  have h := fl_round_pos_even (10088063165309911 / 144115188075855872) (-4) (5044031582654956) (by norm_num) (by norm_num) (by norm_num)
    (by norm_num) (by norm_num) (by norm_num)
  rw [h]; norm_num

lemma fl_value_56 (x : ℚ) (hx : x = 3602879701896397 / 36028797018963968) :
    fl x = 3602879701896397 / 36028797018963968 := by
  subst hx
  exact fl_exact _ (3602879701896397) (-55) (by norm_num) (by norm_num) (by norm_num)

lemma fl_value_57 (x : ℚ) (hx : x = 25961484292674137422076541266821 / 2 ^ 108) :
    fl x = 5764607523034235 / 72057594037927936 := by
  subst hx
  have h := fl_round_pos (25961484292674137422076541266821 / 2 ^ 108) (-4) (5764607523034235) (by norm_num) (by norm_num) (by norm_num)
    (by norm_num) (by norm_num)
  rw [h]; norm_num

lemma fl_value_58 (x : ℚ) (hx : x = 19471113219505603967277331424215 / 2 ^ 108) :
    fl x = 1080863910568919 / 18014398509481984 := by
  subst hx
  have h := fl_round_pos (19471113219505603967277331424215 / 2 ^ 108) (-5) (8646911284551352) (by norm_num) (by norm_num) (by norm_num)
    (by norm_num) (by norm_num)
  rw [h]; norm_num

lemma fl_value_59 (x : ℚ) (hx : x = 10088063165309911 / 72057594037927936) :
    fl x = 1261007895663739 / 9007199254740992 := by
  subst hx
  have h := fl_round_pos_even (10088063165309911 / 72057594037927936) (-3) (5044031582654956) (by norm_num) (by norm_num) (by norm_num)
    (by norm_num) (by norm_num) (by norm_num)
  rw [h]; norm_num

lemma fl_value_60 (x : ℚ) (hx : x = 38942226439011202530235110003835 / 2 ^ 108) :
    fl x = 8646911284551351 / 72057594037927936 := by
  subst hx
  have h := fl_round_pos (38942226439011202530235110003835 / 2 ^ 108) (-4) (8646911284551351) (by norm_num) (by norm_num) (by norm_num)
    (by norm_num) (by norm_num)
  rw [h]; norm_num

lemma fl_value_61 (x : ℚ) (hx : x = 29206669829258403248756220714025 / 2 ^ 108) :
    fl x = 3242591731706757 / 36028797018963968 := by
  subst hx
  have h := fl_round_pos (29206669829258403248756220714025 / 2 ^ 108) (-4) (6485183463413514) (by norm_num) (by norm_num) (by norm_num)
    (by norm_num) (by norm_num)
  rw [h]; norm_num

lemma fl_value_62 (x : ℚ) (hx : x = 15132094747964865 / 72057594037927936) :
    fl x = 236438980436951 / 1125899906842624 := by
  subst hx
  have h := fl_round_pos_even (15132094747964865 / 72057594037927936) (-3) (7566047373982432) (by norm_num) (by norm_num) (by norm_num)
    (by norm_num) (by norm_num) (by norm_num)
  rw [h]; norm_num

lemma fl_value_63 (x : ℚ) (hx : x = 10808639105689189 / 36028797018963968) :
    fl x = 2702159776422297 / 9007199254740992 := by
  subst hx
  have h := fl_round_pos_even (10808639105689189 / 36028797018963968) (-2) (5404319552844594) (by norm_num) (by norm_num) (by norm_num)
    (by norm_num) (by norm_num) (by norm_num)
  rw [h]; norm_num

lemma sqrt_value_1 (x : ℚ) (hx : x = 0) :
    sqrtDouble x = 0 := by
  subst hx
  exact sqrtDouble_zero

lemma sqrt_value_2 (x : ℚ) (hx : x = 1 / 2 ^ 110) :
    sqrtDouble x = 1 / 36028797018963968 := by
  subst hx
  have h := sqrtDouble_down (1 / 2 ^ 110) (-55) 4503599627370496 (by norm_num) (by norm_num) (by norm_num)
    (by norm_num)
  rw [h]; norm_num

lemma sqrt_value_3 (x : ℚ) (hx : x = 1) :
    sqrtDouble x = 1 := by
  subst hx
  have h := sqrtDouble_down 1 (0) 4503599627370496 (by norm_num) (by norm_num) (by norm_num)
    (by norm_num)
  rw [h]; norm_num

lemma sqrt_value_4 (x : ℚ) (hx : x = 2) :
    sqrtDouble x = 6369051672525773 / 4503599627370496 := by
  subst hx
  have h := sqrtDouble_up 2 (0) 6369051672525772 (by norm_num) (by norm_num) (by norm_num)
    (by norm_num)
  rw [h]; norm_num

/-- The constant `EPSILON` is the binary64 number nearest to `10⁻⁶`: the value of the C
literal `1e-6`. -/
lemma EPSILON_eq_fl : fl (1 / 1000000) = EPSILON := by
  have h := fl_round_pos (1 / 1000000) (-20) (4722366482869645) (by norm_num) (by norm_num)
    (by norm_num) (by norm_num) (by norm_num)
  rw [h]
  norm_num [EPSILON]

/-! ## Rounding and exact arithmetic -/

/-- With the identity for rounding, `TriRayIntersect_rnd` is `TriRayIntersect`. -/
lemma TriRayIntersect_rnd_id (vert0 vert1 vert2 orig dir : Vec3 K) (cull_backfaces : Int)
    (t u v : K) :
    TriRayIntersect_rnd (fun x => x) vert0 vert1 vert2 orig dir cull_backfaces t u v
      = TriRayIntersect vert0 vert1 vert2 orig dir cull_backfaces t u v := rfl

/-- With the identity for rounding, `triDet_rnd` is `triDet`. -/
lemma triDet_rnd_id (vert0 vert1 vert2 dir : Vec3 K) :
    triDet_rnd (fun x => x) vert0 vert1 vert2 dir = triDet vert0 vert1 vert2 dir := rfl

/-- With the identity for rounding, `TriComputeArea_rnd` is `TriComputeArea`. -/
lemma TriComputeArea_rnd_id (sqrt : K → K) (vert0 vert1 vert2 : Vec3 K) :
    TriComputeArea_rnd (fun x => x) (VEC3_LEN_rnd (fun x => x) sqrt) vert0 vert1 vert2
      = TriComputeArea (specLen sqrt) vert0 vert1 vert2 := rfl

/-- With the identity for rounding, `TriComputeFaceNormal_rnd` is `TriComputeFaceNormal`. -/
lemma TriComputeFaceNormal_rnd_id (sqrt : K → K) (vert0 vert1 vert2 : Vec3 K) :
    TriComputeFaceNormal_rnd (fun x => x) (VEC3_NORMALIZE_rnd (fun x => x) sqrt)
        vert0 vert1 vert2
      = TriComputeFaceNormal (specNormalize sqrt) vert0 vert1 vert2 := rfl

/-- With the identity for rounding, `TriComputeNormal_rnd` is `TriComputeNormal`. -/
lemma TriComputeNormal_rnd_id (N0 N1 N2 : Vec3 K) (u v : K) :
    TriComputeNormal_rnd (fun x => x) N0 N1 N2 u v = TriComputeNormal N0 N1 N2 u v := rfl

/-- The first test of `TriRayIntersect` under rounding: a computed determinant below
`EPSILON` with culling, or within `EPSILON` of zero without, returns 0 and writes
nothing. -/
lemma TriRayIntersect_rnd_det (rnd : K → K) (vert0 vert1 vert2 orig dir : Vec3 K)
    (cull_backfaces : Int) (t u v : K)
    (h : if cull_backfaces ≠ 0 then triDet_rnd rnd vert0 vert1 vert2 dir < EPSILON
      else triDet_rnd rnd vert0 vert1 vert2 dir > -EPSILON
        ∧ triDet_rnd rnd vert0 vert1 vert2 dir < EPSILON) :
    TriRayIntersect_rnd rnd vert0 vert1 vert2 orig dir cull_backfaces t u v
      = ⟨0, t, u, v⟩ := by
  unfold TriRayIntersect_rnd
  by_cases hc : cull_backfaces ≠ 0
  · rw [if_pos hc] at h
    simp only [if_pos hc]
    exact if_pos h
  · rw [if_neg hc] at h
    simp only [if_neg hc]
    exact if_pos h

/-! ## What the rounding keeps -/

/-- Under a rounding that keeps a number that is not negative from becoming negative, and
with a square root that is not negative, the area `TriComputeArea` computes is not
negative. -/
lemma area_rnd_nonneg (rnd root : K → K) (hr : ∀ x, 0 ≤ x → 0 ≤ rnd x)
    (hroot : ∀ x, 0 ≤ root x) (vert0 vert1 vert2 : Vec3 K) :
    0 ≤ TriComputeArea_rnd rnd (VEC3_LEN_rnd rnd root) vert0 vert1 vert2 := by
  unfold TriComputeArea_rnd VEC3_LEN_rnd
  exact hr _ (mul_nonneg (by norm_num) (hroot _))

/-- Under a rounding that commutes with the change of sign, exchanging the two factors
changes the sign of the computed cross product. -/
lemma cross_rnd_swap (rnd : K → K) (hodd : ∀ x, rnd (-x) = -rnd x) (a b : Vec3 K) :
    VEC3_CROSS_rnd rnd b a
      = ⟨-(VEC3_CROSS_rnd rnd a b).x, -(VEC3_CROSS_rnd rnd a b).y,
        -(VEC3_CROSS_rnd rnd a b).z⟩ := by
  simp only [VEC3_CROSS_rnd, Vec3.mk.injEq]
  refine ⟨?_, ?_, ?_⟩
  · rw [← hodd, mul_comm b.y a.z, mul_comm b.z a.y, neg_sub]
  · rw [← hodd, mul_comm b.z a.x, mul_comm b.x a.z, neg_sub]
  · rw [← hodd, mul_comm b.x a.y, mul_comm b.y a.x, neg_sub]

/-- Under a rounding that commutes with the change of sign, `VEC3_NORMALIZE` does so
too. -/
lemma normalize_rnd_neg (rnd root : K → K) (hodd : ∀ x, rnd (-x) = -rnd x) (x y z : K) :
    VEC3_NORMALIZE_rnd rnd root ⟨-x, -y, -z⟩
      = ⟨-(VEC3_NORMALIZE_rnd rnd root ⟨x, y, z⟩).x, -(VEC3_NORMALIZE_rnd rnd root ⟨x, y, z⟩).y,
        -(VEC3_NORMALIZE_rnd rnd root ⟨x, y, z⟩).z⟩ := by
  have hlen : VEC3_LEN_rnd rnd root ⟨-x, -y, -z⟩ = VEC3_LEN_rnd rnd root ⟨x, y, z⟩ := by
    simp only [VEC3_LEN_rnd, VEC3_DOT_rnd, neg_mul_neg]
  unfold VEC3_NORMALIZE_rnd
  dsimp only
  rw [hlen]
  by_cases h0 : VEC3_LEN_rnd rnd root ⟨x, y, z⟩ = 0
  · rw [if_pos h0, if_pos h0]
  · rw [if_neg h0, if_neg h0]
    simp only [neg_div, hodd]

/-- Under a rounding that commutes with the change of sign, exchanging `vert1` and
`vert2` changes the sign of the face normal `TriComputeFaceNormal` writes. -/
lemma face_normal_rnd_swap (rnd root : K → K) (hodd : ∀ x, rnd (-x) = -rnd x)
    (vert0 vert1 vert2 : Vec3 K) :
    TriComputeFaceNormal_rnd rnd (VEC3_NORMALIZE_rnd rnd root) vert0 vert2 vert1
      = ⟨-(TriComputeFaceNormal_rnd rnd (VEC3_NORMALIZE_rnd rnd root) vert0 vert1 vert2).x,
        -(TriComputeFaceNormal_rnd rnd (VEC3_NORMALIZE_rnd rnd root) vert0 vert1 vert2).y,
        -(TriComputeFaceNormal_rnd rnd (VEC3_NORMALIZE_rnd rnd root) vert0 vert1 vert2).z⟩ := by
  unfold TriComputeFaceNormal_rnd
  dsimp only
  rw [cross_rnd_swap rnd hodd (VEC3_SUB_rnd rnd vert1 vert0) (VEC3_SUB_rnd rnd vert2 vert0)]
  exact normalize_rnd_neg rnd root hodd _ _ _

/-- Under a rounding that leaves 0, 1 and the components of the three normals as they
are, the weights `(0,0)`, `(1,0)`, `(0,1)` give `N0`, `N1`, `N2`. -/
lemma normal_rnd_corners (rnd : K → K) (N0 N1 N2 : Vec3 K) (h0 : rnd 0 = 0) (h1 : rnd 1 = 1)
    (hN0 : rnd N0.x = N0.x ∧ rnd N0.y = N0.y ∧ rnd N0.z = N0.z)
    (hN1 : rnd N1.x = N1.x ∧ rnd N1.y = N1.y ∧ rnd N1.z = N1.z)
    (hN2 : rnd N2.x = N2.x ∧ rnd N2.y = N2.y ∧ rnd N2.z = N2.z) :
    TriComputeNormal_rnd rnd N0 N1 N2 0 0 = N0 ∧
    TriComputeNormal_rnd rnd N0 N1 N2 1 0 = N1 ∧
    TriComputeNormal_rnd rnd N0 N1 N2 0 1 = N2 := by
  obtain ⟨x0, y0, z0⟩ := N0
  obtain ⟨x1, y1, z1⟩ := N1
  obtain ⟨x2, y2, z2⟩ := N2
  obtain ⟨a0, b0, c0⟩ := hN0
  obtain ⟨a1, b1, c1⟩ := hN1
  obtain ⟨a2, b2, c2⟩ := hN2
  simp only at a0 b0 c0 a1 b1 c1 a2 b2 c2
  refine ⟨?_, ?_, ?_⟩
  · simp only [TriComputeNormal_rnd, sub_zero, h1, one_mul, zero_mul, h0, add_zero, a0, b0,
      c0]
  · simp only [TriComputeNormal_rnd, sub_self, sub_zero, h0, h1, one_mul, zero_mul, add_zero,
      zero_add, a1, b1, c1]
  · simp only [TriComputeNormal_rnd, sub_zero, sub_self, h0, h1, one_mul, zero_mul, add_zero,
      zero_add, a2, b2, c2]

/-! ## Points on one line -/

lemma dot_self_nonneg (a : Vec3 K) : 0 ≤ VEC3_DOT a a := by
  unfold VEC3_DOT
  nlinarith [mul_self_nonneg a.x, mul_self_nonneg a.y, mul_self_nonneg a.z]

lemma dot_self_eq_zero (a : Vec3 K) :
    VEC3_DOT a a = 0 ↔ a.x = 0 ∧ a.y = 0 ∧ a.z = 0 := by
  unfold VEC3_DOT
  constructor
  · intro h
    have hx := mul_self_nonneg a.x
    have hy := mul_self_nonneg a.y
    have hz := mul_self_nonneg a.z
    refine ⟨?_, ?_, ?_⟩ <;> apply mul_self_eq_zero.mp <;> linarith
  · rintro ⟨hx, hy, hz⟩
    rw [hx, hy, hz]
    ring

/-- The cross product of the two edges at `vert0` vanishes exactly when the three
vertices lie on one line. -/
lemma cross_eq_zero_iff_onOneLine (vert0 vert1 vert2 : Vec3 K) :
    ((VEC3_CROSS (VEC3_SUB vert1 vert0) (VEC3_SUB vert2 vert0)).x = 0 ∧
      (VEC3_CROSS (VEC3_SUB vert1 vert0) (VEC3_SUB vert2 vert0)).y = 0 ∧
      (VEC3_CROSS (VEC3_SUB vert1 vert0) (VEC3_SUB vert2 vert0)).z = 0) ↔
    OnOneLine vert0 vert1 vert2 := by
  obtain ⟨x0, y0, z0⟩ := vert0
  obtain ⟨x1, y1, z1⟩ := vert1
  obtain ⟨x2, y2, z2⟩ := vert2
  simp only [VEC3_CROSS, VEC3_SUB, OnOneLine, rayAt, Vec3.mk.injEq]
  constructor
  · rintro ⟨cx, cy, cz⟩
    by_cases hx : x1 - x0 = 0
    · by_cases hy : y1 - y0 = 0
      · by_cases hz : z1 - z0 = 0
        · refine ⟨⟨x0, y0, z0⟩, ⟨x2 - x0, y2 - y0, z2 - z0⟩, 0, 0, 1, ?_⟩
          refine ⟨⟨?_, ?_, ?_⟩, ⟨?_, ?_, ?_⟩, ⟨?_, ?_, ?_⟩⟩ <;> dsimp only <;> linarith
        · refine ⟨⟨x0, y0, z0⟩, ⟨x1 - x0, y1 - y0, z1 - z0⟩, 0, 1,
            (z2 - z0) / (z1 - z0), ?_⟩
          refine ⟨⟨?_, ?_, ?_⟩, ⟨?_, ?_, ?_⟩, ⟨?_, ?_, ?_⟩⟩ <;> dsimp only <;> field_simp <;> linarith
      · refine ⟨⟨x0, y0, z0⟩, ⟨x1 - x0, y1 - y0, z1 - z0⟩, 0, 1,
          (y2 - y0) / (y1 - y0), ?_⟩
        refine ⟨⟨?_, ?_, ?_⟩, ⟨?_, ?_, ?_⟩, ⟨?_, ?_, ?_⟩⟩ <;> dsimp only <;> field_simp <;> linarith
    · refine ⟨⟨x0, y0, z0⟩, ⟨x1 - x0, y1 - y0, z1 - z0⟩, 0, 1,
        (x2 - x0) / (x1 - x0), ?_⟩
      refine ⟨⟨?_, ?_, ?_⟩, ⟨?_, ?_, ?_⟩, ⟨?_, ?_, ?_⟩⟩ <;> dsimp only <;> field_simp <;> linarith
  · rintro ⟨⟨px, py, pz⟩, ⟨dx, dy, dz⟩, sa, sb, sc, ⟨ax, ay, az⟩, ⟨bx, bY, bz⟩, ⟨cx, cy, cz⟩⟩
    simp only at ax ay az bx bY bz cx cy cz
    subst ax ay az bx bY bz cx cy cz
    refine ⟨by ring, by ring, by ring⟩

/-- The squared length of the cross product of the edges at the first vertex is the same
for every order of the three vertices. -/
lemma cross_dot_perm (vert0 vert1 vert2 : Vec3 K) :
    VEC3_DOT (VEC3_CROSS (VEC3_SUB vert2 vert0) (VEC3_SUB vert1 vert0))
        (VEC3_CROSS (VEC3_SUB vert2 vert0) (VEC3_SUB vert1 vert0))
      = VEC3_DOT (VEC3_CROSS (VEC3_SUB vert1 vert0) (VEC3_SUB vert2 vert0))
          (VEC3_CROSS (VEC3_SUB vert1 vert0) (VEC3_SUB vert2 vert0)) ∧
    VEC3_DOT (VEC3_CROSS (VEC3_SUB vert0 vert1) (VEC3_SUB vert2 vert1))
        (VEC3_CROSS (VEC3_SUB vert0 vert1) (VEC3_SUB vert2 vert1))
      = VEC3_DOT (VEC3_CROSS (VEC3_SUB vert1 vert0) (VEC3_SUB vert2 vert0))
          (VEC3_CROSS (VEC3_SUB vert1 vert0) (VEC3_SUB vert2 vert0)) ∧
    VEC3_DOT (VEC3_CROSS (VEC3_SUB vert2 vert1) (VEC3_SUB vert0 vert1))
        (VEC3_CROSS (VEC3_SUB vert2 vert1) (VEC3_SUB vert0 vert1))
      = VEC3_DOT (VEC3_CROSS (VEC3_SUB vert1 vert0) (VEC3_SUB vert2 vert0))
          (VEC3_CROSS (VEC3_SUB vert1 vert0) (VEC3_SUB vert2 vert0)) ∧
    VEC3_DOT (VEC3_CROSS (VEC3_SUB vert0 vert2) (VEC3_SUB vert1 vert2))
        (VEC3_CROSS (VEC3_SUB vert0 vert2) (VEC3_SUB vert1 vert2))
      = VEC3_DOT (VEC3_CROSS (VEC3_SUB vert1 vert0) (VEC3_SUB vert2 vert0))
          (VEC3_CROSS (VEC3_SUB vert1 vert0) (VEC3_SUB vert2 vert0)) ∧
    VEC3_DOT (VEC3_CROSS (VEC3_SUB vert1 vert2) (VEC3_SUB vert0 vert2))
        (VEC3_CROSS (VEC3_SUB vert1 vert2) (VEC3_SUB vert0 vert2))
      = VEC3_DOT (VEC3_CROSS (VEC3_SUB vert1 vert0) (VEC3_SUB vert2 vert0))
          (VEC3_CROSS (VEC3_SUB vert1 vert0) (VEC3_SUB vert2 vert0)) := by
  simp only [VEC3_DOT, VEC3_CROSS, VEC3_SUB]
  refine ⟨by ring, by ring, by ring, by ring, by ring⟩

/-! ## Runs of `TriRayIntersect` in binary64 -/

/-- A run in binary64: for the triangle `(0,0,0), (1,0,0), (0,1,0)` and the direction
`(1,0,0)`, which lies in its plane, the determinant computed is 0. -/
lemma det_rnd_in_plane :
    triDet_rnd fl ⟨0, 0, 0⟩ ⟨1, 0, 0⟩ ⟨0, 1, 0⟩
        ⟨1, 0, 0⟩ = 0 := by
  have h1 : VEC3_SUB_rnd fl ⟨1, 0, 0⟩ ⟨0, 0, 0⟩ = ⟨1, 0, 0⟩ := by
    unfold VEC3_SUB_rnd
    dsimp only
    simp only [fl_value_1 (1 - 0) (by norm_num), fl_value_2 (0 - 0) (by norm_num)]
  have h2 : VEC3_SUB_rnd fl ⟨0, 1, 0⟩ ⟨0, 0, 0⟩ = ⟨0, 1, 0⟩ := by
    unfold VEC3_SUB_rnd
    dsimp only
    simp only [fl_value_2 (0 - 0) (by norm_num), fl_value_1 (1 - 0) (by norm_num)]
  have h3 : VEC3_CROSS_rnd fl ⟨1, 0, 0⟩ ⟨0, 1, 0⟩ = ⟨0, 0, 1⟩ := by
    unfold VEC3_CROSS_rnd
    dsimp only
    simp only [fl_value_2 (0 * 0) (by norm_num), fl_value_2 (0 * 1) (by norm_num),
      fl_value_2 (0 - 0) (by norm_num), fl_value_2 (1 * 0) (by norm_num),
      fl_value_1 (1 * 1) (by norm_num), fl_value_1 (1 - 0) (by norm_num)]
  have h4 : VEC3_DOT_rnd fl ⟨1, 0, 0⟩ ⟨0, 0, 1⟩ = 0 := by
    unfold VEC3_DOT_rnd
    dsimp only
    simp only [fl_value_2 (1 * 0) (by norm_num), fl_value_2 (0 * 0) (by norm_num),
      fl_value_2 (0 + 0) (by norm_num), fl_value_2 (0 * 1) (by norm_num)]
  have h5 : triDet_rnd fl ⟨0, 0, 0⟩ ⟨1, 0, 0⟩ ⟨0, 1, 0⟩ ⟨1, 0, 0⟩ = 0 := by
    unfold triDet_rnd
    simp only [h1, h2, h3, h4]
  exact h5

/-- A run in binary64: for the triangle `(0,0,0), (1,0,0), (0,1,0)` and the direction
`(0, 0, -EPSILON)` the determinant computed is `EPSILON`. -/
lemma det_rnd_at_epsilon :
    triDet_rnd fl ⟨0, 0, 0⟩ ⟨1, 0, 0⟩ ⟨0, 1, 0⟩
        ⟨0, 0, -EPSILON⟩ = 4722366482869645 / 2 ^ 72 := by
  have h1 : VEC3_SUB_rnd fl ⟨1, 0, 0⟩ ⟨0, 0, 0⟩ = ⟨1, 0, 0⟩ := by
    unfold VEC3_SUB_rnd
    dsimp only
    simp only [fl_value_1 (1 - 0) (by norm_num), fl_value_2 (0 - 0) (by norm_num)]
  have h2 : VEC3_SUB_rnd fl ⟨0, 1, 0⟩ ⟨0, 0, 0⟩ = ⟨0, 1, 0⟩ := by
    unfold VEC3_SUB_rnd
    dsimp only
    simp only [fl_value_2 (0 - 0) (by norm_num), fl_value_1 (1 - 0) (by norm_num)]
  have h3 : VEC3_CROSS_rnd fl ⟨0, 0, -EPSILON⟩ ⟨0, 1, 0⟩ = ⟨4722366482869645 / 2 ^ 72, 0, 0⟩ := by
    unfold VEC3_CROSS_rnd
    dsimp only
    simp only [fl_value_2 (0 * 0) (by norm_num), fl_value_3 ((-EPSILON) * 1) (by norm_num [EPSILON]),
      fl_value_4 (0 - (-(4722366482869645 / 2 ^ 72))) (by norm_num),
      fl_value_2 ((-EPSILON) * 0) (by norm_num [EPSILON]), fl_value_2 (0 - 0) (by norm_num),
      fl_value_2 (0 * 1) (by norm_num)]
  have h4 : VEC3_DOT_rnd fl ⟨1, 0, 0⟩ ⟨4722366482869645 / 2 ^ 72, 0, 0⟩
      = 4722366482869645 / 2 ^ 72 := by
    unfold VEC3_DOT_rnd
    dsimp only
    simp only [fl_value_4 (1 * (4722366482869645 / 2 ^ 72)) (by norm_num), fl_value_2 (0 * 0) (by norm_num),
      fl_value_4 ((4722366482869645 / 2 ^ 72) + 0) (by norm_num)]
  have h5 : triDet_rnd fl ⟨0, 0, 0⟩ ⟨1, 0, 0⟩ ⟨0, 1, 0⟩ ⟨0, 0, -EPSILON⟩
      = 4722366482869645 / 2 ^ 72 := by
    unfold triDet_rnd
    simp only [h1, h2, h3, h4]
  exact h5

/-- A run in binary64: with the determinant `EPSILON` the test without culling is passed;
from the origin `(1/4, 1/4, 1)` the call returns 1 with `t = 1000000`, `u = v = 1/4`. -/
lemma hit_rnd_at_epsilon :
    TriRayIntersect_rnd fl ⟨0, 0, 0⟩ ⟨1, 0, 0⟩ ⟨0, 1, 0⟩
        ⟨1 / 4, 1 / 4, 1⟩ ⟨0, 0, -EPSILON⟩ 0 0 0 0
      = ⟨1, 1000000, 1 / 4, 1 / 4⟩ := by
  have h1 : VEC3_SUB_rnd fl ⟨1, 0, 0⟩ ⟨0, 0, 0⟩ = ⟨1, 0, 0⟩ := by
    unfold VEC3_SUB_rnd
    dsimp only
    simp only [fl_value_1 (1 - 0) (by norm_num), fl_value_2 (0 - 0) (by norm_num)]
  have h2 : VEC3_SUB_rnd fl ⟨0, 1, 0⟩ ⟨0, 0, 0⟩ = ⟨0, 1, 0⟩ := by
    unfold VEC3_SUB_rnd
    dsimp only
    simp only [fl_value_2 (0 - 0) (by norm_num), fl_value_1 (1 - 0) (by norm_num)]
  have h3 : VEC3_CROSS_rnd fl ⟨0, 0, -EPSILON⟩ ⟨0, 1, 0⟩ = ⟨4722366482869645 / 2 ^ 72, 0, 0⟩ := by
    unfold VEC3_CROSS_rnd
    dsimp only
    simp only [fl_value_2 (0 * 0) (by norm_num), fl_value_3 ((-EPSILON) * 1) (by norm_num [EPSILON]),
      fl_value_4 (0 - (-(4722366482869645 / 2 ^ 72))) (by norm_num),
      fl_value_2 ((-EPSILON) * 0) (by norm_num [EPSILON]), fl_value_2 (0 - 0) (by norm_num),
      fl_value_2 (0 * 1) (by norm_num)]
  have h4 : VEC3_DOT_rnd fl ⟨1, 0, 0⟩ ⟨4722366482869645 / 2 ^ 72, 0, 0⟩
      = 4722366482869645 / 2 ^ 72 := by
    unfold VEC3_DOT_rnd
    dsimp only
    simp only [fl_value_4 (1 * (4722366482869645 / 2 ^ 72)) (by norm_num), fl_value_2 (0 * 0) (by norm_num),
      fl_value_4 ((4722366482869645 / 2 ^ 72) + 0) (by norm_num)]
  have h5 : VEC3_SUB_rnd fl ⟨1 / 4, 1 / 4, 1⟩ ⟨0, 0, 0⟩ = ⟨1 / 4, 1 / 4, 1⟩ := by
    unfold VEC3_SUB_rnd
    dsimp only
    simp only [fl_value_6 ((1 / 4) - 0) (by norm_num), fl_value_1 (1 - 0) (by norm_num)]
  have h6 : VEC3_DOT_rnd fl ⟨1 / 4, 1 / 4, 1⟩ ⟨4722366482869645 / 2 ^ 72, 0, 0⟩
      = 4722366482869645 / 2 ^ 74 := by
    unfold VEC3_DOT_rnd
    dsimp only
    simp only [fl_value_7 ((1 / 4) * (4722366482869645 / 2 ^ 72)) (by norm_num),
      fl_value_2 ((1 / 4) * 0) (by norm_num),
      fl_value_7 ((4722366482869645 / 2 ^ 74) + 0) (by norm_num), fl_value_2 (1 * 0) (by norm_num)]
  have h7 : VEC3_CROSS_rnd fl ⟨1 / 4, 1 / 4, 1⟩ ⟨1, 0, 0⟩ = ⟨0, 1, (-(1 / 4))⟩ := by
    unfold VEC3_CROSS_rnd
    dsimp only
    simp only [fl_value_2 ((1 / 4) * 0) (by norm_num), fl_value_2 (1 * 0) (by norm_num),
      fl_value_2 (0 - 0) (by norm_num), fl_value_1 (1 * 1) (by norm_num),
      fl_value_1 (1 - 0) (by norm_num), fl_value_6 ((1 / 4) * 1) (by norm_num),
      fl_value_9 (0 - (1 / 4)) (by norm_num)]
  have h8 : VEC3_DOT_rnd fl ⟨0, 0, -EPSILON⟩ ⟨0, 1, (-(1 / 4))⟩ = 4722366482869645 / 2 ^ 74 := by
    unfold VEC3_DOT_rnd
    dsimp only
    simp only [fl_value_2 (0 * 0) (by norm_num), fl_value_2 (0 * 1) (by norm_num),
      fl_value_2 (0 + 0) (by norm_num),
      fl_value_7 ((-EPSILON) * (-(1 / 4))) (by norm_num [EPSILON]),
      fl_value_7 (0 + (4722366482869645 / 2 ^ 74)) (by norm_num)]
  have h9 : VEC3_DOT_rnd fl ⟨0, 1, 0⟩ ⟨0, 1, (-(1 / 4))⟩ = 1 := by
    unfold VEC3_DOT_rnd
    dsimp only
    simp only [fl_value_2 (0 * 0) (by norm_num), fl_value_1 (1 * 1) (by norm_num),
      fl_value_1 (0 + 1) (by norm_num), fl_value_2 (0 * (-(1 / 4))) (by norm_num),
      fl_value_1 (1 + 0) (by norm_num)]
  unfold TriRayIntersect_rnd
  dsimp only
  simp only [h1, h2, h3, h4, fl_value_5 (1 / (4722366482869645 / 2 ^ 72)) (by norm_num), h5, h6,
    fl_value_8 ((4722366482869645 / 2 ^ 74) * 1000000) (by norm_num), h7, h8,
    fl_value_10 ((1 / 4) + (1 / 4)) (by norm_num), h9, fl_value_11 (1 * 1000000) (by norm_num)]
  rw [if_neg (show ¬ ((0 : ℤ) ≠ 0) by norm_num)]
  rw [if_neg (show ¬ ((4722366482869645 / 2 ^ 72 : ℚ) > -EPSILON ∧ (4722366482869645 / 2 ^ 72 : ℚ) < EPSILON) by norm_num [EPSILON])]
  rw [if_neg (show ¬ ((1 / 4 : ℚ) < 0 ∨ (1 / 4 : ℚ) > 1) by norm_num)]
  rw [if_neg (show ¬ ((1 / 4 : ℚ) < 0 ∨ (1 / 2 : ℚ) > 1) by norm_num)]

/-- A run in binary64: with the determinant `EPSILON` the test with culling is passed; from
the origin `(1/4, 1/4, 1)` the call returns 1 with `t = 1000000`, `u = v = 1/4`. -/
lemma hit_rnd_at_epsilon_culling :
    TriRayIntersect_rnd fl ⟨0, 0, 0⟩ ⟨1, 0, 0⟩ ⟨0, 1, 0⟩
        ⟨1 / 4, 1 / 4, 1⟩ ⟨0, 0, -EPSILON⟩ 1 0 0 0
      = ⟨1, 1000000, 1 / 4, 1 / 4⟩ := by
  have h1 : VEC3_SUB_rnd fl ⟨1, 0, 0⟩ ⟨0, 0, 0⟩ = ⟨1, 0, 0⟩ := by
    unfold VEC3_SUB_rnd
    dsimp only
    simp only [fl_value_1 (1 - 0) (by norm_num), fl_value_2 (0 - 0) (by norm_num)]
  have h2 : VEC3_SUB_rnd fl ⟨0, 1, 0⟩ ⟨0, 0, 0⟩ = ⟨0, 1, 0⟩ := by
    unfold VEC3_SUB_rnd
    dsimp only
    simp only [fl_value_2 (0 - 0) (by norm_num), fl_value_1 (1 - 0) (by norm_num)]
  have h3 : VEC3_CROSS_rnd fl ⟨0, 0, -EPSILON⟩ ⟨0, 1, 0⟩ = ⟨4722366482869645 / 2 ^ 72, 0, 0⟩ := by
    unfold VEC3_CROSS_rnd
    dsimp only
    simp only [fl_value_2 (0 * 0) (by norm_num), fl_value_3 ((-EPSILON) * 1) (by norm_num [EPSILON]),
      fl_value_4 (0 - (-(4722366482869645 / 2 ^ 72))) (by norm_num),
      fl_value_2 ((-EPSILON) * 0) (by norm_num [EPSILON]), fl_value_2 (0 - 0) (by norm_num),
      fl_value_2 (0 * 1) (by norm_num)]
  have h4 : VEC3_DOT_rnd fl ⟨1, 0, 0⟩ ⟨4722366482869645 / 2 ^ 72, 0, 0⟩
      = 4722366482869645 / 2 ^ 72 := by
    unfold VEC3_DOT_rnd
    dsimp only
    simp only [fl_value_4 (1 * (4722366482869645 / 2 ^ 72)) (by norm_num), fl_value_2 (0 * 0) (by norm_num),
      fl_value_4 ((4722366482869645 / 2 ^ 72) + 0) (by norm_num)]
  have h5 : VEC3_SUB_rnd fl ⟨1 / 4, 1 / 4, 1⟩ ⟨0, 0, 0⟩ = ⟨1 / 4, 1 / 4, 1⟩ := by
    unfold VEC3_SUB_rnd
    dsimp only
    simp only [fl_value_6 ((1 / 4) - 0) (by norm_num), fl_value_1 (1 - 0) (by norm_num)]
  have h6 : VEC3_DOT_rnd fl ⟨1 / 4, 1 / 4, 1⟩ ⟨4722366482869645 / 2 ^ 72, 0, 0⟩
      = 4722366482869645 / 2 ^ 74 := by
    unfold VEC3_DOT_rnd
    dsimp only
    simp only [fl_value_7 ((1 / 4) * (4722366482869645 / 2 ^ 72)) (by norm_num),
      fl_value_2 ((1 / 4) * 0) (by norm_num),
      fl_value_7 ((4722366482869645 / 2 ^ 74) + 0) (by norm_num), fl_value_2 (1 * 0) (by norm_num)]
  have h7 : VEC3_CROSS_rnd fl ⟨1 / 4, 1 / 4, 1⟩ ⟨1, 0, 0⟩ = ⟨0, 1, (-(1 / 4))⟩ := by
    unfold VEC3_CROSS_rnd
    dsimp only
    simp only [fl_value_2 ((1 / 4) * 0) (by norm_num), fl_value_2 (1 * 0) (by norm_num),
      fl_value_2 (0 - 0) (by norm_num), fl_value_1 (1 * 1) (by norm_num),
      fl_value_1 (1 - 0) (by norm_num), fl_value_6 ((1 / 4) * 1) (by norm_num),
      fl_value_9 (0 - (1 / 4)) (by norm_num)]
  have h8 : VEC3_DOT_rnd fl ⟨0, 0, -EPSILON⟩ ⟨0, 1, (-(1 / 4))⟩ = 4722366482869645 / 2 ^ 74 := by
    unfold VEC3_DOT_rnd
    dsimp only
    simp only [fl_value_2 (0 * 0) (by norm_num), fl_value_2 (0 * 1) (by norm_num),
      fl_value_2 (0 + 0) (by norm_num),
      fl_value_7 ((-EPSILON) * (-(1 / 4))) (by norm_num [EPSILON]),
      fl_value_7 (0 + (4722366482869645 / 2 ^ 74)) (by norm_num)]
  have h9 : VEC3_DOT_rnd fl ⟨0, 1, 0⟩ ⟨0, 1, (-(1 / 4))⟩ = 1 := by
    unfold VEC3_DOT_rnd
    dsimp only
    simp only [fl_value_2 (0 * 0) (by norm_num), fl_value_1 (1 * 1) (by norm_num),
      fl_value_1 (0 + 1) (by norm_num), fl_value_2 (0 * (-(1 / 4))) (by norm_num),
      fl_value_1 (1 + 0) (by norm_num)]
  unfold TriRayIntersect_rnd
  dsimp only
  simp only [h1, h2, h3, h4, h5, h6, h7, h8,
    fl_value_12 ((4722366482869645 / 2 ^ 74) + (4722366482869645 / 2 ^ 74)) (by norm_num), h9,
    fl_value_5 (1 / (4722366482869645 / 2 ^ 72)) (by norm_num),
    fl_value_11 (1 * 1000000) (by norm_num),
    fl_value_8 ((4722366482869645 / 2 ^ 74) * 1000000) (by norm_num)]
  rw [if_pos (show (1 : ℤ) ≠ 0 by norm_num)]
  rw [if_neg (show ¬ ((4722366482869645 / 2 ^ 72 : ℚ) < EPSILON) by norm_num [EPSILON])]
  rw [if_neg (show ¬ ((4722366482869645 / 2 ^ 74 : ℚ) < 0 ∨ (4722366482869645 / 2 ^ 74 : ℚ) > (4722366482869645 / 2 ^ 72)) by norm_num)]
  rw [if_neg (show ¬ ((4722366482869645 / 2 ^ 74 : ℚ) < 0 ∨ (4722366482869645 / 2 ^ 73 : ℚ) > (4722366482869645 / 2 ^ 72)) by norm_num)]

/-- A run in binary64: for the vertices `(0,0,0), (3,5,0), (6,10,0)`, which lie on one line,
and the direction `(0, 0, 2⁵³ - 1)` the determinant computed is 32: the products
`(2⁵³ - 1) * 10` and `(2⁵³ - 1) * 6` are rounded, and so are their products with 3 and
5. -/
lemma det_rnd_on_a_line :
    triDet_rnd fl ⟨0, 0, 0⟩ ⟨3, 5, 0⟩ ⟨6, 10, 0⟩
        ⟨0, 0, 9007199254740991⟩ = 32 := by
  have h1 : VEC3_SUB_rnd fl ⟨3, 5, 0⟩ ⟨0, 0, 0⟩ = ⟨3, 5, 0⟩ := by
    unfold VEC3_SUB_rnd
    dsimp only
    simp only [fl_value_13 (3 - 0) (by norm_num), fl_value_14 (5 - 0) (by norm_num),
      fl_value_2 (0 - 0) (by norm_num)]
  have h2 : VEC3_SUB_rnd fl ⟨6, 10, 0⟩ ⟨0, 0, 0⟩ = ⟨6, 10, 0⟩ := by
    unfold VEC3_SUB_rnd
    dsimp only
    simp only [fl_value_15 (6 - 0) (by norm_num), fl_value_16 (10 - 0) (by norm_num),
      fl_value_2 (0 - 0) (by norm_num)]
  have h3 : VEC3_CROSS_rnd fl ⟨0, 0, 9007199254740991⟩ ⟨6, 10, 0⟩
      = ⟨(-90071992547409904), 54043195528445944, 0⟩ := by
    unfold VEC3_CROSS_rnd
    dsimp only
    simp only [fl_value_2 (0 * 0) (by norm_num), fl_value_17 (9007199254740991 * 10) (by norm_num),
      fl_value_18 (0 - 90071992547409904) (by norm_num),
      fl_value_19 (9007199254740991 * 6) (by norm_num),
      fl_value_20 (54043195528445944 - 0) (by norm_num), fl_value_2 (0 * 10) (by norm_num),
      fl_value_2 (0 * 6) (by norm_num), fl_value_2 (0 - 0) (by norm_num)]
  have h4 : VEC3_DOT_rnd fl ⟨3, 5, 0⟩ ⟨(-90071992547409904), 54043195528445944, 0⟩ = 32 := by
    unfold VEC3_DOT_rnd
    dsimp only
    simp only [fl_value_21 (3 * (-90071992547409904)) (by norm_num),
      fl_value_22 (5 * 54043195528445944) (by norm_num),
      fl_value_23 ((-270215977642229696) + 270215977642229728) (by norm_num),
      fl_value_2 (0 * 0) (by norm_num), fl_value_23 (32 + 0) (by norm_num)]
  have h5 : triDet_rnd fl ⟨0, 0, 0⟩ ⟨3, 5, 0⟩ ⟨6, 10, 0⟩ ⟨0, 0, 9007199254740991⟩ = 32 := by
    unfold triDet_rnd
    simp only [h1, h2, h3, h4]
  exact h5

/-- A run in binary64: the triangle without area `(0,0,0), (3,5,0), (6,10,0)` is hit from
its first vertex in the direction `(0, 0, 2⁵³ - 1)`, without culling. -/
lemma hit_rnd_on_a_line :
    TriRayIntersect_rnd fl ⟨0, 0, 0⟩ ⟨3, 5, 0⟩ ⟨6, 10, 0⟩
        ⟨0, 0, 0⟩ ⟨0, 0, 9007199254740991⟩ 0 0 0 0
      = ⟨1, 0, 0, 0⟩ := by
  have h1 : VEC3_SUB_rnd fl ⟨3, 5, 0⟩ ⟨0, 0, 0⟩ = ⟨3, 5, 0⟩ := by
    unfold VEC3_SUB_rnd
    dsimp only
    simp only [fl_value_13 (3 - 0) (by norm_num), fl_value_14 (5 - 0) (by norm_num),
      fl_value_2 (0 - 0) (by norm_num)]
  have h2 : VEC3_SUB_rnd fl ⟨6, 10, 0⟩ ⟨0, 0, 0⟩ = ⟨6, 10, 0⟩ := by
    unfold VEC3_SUB_rnd
    dsimp only
    simp only [fl_value_15 (6 - 0) (by norm_num), fl_value_16 (10 - 0) (by norm_num),
      fl_value_2 (0 - 0) (by norm_num)]
  have h3 : VEC3_CROSS_rnd fl ⟨0, 0, 9007199254740991⟩ ⟨6, 10, 0⟩
      = ⟨(-90071992547409904), 54043195528445944, 0⟩ := by
    unfold VEC3_CROSS_rnd
    dsimp only
    simp only [fl_value_2 (0 * 0) (by norm_num), fl_value_17 (9007199254740991 * 10) (by norm_num),
      fl_value_18 (0 - 90071992547409904) (by norm_num),
      fl_value_19 (9007199254740991 * 6) (by norm_num),
      fl_value_20 (54043195528445944 - 0) (by norm_num), fl_value_2 (0 * 10) (by norm_num),
      fl_value_2 (0 * 6) (by norm_num), fl_value_2 (0 - 0) (by norm_num)]
  have h4 : VEC3_DOT_rnd fl ⟨3, 5, 0⟩ ⟨(-90071992547409904), 54043195528445944, 0⟩ = 32 := by
    unfold VEC3_DOT_rnd
    dsimp only
    simp only [fl_value_21 (3 * (-90071992547409904)) (by norm_num),
      fl_value_22 (5 * 54043195528445944) (by norm_num),
      fl_value_23 ((-270215977642229696) + 270215977642229728) (by norm_num),
      fl_value_2 (0 * 0) (by norm_num), fl_value_23 (32 + 0) (by norm_num)]
  have h5 : VEC3_SUB_rnd fl ⟨0, 0, 0⟩ ⟨0, 0, 0⟩ = ⟨0, 0, 0⟩ := by
    unfold VEC3_SUB_rnd
    dsimp only
    simp only [fl_value_2 (0 - 0) (by norm_num)]
  have h6 : VEC3_DOT_rnd fl ⟨0, 0, 0⟩ ⟨(-90071992547409904), 54043195528445944, 0⟩ = 0 := by
    unfold VEC3_DOT_rnd
    dsimp only
    simp only [fl_value_2 (0 * (-90071992547409904)) (by norm_num),
      fl_value_2 (0 * 54043195528445944) (by norm_num), fl_value_2 (0 + 0) (by norm_num),
      fl_value_2 (0 * 0) (by norm_num)]
  have h7 : VEC3_CROSS_rnd fl ⟨0, 0, 0⟩ ⟨3, 5, 0⟩ = ⟨0, 0, 0⟩ := by
    unfold VEC3_CROSS_rnd
    dsimp only
    simp only [fl_value_2 (0 * 0) (by norm_num), fl_value_2 (0 * 5) (by norm_num),
      fl_value_2 (0 - 0) (by norm_num), fl_value_2 (0 * 3) (by norm_num)]
  have h8 : VEC3_DOT_rnd fl ⟨0, 0, 9007199254740991⟩ ⟨0, 0, 0⟩ = 0 := by
    unfold VEC3_DOT_rnd
    dsimp only
    simp only [fl_value_2 (0 * 0) (by norm_num), fl_value_2 (0 + 0) (by norm_num),
      fl_value_2 (9007199254740991 * 0) (by norm_num)]
  have h9 : VEC3_DOT_rnd fl ⟨6, 10, 0⟩ ⟨0, 0, 0⟩ = 0 := by
    unfold VEC3_DOT_rnd
    dsimp only
    simp only [fl_value_2 (6 * 0) (by norm_num), fl_value_2 (10 * 0) (by norm_num),
      fl_value_2 (0 + 0) (by norm_num), fl_value_2 (0 * 0) (by norm_num)]
  unfold TriRayIntersect_rnd
  dsimp only
  simp only [h1, h2, h3, h4, fl_value_24 (1 / 32) (by norm_num), h5, h6,
    fl_value_2 (0 * (1 / 32)) (by norm_num), h7, h8, fl_value_2 (0 + 0) (by norm_num), h9]
  rw [if_neg (show ¬ ((0 : ℤ) ≠ 0) by norm_num)]
  rw [if_neg (show ¬ ((32 : ℚ) > -EPSILON ∧ (32 : ℚ) < EPSILON) by norm_num [EPSILON])]
  rw [if_neg (show ¬ ((0 : ℚ) < 0 ∨ (0 : ℚ) > 1) by norm_num)]
  rw [if_neg (show ¬ ((0 : ℚ) < 0 ∨ (0 : ℚ) > 1) by norm_num)]

/-- A run in binary64: the triangle without area `(0,0,0), (3,5,0), (6,10,0)` is hit from
its first vertex in the direction `(0, 0, 2⁵³ - 1)`, with culling. -/
lemma hit_rnd_on_a_line_culling :
    TriRayIntersect_rnd fl ⟨0, 0, 0⟩ ⟨3, 5, 0⟩ ⟨6, 10, 0⟩
        ⟨0, 0, 0⟩ ⟨0, 0, 9007199254740991⟩ 1 0 0 0
      = ⟨1, 0, 0, 0⟩ := by
  have h1 : VEC3_SUB_rnd fl ⟨3, 5, 0⟩ ⟨0, 0, 0⟩ = ⟨3, 5, 0⟩ := by
    unfold VEC3_SUB_rnd
    dsimp only
    simp only [fl_value_13 (3 - 0) (by norm_num), fl_value_14 (5 - 0) (by norm_num),
      fl_value_2 (0 - 0) (by norm_num)]
  have h2 : VEC3_SUB_rnd fl ⟨6, 10, 0⟩ ⟨0, 0, 0⟩ = ⟨6, 10, 0⟩ := by
    unfold VEC3_SUB_rnd
    dsimp only
    simp only [fl_value_15 (6 - 0) (by norm_num), fl_value_16 (10 - 0) (by norm_num),
      fl_value_2 (0 - 0) (by norm_num)]
  have h3 : VEC3_CROSS_rnd fl ⟨0, 0, 9007199254740991⟩ ⟨6, 10, 0⟩
      = ⟨(-90071992547409904), 54043195528445944, 0⟩ := by
    unfold VEC3_CROSS_rnd
    dsimp only
    simp only [fl_value_2 (0 * 0) (by norm_num), fl_value_17 (9007199254740991 * 10) (by norm_num),
      fl_value_18 (0 - 90071992547409904) (by norm_num),
      fl_value_19 (9007199254740991 * 6) (by norm_num),
      fl_value_20 (54043195528445944 - 0) (by norm_num), fl_value_2 (0 * 10) (by norm_num),
      fl_value_2 (0 * 6) (by norm_num), fl_value_2 (0 - 0) (by norm_num)]
  have h4 : VEC3_DOT_rnd fl ⟨3, 5, 0⟩ ⟨(-90071992547409904), 54043195528445944, 0⟩ = 32 := by
    unfold VEC3_DOT_rnd
    dsimp only
    simp only [fl_value_21 (3 * (-90071992547409904)) (by norm_num),
      fl_value_22 (5 * 54043195528445944) (by norm_num),
      fl_value_23 ((-270215977642229696) + 270215977642229728) (by norm_num),
      fl_value_2 (0 * 0) (by norm_num), fl_value_23 (32 + 0) (by norm_num)]
  have h5 : VEC3_SUB_rnd fl ⟨0, 0, 0⟩ ⟨0, 0, 0⟩ = ⟨0, 0, 0⟩ := by
    unfold VEC3_SUB_rnd
    dsimp only
    simp only [fl_value_2 (0 - 0) (by norm_num)]
  have h6 : VEC3_DOT_rnd fl ⟨0, 0, 0⟩ ⟨(-90071992547409904), 54043195528445944, 0⟩ = 0 := by
    unfold VEC3_DOT_rnd
    dsimp only
    simp only [fl_value_2 (0 * (-90071992547409904)) (by norm_num),
      fl_value_2 (0 * 54043195528445944) (by norm_num), fl_value_2 (0 + 0) (by norm_num),
      fl_value_2 (0 * 0) (by norm_num)]
  have h7 : VEC3_CROSS_rnd fl ⟨0, 0, 0⟩ ⟨3, 5, 0⟩ = ⟨0, 0, 0⟩ := by
    unfold VEC3_CROSS_rnd
    dsimp only
    simp only [fl_value_2 (0 * 0) (by norm_num), fl_value_2 (0 * 5) (by norm_num),
      fl_value_2 (0 - 0) (by norm_num), fl_value_2 (0 * 3) (by norm_num)]
  have h8 : VEC3_DOT_rnd fl ⟨0, 0, 9007199254740991⟩ ⟨0, 0, 0⟩ = 0 := by
    unfold VEC3_DOT_rnd
    dsimp only
    simp only [fl_value_2 (0 * 0) (by norm_num), fl_value_2 (0 + 0) (by norm_num),
      fl_value_2 (9007199254740991 * 0) (by norm_num)]
  have h9 : VEC3_DOT_rnd fl ⟨6, 10, 0⟩ ⟨0, 0, 0⟩ = 0 := by
    unfold VEC3_DOT_rnd
    dsimp only
    simp only [fl_value_2 (6 * 0) (by norm_num), fl_value_2 (10 * 0) (by norm_num),
      fl_value_2 (0 + 0) (by norm_num), fl_value_2 (0 * 0) (by norm_num)]
  unfold TriRayIntersect_rnd
  dsimp only
  simp only [h1, h2, h3, h4, h5, h6, h7, h8, fl_value_2 (0 + 0) (by norm_num), h9,
    fl_value_24 (1 / 32) (by norm_num), fl_value_2 (0 * (1 / 32)) (by norm_num)]
  rw [if_pos (show (1 : ℤ) ≠ 0 by norm_num)]
  rw [if_neg (show ¬ ((32 : ℚ) < EPSILON) by norm_num [EPSILON])]
  rw [if_neg (show ¬ ((0 : ℚ) < 0 ∨ (0 : ℚ) > 32) by norm_num)]
  rw [if_neg (show ¬ ((0 : ℚ) < 0 ∨ (0 : ℚ) > 32) by norm_num)]

/-- A run in binary64: for the triangle `(0,0,0), (0,1,1), (3,2,0)` and the direction
`(3, 2⁵² + 3, 2⁵² + 1)`, which is the second edge plus `2⁵² + 1` times the first and so
lies in the plane of the triangle, the determinant computed is 2. -/
lemma det_rnd_in_tilted_plane :
    triDet_rnd fl ⟨0, 0, 0⟩ ⟨0, 1, 1⟩ ⟨3, 2, 0⟩
        ⟨3, 4503599627370499, 4503599627370497⟩ = 2 := by
  have h1 : VEC3_SUB_rnd fl ⟨0, 1, 1⟩ ⟨0, 0, 0⟩ = ⟨0, 1, 1⟩ := by
    unfold VEC3_SUB_rnd
    dsimp only
    simp only [fl_value_2 (0 - 0) (by norm_num), fl_value_1 (1 - 0) (by norm_num)]
  have h2 : VEC3_SUB_rnd fl ⟨3, 2, 0⟩ ⟨0, 0, 0⟩ = ⟨3, 2, 0⟩ := by
    unfold VEC3_SUB_rnd
    dsimp only
    simp only [fl_value_13 (3 - 0) (by norm_num), fl_value_25 (2 - 0) (by norm_num),
      fl_value_2 (0 - 0) (by norm_num)]
  have h3 : VEC3_CROSS_rnd fl ⟨3, 4503599627370499, 4503599627370497⟩ ⟨3, 2, 0⟩
      = ⟨(-9007199254740994), 13510798882111492, (-13510798882111490)⟩ := by
    unfold VEC3_CROSS_rnd
    dsimp only
    simp only [fl_value_2 (4503599627370499 * 0) (by norm_num),
      fl_value_26 (4503599627370497 * 2) (by norm_num),
      fl_value_27 (0 - 9007199254740994) (by norm_num),
      fl_value_28 (4503599627370497 * 3) (by norm_num), fl_value_2 (3 * 0) (by norm_num),
      fl_value_29 (13510798882111492 - 0) (by norm_num), fl_value_15 (3 * 2) (by norm_num),
      fl_value_30 (4503599627370499 * 3) (by norm_num),
      fl_value_31 (6 - 13510798882111496) (by norm_num)]
  have h4 : VEC3_DOT_rnd fl ⟨0, 1, 1⟩ ⟨(-9007199254740994), 13510798882111492, (-13510798882111490)⟩
      = 2 := by
    unfold VEC3_DOT_rnd
    dsimp only
    simp only [fl_value_2 (0 * (-9007199254740994)) (by norm_num),
      fl_value_29 (1 * 13510798882111492) (by norm_num),
      fl_value_29 (0 + 13510798882111492) (by norm_num),
      fl_value_31 (1 * (-13510798882111490)) (by norm_num),
      fl_value_25 (13510798882111492 + (-13510798882111490)) (by norm_num)]
  have h5 : triDet_rnd fl ⟨0, 0, 0⟩ ⟨0, 1, 1⟩ ⟨3, 2, 0⟩ ⟨3, 4503599627370499, 4503599627370497⟩
      = 2 := by
    unfold triDet_rnd
    simp only [h1, h2, h3, h4]
  exact h5

/-- A run in binary64: the triangle `(0,0,0), (0,1,1), (3,2,0)` is hit from its first vertex
in the direction `(3, 2⁵² + 3, 2⁵² + 1)`, which lies in its plane, without culling. -/
lemma hit_rnd_in_tilted_plane :
    TriRayIntersect_rnd fl ⟨0, 0, 0⟩ ⟨0, 1, 1⟩ ⟨3, 2, 0⟩
        ⟨0, 0, 0⟩ ⟨3, 4503599627370499, 4503599627370497⟩ 0 0 0 0
      = ⟨1, 0, 0, 0⟩ := by
  have h1 : VEC3_SUB_rnd fl ⟨0, 1, 1⟩ ⟨0, 0, 0⟩ = ⟨0, 1, 1⟩ := by
    unfold VEC3_SUB_rnd
    dsimp only
    simp only [fl_value_2 (0 - 0) (by norm_num), fl_value_1 (1 - 0) (by norm_num)]
  have h2 : VEC3_SUB_rnd fl ⟨3, 2, 0⟩ ⟨0, 0, 0⟩ = ⟨3, 2, 0⟩ := by
    unfold VEC3_SUB_rnd
    dsimp only
    simp only [fl_value_13 (3 - 0) (by norm_num), fl_value_25 (2 - 0) (by norm_num),
      fl_value_2 (0 - 0) (by norm_num)]
  have h3 : VEC3_CROSS_rnd fl ⟨3, 4503599627370499, 4503599627370497⟩ ⟨3, 2, 0⟩
      = ⟨(-9007199254740994), 13510798882111492, (-13510798882111490)⟩ := by
    unfold VEC3_CROSS_rnd
    dsimp only
    simp only [fl_value_2 (4503599627370499 * 0) (by norm_num),
      fl_value_26 (4503599627370497 * 2) (by norm_num),
      fl_value_27 (0 - 9007199254740994) (by norm_num),
      fl_value_28 (4503599627370497 * 3) (by norm_num), fl_value_2 (3 * 0) (by norm_num),
      fl_value_29 (13510798882111492 - 0) (by norm_num), fl_value_15 (3 * 2) (by norm_num),
      fl_value_30 (4503599627370499 * 3) (by norm_num),
      fl_value_31 (6 - 13510798882111496) (by norm_num)]
  have h4 : VEC3_DOT_rnd fl ⟨0, 1, 1⟩ ⟨(-9007199254740994), 13510798882111492, (-13510798882111490)⟩
      = 2 := by
    unfold VEC3_DOT_rnd
    dsimp only
    simp only [fl_value_2 (0 * (-9007199254740994)) (by norm_num),
      fl_value_29 (1 * 13510798882111492) (by norm_num),
      fl_value_29 (0 + 13510798882111492) (by norm_num),
      fl_value_31 (1 * (-13510798882111490)) (by norm_num),
      fl_value_25 (13510798882111492 + (-13510798882111490)) (by norm_num)]
  have h5 : VEC3_SUB_rnd fl ⟨0, 0, 0⟩ ⟨0, 0, 0⟩ = ⟨0, 0, 0⟩ := by
    unfold VEC3_SUB_rnd
    dsimp only
    simp only [fl_value_2 (0 - 0) (by norm_num)]
  have h6 : VEC3_DOT_rnd fl ⟨0, 0, 0⟩ ⟨(-9007199254740994), 13510798882111492, (-13510798882111490)⟩
      = 0 := by
    unfold VEC3_DOT_rnd
    dsimp only
    simp only [fl_value_2 (0 * (-9007199254740994)) (by norm_num),
      fl_value_2 (0 * 13510798882111492) (by norm_num), fl_value_2 (0 + 0) (by norm_num),
      fl_value_2 (0 * (-13510798882111490)) (by norm_num)]
  have h7 : VEC3_CROSS_rnd fl ⟨0, 0, 0⟩ ⟨0, 1, 1⟩ = ⟨0, 0, 0⟩ := by
    unfold VEC3_CROSS_rnd
    dsimp only
    simp only [fl_value_2 (0 * 1) (by norm_num), fl_value_2 (0 - 0) (by norm_num),
      fl_value_2 (0 * 0) (by norm_num)]
  have h8 : VEC3_DOT_rnd fl ⟨3, 4503599627370499, 4503599627370497⟩ ⟨0, 0, 0⟩ = 0 := by
    unfold VEC3_DOT_rnd
    dsimp only
    simp only [fl_value_2 (3 * 0) (by norm_num), fl_value_2 (4503599627370499 * 0) (by norm_num),
      fl_value_2 (0 + 0) (by norm_num), fl_value_2 (4503599627370497 * 0) (by norm_num)]
  have h9 : VEC3_DOT_rnd fl ⟨3, 2, 0⟩ ⟨0, 0, 0⟩ = 0 := by
    unfold VEC3_DOT_rnd
    dsimp only
    simp only [fl_value_2 (3 * 0) (by norm_num), fl_value_2 (2 * 0) (by norm_num),
      fl_value_2 (0 + 0) (by norm_num), fl_value_2 (0 * 0) (by norm_num)]
  unfold TriRayIntersect_rnd
  dsimp only
  simp only [h1, h2, h3, h4, fl_value_10 (1 / 2) (by norm_num), h5, h6,
    fl_value_2 (0 * (1 / 2)) (by norm_num), h7, h8, fl_value_2 (0 + 0) (by norm_num), h9]
  rw [if_neg (show ¬ ((0 : ℤ) ≠ 0) by norm_num)]
  rw [if_neg (show ¬ ((2 : ℚ) > -EPSILON ∧ (2 : ℚ) < EPSILON) by norm_num [EPSILON])]
  rw [if_neg (show ¬ ((0 : ℚ) < 0 ∨ (0 : ℚ) > 1) by norm_num)]
  rw [if_neg (show ¬ ((0 : ℚ) < 0 ∨ (0 : ℚ) > 1) by norm_num)]

/-- A run in binary64: the triangle `(0,0,0), (0,1,1), (3,2,0)` is hit from its first vertex
in the direction `(3, 2⁵² + 3, 2⁵² + 1)`, which lies in its plane, with culling. -/
lemma hit_rnd_in_tilted_plane_culling :
    TriRayIntersect_rnd fl ⟨0, 0, 0⟩ ⟨0, 1, 1⟩ ⟨3, 2, 0⟩
        ⟨0, 0, 0⟩ ⟨3, 4503599627370499, 4503599627370497⟩ 1 0 0 0
      = ⟨1, 0, 0, 0⟩ := by
  have h1 : VEC3_SUB_rnd fl ⟨0, 1, 1⟩ ⟨0, 0, 0⟩ = ⟨0, 1, 1⟩ := by
    unfold VEC3_SUB_rnd
    dsimp only
    simp only [fl_value_2 (0 - 0) (by norm_num), fl_value_1 (1 - 0) (by norm_num)]
  have h2 : VEC3_SUB_rnd fl ⟨3, 2, 0⟩ ⟨0, 0, 0⟩ = ⟨3, 2, 0⟩ := by
    unfold VEC3_SUB_rnd
    dsimp only
    simp only [fl_value_13 (3 - 0) (by norm_num), fl_value_25 (2 - 0) (by norm_num),
      fl_value_2 (0 - 0) (by norm_num)]
  have h3 : VEC3_CROSS_rnd fl ⟨3, 4503599627370499, 4503599627370497⟩ ⟨3, 2, 0⟩
      = ⟨(-9007199254740994), 13510798882111492, (-13510798882111490)⟩ := by
    unfold VEC3_CROSS_rnd
    dsimp only
    simp only [fl_value_2 (4503599627370499 * 0) (by norm_num),
      fl_value_26 (4503599627370497 * 2) (by norm_num),
      fl_value_27 (0 - 9007199254740994) (by norm_num),
      fl_value_28 (4503599627370497 * 3) (by norm_num), fl_value_2 (3 * 0) (by norm_num),
      fl_value_29 (13510798882111492 - 0) (by norm_num), fl_value_15 (3 * 2) (by norm_num),
      fl_value_30 (4503599627370499 * 3) (by norm_num),
      fl_value_31 (6 - 13510798882111496) (by norm_num)]
  have h4 : VEC3_DOT_rnd fl ⟨0, 1, 1⟩ ⟨(-9007199254740994), 13510798882111492, (-13510798882111490)⟩
      = 2 := by
    unfold VEC3_DOT_rnd
    dsimp only
    simp only [fl_value_2 (0 * (-9007199254740994)) (by norm_num),
      fl_value_29 (1 * 13510798882111492) (by norm_num),
      fl_value_29 (0 + 13510798882111492) (by norm_num),
      fl_value_31 (1 * (-13510798882111490)) (by norm_num),
      fl_value_25 (13510798882111492 + (-13510798882111490)) (by norm_num)]
  have h5 : VEC3_SUB_rnd fl ⟨0, 0, 0⟩ ⟨0, 0, 0⟩ = ⟨0, 0, 0⟩ := by
    unfold VEC3_SUB_rnd
    dsimp only
    simp only [fl_value_2 (0 - 0) (by norm_num)]
  have h6 : VEC3_DOT_rnd fl ⟨0, 0, 0⟩ ⟨(-9007199254740994), 13510798882111492, (-13510798882111490)⟩
      = 0 := by
    unfold VEC3_DOT_rnd
    dsimp only
    simp only [fl_value_2 (0 * (-9007199254740994)) (by norm_num),
      fl_value_2 (0 * 13510798882111492) (by norm_num), fl_value_2 (0 + 0) (by norm_num),
      fl_value_2 (0 * (-13510798882111490)) (by norm_num)]
  have h7 : VEC3_CROSS_rnd fl ⟨0, 0, 0⟩ ⟨0, 1, 1⟩ = ⟨0, 0, 0⟩ := by
    unfold VEC3_CROSS_rnd
    dsimp only
    simp only [fl_value_2 (0 * 1) (by norm_num), fl_value_2 (0 - 0) (by norm_num),
      fl_value_2 (0 * 0) (by norm_num)]
  have h8 : VEC3_DOT_rnd fl ⟨3, 4503599627370499, 4503599627370497⟩ ⟨0, 0, 0⟩ = 0 := by
    unfold VEC3_DOT_rnd
    dsimp only
    simp only [fl_value_2 (3 * 0) (by norm_num), fl_value_2 (4503599627370499 * 0) (by norm_num),
      fl_value_2 (0 + 0) (by norm_num), fl_value_2 (4503599627370497 * 0) (by norm_num)]
  have h9 : VEC3_DOT_rnd fl ⟨3, 2, 0⟩ ⟨0, 0, 0⟩ = 0 := by
    unfold VEC3_DOT_rnd
    dsimp only
    simp only [fl_value_2 (3 * 0) (by norm_num), fl_value_2 (2 * 0) (by norm_num),
      fl_value_2 (0 + 0) (by norm_num), fl_value_2 (0 * 0) (by norm_num)]
  unfold TriRayIntersect_rnd
  dsimp only
  simp only [h1, h2, h3, h4, h5, h6, h7, h8, fl_value_2 (0 + 0) (by norm_num), h9,
    fl_value_10 (1 / 2) (by norm_num), fl_value_2 (0 * (1 / 2)) (by norm_num)]
  rw [if_pos (show (1 : ℤ) ≠ 0 by norm_num)]
  rw [if_neg (show ¬ ((2 : ℚ) < EPSILON) by norm_num [EPSILON])]
  rw [if_neg (show ¬ ((0 : ℚ) < 0 ∨ (0 : ℚ) > 2) by norm_num)]
  rw [if_neg (show ¬ ((0 : ℚ) < 0 ∨ (0 : ℚ) > 2) by norm_num)]

/-- A run in binary64: for the triangle `(0,0,0), (1,0,0), (0,1,0)` and the direction
`(0,0,1)` the determinant computed is `-1`. -/
lemma det_rnd_from_behind :
    triDet_rnd fl ⟨0, 0, 0⟩ ⟨1, 0, 0⟩ ⟨0, 1, 0⟩
        ⟨0, 0, 1⟩ = (-1) := by
  have h1 : VEC3_SUB_rnd fl ⟨1, 0, 0⟩ ⟨0, 0, 0⟩ = ⟨1, 0, 0⟩ := by
    unfold VEC3_SUB_rnd
    dsimp only
    simp only [fl_value_1 (1 - 0) (by norm_num), fl_value_2 (0 - 0) (by norm_num)]
  have h2 : VEC3_SUB_rnd fl ⟨0, 1, 0⟩ ⟨0, 0, 0⟩ = ⟨0, 1, 0⟩ := by
    unfold VEC3_SUB_rnd
    dsimp only
    simp only [fl_value_2 (0 - 0) (by norm_num), fl_value_1 (1 - 0) (by norm_num)]
  have h3 : VEC3_CROSS_rnd fl ⟨0, 0, 1⟩ ⟨0, 1, 0⟩ = ⟨(-1), 0, 0⟩ := by
    unfold VEC3_CROSS_rnd
    dsimp only
    simp only [fl_value_2 (0 * 0) (by norm_num), fl_value_1 (1 * 1) (by norm_num),
      fl_value_32 (0 - 1) (by norm_num), fl_value_2 (1 * 0) (by norm_num),
      fl_value_2 (0 - 0) (by norm_num), fl_value_2 (0 * 1) (by norm_num)]
  have h4 : VEC3_DOT_rnd fl ⟨1, 0, 0⟩ ⟨(-1), 0, 0⟩ = (-1) := by
    unfold VEC3_DOT_rnd
    dsimp only
    simp only [fl_value_32 (1 * (-1)) (by norm_num), fl_value_2 (0 * 0) (by norm_num),
      fl_value_32 ((-1) + 0) (by norm_num)]
  have h5 : triDet_rnd fl ⟨0, 0, 0⟩ ⟨1, 0, 0⟩ ⟨0, 1, 0⟩ ⟨0, 0, 1⟩ = (-1) := by
    unfold triDet_rnd
    simp only [h1, h2, h3, h4]
  exact h5

/-- A run in binary64: the triangle `(0,0,0), (1,0,0), (0,1,0)` is hit from behind, origin
`(1/4, 1/4, -1)`, direction `(0,0,1)`, without culling: `t = 1`, `u = v = 1/4`. -/
lemma hit_rnd_from_behind :
    TriRayIntersect_rnd fl ⟨0, 0, 0⟩ ⟨1, 0, 0⟩ ⟨0, 1, 0⟩
        ⟨1 / 4, 1 / 4, (-1)⟩ ⟨0, 0, 1⟩ 0 0 0 0
      = ⟨1, 1, 1 / 4, 1 / 4⟩ := by
  have h1 : VEC3_SUB_rnd fl ⟨1, 0, 0⟩ ⟨0, 0, 0⟩ = ⟨1, 0, 0⟩ := by
    unfold VEC3_SUB_rnd
    dsimp only
    simp only [fl_value_1 (1 - 0) (by norm_num), fl_value_2 (0 - 0) (by norm_num)]
  have h2 : VEC3_SUB_rnd fl ⟨0, 1, 0⟩ ⟨0, 0, 0⟩ = ⟨0, 1, 0⟩ := by
    unfold VEC3_SUB_rnd
    dsimp only
    simp only [fl_value_2 (0 - 0) (by norm_num), fl_value_1 (1 - 0) (by norm_num)]
  have h3 : VEC3_CROSS_rnd fl ⟨0, 0, 1⟩ ⟨0, 1, 0⟩ = ⟨(-1), 0, 0⟩ := by
    unfold VEC3_CROSS_rnd
    dsimp only
    simp only [fl_value_2 (0 * 0) (by norm_num), fl_value_1 (1 * 1) (by norm_num),
      fl_value_32 (0 - 1) (by norm_num), fl_value_2 (1 * 0) (by norm_num),
      fl_value_2 (0 - 0) (by norm_num), fl_value_2 (0 * 1) (by norm_num)]
  have h4 : VEC3_DOT_rnd fl ⟨1, 0, 0⟩ ⟨(-1), 0, 0⟩ = (-1) := by
    unfold VEC3_DOT_rnd
    dsimp only
    simp only [fl_value_32 (1 * (-1)) (by norm_num), fl_value_2 (0 * 0) (by norm_num),
      fl_value_32 ((-1) + 0) (by norm_num)]
  have h5 : VEC3_SUB_rnd fl ⟨1 / 4, 1 / 4, (-1)⟩ ⟨0, 0, 0⟩ = ⟨1 / 4, 1 / 4, (-1)⟩ := by
    unfold VEC3_SUB_rnd
    dsimp only
    simp only [fl_value_6 ((1 / 4) - 0) (by norm_num), fl_value_32 ((-1) - 0) (by norm_num)]
  have h6 : VEC3_DOT_rnd fl ⟨1 / 4, 1 / 4, (-1)⟩ ⟨(-1), 0, 0⟩ = (-(1 / 4)) := by
    unfold VEC3_DOT_rnd
    dsimp only
    simp only [fl_value_9 ((1 / 4) * (-1)) (by norm_num), fl_value_2 ((1 / 4) * 0) (by norm_num),
      fl_value_9 ((-(1 / 4)) + 0) (by norm_num), fl_value_2 ((-1) * 0) (by norm_num)]
  have h7 : VEC3_CROSS_rnd fl ⟨1 / 4, 1 / 4, (-1)⟩ ⟨1, 0, 0⟩ = ⟨0, (-1), (-(1 / 4))⟩ := by
    unfold VEC3_CROSS_rnd
    dsimp only
    simp only [fl_value_2 ((1 / 4) * 0) (by norm_num), fl_value_2 ((-1) * 0) (by norm_num),
      fl_value_2 (0 - 0) (by norm_num), fl_value_32 ((-1) * 1) (by norm_num),
      fl_value_32 ((-1) - 0) (by norm_num), fl_value_6 ((1 / 4) * 1) (by norm_num),
      fl_value_9 (0 - (1 / 4)) (by norm_num)]
  have h8 : VEC3_DOT_rnd fl ⟨0, 0, 1⟩ ⟨0, (-1), (-(1 / 4))⟩ = (-(1 / 4)) := by
    unfold VEC3_DOT_rnd
    dsimp only
    simp only [fl_value_2 (0 * 0) (by norm_num), fl_value_2 (0 * (-1)) (by norm_num),
      fl_value_2 (0 + 0) (by norm_num), fl_value_9 (1 * (-(1 / 4))) (by norm_num),
      fl_value_9 (0 + (-(1 / 4))) (by norm_num)]
  have h9 : VEC3_DOT_rnd fl ⟨0, 1, 0⟩ ⟨0, (-1), (-(1 / 4))⟩ = (-1) := by
    unfold VEC3_DOT_rnd
    dsimp only
    simp only [fl_value_2 (0 * 0) (by norm_num), fl_value_32 (1 * (-1)) (by norm_num),
      fl_value_32 (0 + (-1)) (by norm_num), fl_value_2 (0 * (-(1 / 4))) (by norm_num),
      fl_value_32 ((-1) + 0) (by norm_num)]
  unfold TriRayIntersect_rnd
  dsimp only
  simp only [h1, h2, h3, h4, fl_value_32 (1 / (-1)) (by norm_num), h5, h6,
    fl_value_6 ((-(1 / 4)) * (-1)) (by norm_num), h7, h8,
    fl_value_10 ((1 / 4) + (1 / 4)) (by norm_num), h9, fl_value_1 ((-1) * (-1)) (by norm_num)]
  rw [if_neg (show ¬ ((0 : ℤ) ≠ 0) by norm_num)]
  rw [if_neg (show ¬ (((-1) : ℚ) > -EPSILON ∧ ((-1) : ℚ) < EPSILON) by norm_num [EPSILON])]
  rw [if_neg (show ¬ ((1 / 4 : ℚ) < 0 ∨ (1 / 4 : ℚ) > 1) by norm_num)]
  rw [if_neg (show ¬ ((1 / 4 : ℚ) < 0 ∨ (1 / 2 : ℚ) > 1) by norm_num)]

/-- A run in binary64: with the determinant `EPSILON` the test with culling is passed; from
the origin `(1/2, 1/4, 2)` the call returns 1 with `t = 2000000`, `u = 1/2`, `v = 1/4`. -/
lemma hit_rnd_at_epsilon_from_afar :
    TriRayIntersect_rnd fl ⟨0, 0, 0⟩ ⟨1, 0, 0⟩ ⟨0, 1, 0⟩
        ⟨1 / 2, 1 / 4, 2⟩ ⟨0, 0, -EPSILON⟩ 1 0 0 0
      = ⟨1, 2000000, 1 / 2, 1 / 4⟩ := by
  have h1 : VEC3_SUB_rnd fl ⟨1, 0, 0⟩ ⟨0, 0, 0⟩ = ⟨1, 0, 0⟩ := by
    unfold VEC3_SUB_rnd
    dsimp only
    simp only [fl_value_1 (1 - 0) (by norm_num), fl_value_2 (0 - 0) (by norm_num)]
  have h2 : VEC3_SUB_rnd fl ⟨0, 1, 0⟩ ⟨0, 0, 0⟩ = ⟨0, 1, 0⟩ := by
    unfold VEC3_SUB_rnd
    dsimp only
    simp only [fl_value_2 (0 - 0) (by norm_num), fl_value_1 (1 - 0) (by norm_num)]
  have h3 : VEC3_CROSS_rnd fl ⟨0, 0, -EPSILON⟩ ⟨0, 1, 0⟩ = ⟨4722366482869645 / 2 ^ 72, 0, 0⟩ := by
    unfold VEC3_CROSS_rnd
    dsimp only
    simp only [fl_value_2 (0 * 0) (by norm_num), fl_value_3 ((-EPSILON) * 1) (by norm_num [EPSILON]),
      fl_value_4 (0 - (-(4722366482869645 / 2 ^ 72))) (by norm_num),
      fl_value_2 ((-EPSILON) * 0) (by norm_num [EPSILON]), fl_value_2 (0 - 0) (by norm_num),
      fl_value_2 (0 * 1) (by norm_num)]
  have h4 : VEC3_DOT_rnd fl ⟨1, 0, 0⟩ ⟨4722366482869645 / 2 ^ 72, 0, 0⟩
      = 4722366482869645 / 2 ^ 72 := by
    unfold VEC3_DOT_rnd
    dsimp only
    simp only [fl_value_4 (1 * (4722366482869645 / 2 ^ 72)) (by norm_num), fl_value_2 (0 * 0) (by norm_num),
      fl_value_4 ((4722366482869645 / 2 ^ 72) + 0) (by norm_num)]
  have h5 : VEC3_SUB_rnd fl ⟨1 / 2, 1 / 4, 2⟩ ⟨0, 0, 0⟩ = ⟨1 / 2, 1 / 4, 2⟩ := by
    unfold VEC3_SUB_rnd
    dsimp only
    simp only [fl_value_10 ((1 / 2) - 0) (by norm_num), fl_value_6 ((1 / 4) - 0) (by norm_num),
      fl_value_25 (2 - 0) (by norm_num)]
  have h6 : VEC3_DOT_rnd fl ⟨1 / 2, 1 / 4, 2⟩ ⟨4722366482869645 / 2 ^ 72, 0, 0⟩
      = 4722366482869645 / 2 ^ 73 := by
    unfold VEC3_DOT_rnd
    dsimp only
    simp only [fl_value_12 ((1 / 2) * (4722366482869645 / 2 ^ 72)) (by norm_num),
      fl_value_2 ((1 / 4) * 0) (by norm_num),
      fl_value_12 ((4722366482869645 / 2 ^ 73) + 0) (by norm_num), fl_value_2 (2 * 0) (by norm_num)]
  have h7 : VEC3_CROSS_rnd fl ⟨1 / 2, 1 / 4, 2⟩ ⟨1, 0, 0⟩ = ⟨0, 2, (-(1 / 4))⟩ := by
    unfold VEC3_CROSS_rnd
    dsimp only
    simp only [fl_value_2 ((1 / 4) * 0) (by norm_num), fl_value_2 (2 * 0) (by norm_num),
      fl_value_2 (0 - 0) (by norm_num), fl_value_25 (2 * 1) (by norm_num),
      fl_value_2 ((1 / 2) * 0) (by norm_num), fl_value_25 (2 - 0) (by norm_num),
      fl_value_6 ((1 / 4) * 1) (by norm_num), fl_value_9 (0 - (1 / 4)) (by norm_num)]
  have h8 : VEC3_DOT_rnd fl ⟨0, 0, -EPSILON⟩ ⟨0, 2, (-(1 / 4))⟩ = 4722366482869645 / 2 ^ 74 := by
    unfold VEC3_DOT_rnd
    dsimp only
    simp only [fl_value_2 (0 * 0) (by norm_num), fl_value_2 (0 * 2) (by norm_num),
      fl_value_2 (0 + 0) (by norm_num),
      fl_value_7 ((-EPSILON) * (-(1 / 4))) (by norm_num [EPSILON]),
      fl_value_7 (0 + (4722366482869645 / 2 ^ 74)) (by norm_num)]
  have h9 : VEC3_DOT_rnd fl ⟨0, 1, 0⟩ ⟨0, 2, (-(1 / 4))⟩ = 2 := by
    unfold VEC3_DOT_rnd
    dsimp only
    simp only [fl_value_2 (0 * 0) (by norm_num), fl_value_25 (1 * 2) (by norm_num),
      fl_value_25 (0 + 2) (by norm_num), fl_value_2 (0 * (-(1 / 4))) (by norm_num),
      fl_value_25 (2 + 0) (by norm_num)]
  unfold TriRayIntersect_rnd
  dsimp only
  simp only [h1, h2, h3, h4, h5, h6, h7, h8,
    fl_value_33 ((4722366482869645 / 2 ^ 73) + (4722366482869645 / 2 ^ 74)) (by norm_num), h9,
    fl_value_5 (1 / (4722366482869645 / 2 ^ 72)) (by norm_num),
    fl_value_34 (2 * 1000000) (by norm_num),
    fl_value_35 ((4722366482869645 / 2 ^ 73) * 1000000) (by norm_num),
    fl_value_8 ((4722366482869645 / 2 ^ 74) * 1000000) (by norm_num)]
  rw [if_pos (show (1 : ℤ) ≠ 0 by norm_num)]
  rw [if_neg (show ¬ ((4722366482869645 / 2 ^ 72 : ℚ) < EPSILON) by norm_num [EPSILON])]
  rw [if_neg (show ¬ ((4722366482869645 / 2 ^ 73 : ℚ) < 0 ∨ (4722366482869645 / 2 ^ 73 : ℚ) > (4722366482869645 / 2 ^ 72)) by norm_num)]
  rw [if_neg (show ¬ ((4722366482869645 / 2 ^ 74 : ℚ) < 0 ∨ (1770887431076117 / 2 ^ 71 : ℚ) > (4722366482869645 / 2 ^ 72)) by norm_num)]

/-! ## Runs of the area and the normals in binary64 -/

/-- A run in binary64: the area computed for `(0,0,0), (1,0,0), (0,1,0)` is `1/2`. -/
lemma area_rnd_unit_triangle :
    TriComputeArea_rnd fl (VEC3_LEN_rnd fl sqrtDouble)
        ⟨0, 0, 0⟩ ⟨1, 0, 0⟩ ⟨0, 1, 0⟩
      = 1 / 2 := by
  have h1 : VEC3_SUB_rnd fl ⟨1, 0, 0⟩ ⟨0, 0, 0⟩ = ⟨1, 0, 0⟩ := by
    unfold VEC3_SUB_rnd
    dsimp only
    simp only [fl_value_1 (1 - 0) (by norm_num), fl_value_2 (0 - 0) (by norm_num)]
  have h2 : VEC3_SUB_rnd fl ⟨0, 1, 0⟩ ⟨0, 0, 0⟩ = ⟨0, 1, 0⟩ := by
    unfold VEC3_SUB_rnd
    dsimp only
    simp only [fl_value_2 (0 - 0) (by norm_num), fl_value_1 (1 - 0) (by norm_num)]
  have h3 : VEC3_CROSS_rnd fl ⟨1, 0, 0⟩ ⟨0, 1, 0⟩ = ⟨0, 0, 1⟩ := by
    unfold VEC3_CROSS_rnd
    dsimp only
    simp only [fl_value_2 (0 * 0) (by norm_num), fl_value_2 (0 * 1) (by norm_num),
      fl_value_2 (0 - 0) (by norm_num), fl_value_2 (1 * 0) (by norm_num),
      fl_value_1 (1 * 1) (by norm_num), fl_value_1 (1 - 0) (by norm_num)]
  have h4 : VEC3_DOT_rnd fl ⟨0, 0, 1⟩ ⟨0, 0, 1⟩ = 1 := by
    unfold VEC3_DOT_rnd
    dsimp only
    simp only [fl_value_2 (0 * 0) (by norm_num), fl_value_2 (0 + 0) (by norm_num),
      fl_value_1 (1 * 1) (by norm_num), fl_value_1 (0 + 1) (by norm_num)]
  have h5 : VEC3_LEN_rnd fl sqrtDouble ⟨0, 0, 1⟩ = 1 := by
    unfold VEC3_LEN_rnd
    simp only [h4, sqrt_value_3 1 (by norm_num)]
  have h6 : TriComputeArea_rnd fl (VEC3_LEN_rnd fl sqrtDouble) ⟨0, 0, 0⟩ ⟨1, 0, 0⟩ ⟨0, 1, 0⟩
      = 1 / 2 := by
    unfold TriComputeArea_rnd
    dsimp only
    simp only [h1, h2, h3, h5, fl_value_10 (1 / 2 * 1) (by norm_num)]
  exact h6

/-- A run in binary64: the area computed for `(0, 0.3, 0), (0, 0.1, 2), (0, 0, 3)` is 0; the
two products of the first component of the cross product are rounded to the same number. -/
lemma area_rnd_vanishes :
    TriComputeArea_rnd fl (VEC3_LEN_rnd fl sqrtDouble)
        ⟨0, 5404319552844595 / 18014398509481984, 0⟩ ⟨0, 3602879701896397 / 36028797018963968, 2⟩ ⟨0, 0, 3⟩
      = 0 := by
  have h1 : VEC3_SUB_rnd fl ⟨0, 3602879701896397 / 36028797018963968, 2⟩ ⟨0, 5404319552844595 / 18014398509481984, 0⟩
      = ⟨0, (-(7205759403792793 / 36028797018963968)), 2⟩ := by
    unfold VEC3_SUB_rnd
    dsimp only
    simp only [fl_value_2 (0 - 0) (by norm_num),
      fl_value_36 ((3602879701896397 / 36028797018963968) - (5404319552844595 / 18014398509481984)) (by norm_num),
      fl_value_25 (2 - 0) (by norm_num)]
  have h2 : VEC3_SUB_rnd fl ⟨0, 0, 3⟩ ⟨0, 5404319552844595 / 18014398509481984, 0⟩
      = ⟨0, (-(5404319552844595 / 18014398509481984)), 3⟩ := by
    unfold VEC3_SUB_rnd
    dsimp only
    simp only [fl_value_2 (0 - 0) (by norm_num),
      fl_value_37 (0 - (5404319552844595 / 18014398509481984)) (by norm_num),
      fl_value_13 (3 - 0) (by norm_num)]
  have h3 : VEC3_CROSS_rnd fl ⟨0, (-(7205759403792793 / 36028797018963968)), 2⟩ ⟨0, (-(5404319552844595 / 18014398509481984)), 3⟩
      = ⟨0, 0, 0⟩ := by
    unfold VEC3_CROSS_rnd
    dsimp only
    simp only [fl_value_38 ((-(7205759403792793 / 36028797018963968)) * 3) (by norm_num),
      fl_value_39 (2 * (-(5404319552844595 / 18014398509481984))) (by norm_num),
      fl_value_2 ((-(5404319552844595 / 9007199254740992)) - (-(5404319552844595 / 9007199254740992))) (by norm_num),
      fl_value_2 (2 * 0) (by norm_num), fl_value_2 (0 * 3) (by norm_num),
      fl_value_2 (0 - 0) (by norm_num),
      fl_value_2 (0 * (-(5404319552844595 / 18014398509481984))) (by norm_num),
      fl_value_2 ((-(7205759403792793 / 36028797018963968)) * 0) (by norm_num)]
  have h4 : VEC3_DOT_rnd fl ⟨0, 0, 0⟩ ⟨0, 0, 0⟩ = 0 := by
    unfold VEC3_DOT_rnd
    dsimp only
    simp only [fl_value_2 (0 * 0) (by norm_num), fl_value_2 (0 + 0) (by norm_num)]
  have h5 : VEC3_LEN_rnd fl sqrtDouble ⟨0, 0, 0⟩ = 0 := by
    unfold VEC3_LEN_rnd
    simp only [h4, sqrt_value_1 0 (by norm_num)]
  have h6 : TriComputeArea_rnd fl (VEC3_LEN_rnd fl sqrtDouble) ⟨0, 5404319552844595 / 18014398509481984, 0⟩ ⟨0, 3602879701896397 / 36028797018963968, 2⟩ ⟨0, 0, 3⟩
      = 0 := by
    unfold TriComputeArea_rnd
    dsimp only
    simp only [h1, h2, h3, h5, fl_value_2 (1 / 2 * 0) (by norm_num)]
  exact h6

/-- A run in binary64: the area computed for `(0, 0.1, 2), (0, 0.3, 0), (0, 0, 3)`, the
vertices of `area_rnd_vanishes` with the first two exchanged, is `2⁻⁵⁶`. -/
lemma area_rnd_exchanged :
    TriComputeArea_rnd fl (VEC3_LEN_rnd fl sqrtDouble)
        ⟨0, 3602879701896397 / 36028797018963968, 2⟩ ⟨0, 5404319552844595 / 18014398509481984, 0⟩ ⟨0, 0, 3⟩
      = 1 / 72057594037927936 := by
  have h1 : VEC3_SUB_rnd fl ⟨0, 5404319552844595 / 18014398509481984, 0⟩ ⟨0, 3602879701896397 / 36028797018963968, 2⟩
      = ⟨0, 7205759403792793 / 36028797018963968, (-2)⟩ := by
    unfold VEC3_SUB_rnd
    dsimp only
    simp only [fl_value_2 (0 - 0) (by norm_num),
      fl_value_40 ((5404319552844595 / 18014398509481984) - (3602879701896397 / 36028797018963968)) (by norm_num),
      fl_value_41 (0 - 2) (by norm_num)]
  have h2 : VEC3_SUB_rnd fl ⟨0, 0, 3⟩ ⟨0, 3602879701896397 / 36028797018963968, 2⟩
      = ⟨0, (-(3602879701896397 / 36028797018963968)), 1⟩ := by
    unfold VEC3_SUB_rnd
    dsimp only
    simp only [fl_value_2 (0 - 0) (by norm_num),
      fl_value_42 (0 - (3602879701896397 / 36028797018963968)) (by norm_num),
      fl_value_1 (3 - 2) (by norm_num)]
  have h3 : VEC3_CROSS_rnd fl ⟨0, 7205759403792793 / 36028797018963968, (-2)⟩ ⟨0, (-(3602879701896397 / 36028797018963968)), 1⟩
      = ⟨(-(1 / 36028797018963968)), 0, 0⟩ := by
    unfold VEC3_CROSS_rnd
    dsimp only
    simp only [fl_value_40 ((7205759403792793 / 36028797018963968) * 1) (by norm_num),
      fl_value_43 ((-2) * (-(3602879701896397 / 36028797018963968))) (by norm_num),
      fl_value_44 ((7205759403792793 / 36028797018963968) - (3602879701896397 / 18014398509481984)) (by norm_num),
      fl_value_2 ((-2) * 0) (by norm_num), fl_value_2 (0 * 1) (by norm_num),
      fl_value_2 (0 - 0) (by norm_num),
      fl_value_2 (0 * (-(3602879701896397 / 36028797018963968))) (by norm_num),
      fl_value_2 ((7205759403792793 / 36028797018963968) * 0) (by norm_num)]
  have h4 : VEC3_DOT_rnd fl ⟨(-(1 / 36028797018963968)), 0, 0⟩ ⟨(-(1 / 36028797018963968)), 0, 0⟩
      = 1 / 2 ^ 110 := by
    unfold VEC3_DOT_rnd
    dsimp only
    simp only [fl_value_45 ((-(1 / 36028797018963968)) * (-(1 / 36028797018963968))) (by norm_num),
      fl_value_2 (0 * 0) (by norm_num), fl_value_45 ((1 / 2 ^ 110) + 0) (by norm_num)]
  have h5 : VEC3_LEN_rnd fl sqrtDouble ⟨(-(1 / 36028797018963968)), 0, 0⟩
      = 1 / 36028797018963968 := by
    unfold VEC3_LEN_rnd
    simp only [h4, sqrt_value_2 (1 / 2 ^ 110) (by norm_num)]
  have h6 : TriComputeArea_rnd fl (VEC3_LEN_rnd fl sqrtDouble) ⟨0, 3602879701896397 / 36028797018963968, 2⟩ ⟨0, 5404319552844595 / 18014398509481984, 0⟩ ⟨0, 0, 3⟩
      = 1 / 72057594037927936 := by
    unfold TriComputeArea_rnd
    dsimp only
    simp only [h1, h2, h3, h5, fl_value_46 (1 / 2 * (1 / 36028797018963968)) (by norm_num)]
  exact h6

/-- A run in binary64: the area computed for `(0,0,0), (2⁻⁶⁰⁰,0,0), (0,2⁻⁶⁰⁰,0)` is 0; the
product `2⁻⁶⁰⁰ * 2⁻⁶⁰⁰` is rounded to 0. -/
lemma area_rnd_underflow :
    TriComputeArea_rnd fl (VEC3_LEN_rnd fl sqrtDouble)
        ⟨0, 0, 0⟩ ⟨1 / 2 ^ 600, 0, 0⟩ ⟨0, 1 / 2 ^ 600, 0⟩
      = 0 := by
  have h1 : VEC3_SUB_rnd fl ⟨1 / 2 ^ 600, 0, 0⟩ ⟨0, 0, 0⟩ = ⟨1 / 2 ^ 600, 0, 0⟩ := by
    unfold VEC3_SUB_rnd
    dsimp only
    simp only [fl_value_47 ((1 / 2 ^ 600) - 0) (by norm_num), fl_value_2 (0 - 0) (by norm_num)]
  have h2 : VEC3_SUB_rnd fl ⟨0, 1 / 2 ^ 600, 0⟩ ⟨0, 0, 0⟩ = ⟨0, 1 / 2 ^ 600, 0⟩ := by
    unfold VEC3_SUB_rnd
    dsimp only
    simp only [fl_value_2 (0 - 0) (by norm_num), fl_value_47 ((1 / 2 ^ 600) - 0) (by norm_num)]
  have h3 : VEC3_CROSS_rnd fl ⟨1 / 2 ^ 600, 0, 0⟩ ⟨0, 1 / 2 ^ 600, 0⟩ = ⟨0, 0, 0⟩ := by
    unfold VEC3_CROSS_rnd
    dsimp only
    simp only [fl_value_2 (0 * 0) (by norm_num), fl_value_2 (0 * (1 / 2 ^ 600)) (by norm_num),
      fl_value_2 (0 - 0) (by norm_num), fl_value_2 ((1 / 2 ^ 600) * 0) (by norm_num),
      fl_value_48 ((1 / 2 ^ 600) * (1 / 2 ^ 600)) (by norm_num)]
  have h4 : VEC3_DOT_rnd fl ⟨0, 0, 0⟩ ⟨0, 0, 0⟩ = 0 := by
    unfold VEC3_DOT_rnd
    dsimp only
    simp only [fl_value_2 (0 * 0) (by norm_num), fl_value_2 (0 + 0) (by norm_num)]
  have h5 : VEC3_LEN_rnd fl sqrtDouble ⟨0, 0, 0⟩ = 0 := by
    unfold VEC3_LEN_rnd
    simp only [h4, sqrt_value_1 0 (by norm_num)]
  have h6 : TriComputeArea_rnd fl (VEC3_LEN_rnd fl sqrtDouble) ⟨0, 0, 0⟩ ⟨1 / 2 ^ 600, 0, 0⟩ ⟨0, 1 / 2 ^ 600, 0⟩
      = 0 := by
    unfold TriComputeArea_rnd
    dsimp only
    simp only [h1, h2, h3, h5, fl_value_2 (1 / 2 * 0) (by norm_num)]
  exact h6

/-- A run in binary64: the face normal written for `(0,0,0), (1,0,0), (0,1,0)` is `(0,0,1)`. -/
lemma face_normal_rnd_unit_triangle :
    TriComputeFaceNormal_rnd fl (VEC3_NORMALIZE_rnd fl sqrtDouble)
        ⟨0, 0, 0⟩ ⟨1, 0, 0⟩ ⟨0, 1, 0⟩
      = ⟨0, 0, 1⟩ := by
  have h1 : VEC3_SUB_rnd fl ⟨1, 0, 0⟩ ⟨0, 0, 0⟩ = ⟨1, 0, 0⟩ := by
    unfold VEC3_SUB_rnd
    dsimp only
    simp only [fl_value_1 (1 - 0) (by norm_num), fl_value_2 (0 - 0) (by norm_num)]
  have h2 : VEC3_SUB_rnd fl ⟨0, 1, 0⟩ ⟨0, 0, 0⟩ = ⟨0, 1, 0⟩ := by
    unfold VEC3_SUB_rnd
    dsimp only
    simp only [fl_value_2 (0 - 0) (by norm_num), fl_value_1 (1 - 0) (by norm_num)]
  have h3 : VEC3_CROSS_rnd fl ⟨1, 0, 0⟩ ⟨0, 1, 0⟩ = ⟨0, 0, 1⟩ := by
    unfold VEC3_CROSS_rnd
    dsimp only
    simp only [fl_value_2 (0 * 0) (by norm_num), fl_value_2 (0 * 1) (by norm_num),
      fl_value_2 (0 - 0) (by norm_num), fl_value_2 (1 * 0) (by norm_num),
      fl_value_1 (1 * 1) (by norm_num), fl_value_1 (1 - 0) (by norm_num)]
  have h4 : VEC3_DOT_rnd fl ⟨0, 0, 1⟩ ⟨0, 0, 1⟩ = 1 := by
    unfold VEC3_DOT_rnd
    dsimp only
    simp only [fl_value_2 (0 * 0) (by norm_num), fl_value_2 (0 + 0) (by norm_num),
      fl_value_1 (1 * 1) (by norm_num), fl_value_1 (0 + 1) (by norm_num)]
  have h5 : VEC3_LEN_rnd fl sqrtDouble ⟨0, 0, 1⟩ = 1 := by
    unfold VEC3_LEN_rnd
    simp only [h4, sqrt_value_3 1 (by norm_num)]
  have h6 : VEC3_NORMALIZE_rnd fl sqrtDouble ⟨0, 0, 1⟩ = ⟨0, 0, 1⟩ := by
    unfold VEC3_NORMALIZE_rnd
    dsimp only
    simp only [h5, fl_value_2 (0 / 1) (by norm_num), fl_value_1 (1 / 1) (by norm_num)]
    norm_num
  have h7 : TriComputeFaceNormal_rnd fl (VEC3_NORMALIZE_rnd fl sqrtDouble) ⟨0, 0, 0⟩ ⟨1, 0, 0⟩ ⟨0, 1, 0⟩
      = ⟨0, 0, 1⟩ := by
    unfold TriComputeFaceNormal_rnd
    dsimp only
    simp only [h1, h2, h3, h6]
  exact h7

/-- A run in binary64: the face normal written for `(0,0,0), (1,0,0), (0,1,1)` is
`(0, -a, a)` with `a = 1592262918131443 / 2⁵¹`, the cross product `(0,-1,1)` divided by
the binary64 number next to `√2`. -/
lemma face_normal_rnd_diagonal :
    TriComputeFaceNormal_rnd fl (VEC3_NORMALIZE_rnd fl sqrtDouble)
        ⟨0, 0, 0⟩ ⟨1, 0, 0⟩ ⟨0, 1, 1⟩
      = ⟨0, (-(1592262918131443 / 2251799813685248)), 1592262918131443 / 2251799813685248⟩ := by
  have h1 : VEC3_SUB_rnd fl ⟨1, 0, 0⟩ ⟨0, 0, 0⟩ = ⟨1, 0, 0⟩ := by
    unfold VEC3_SUB_rnd
    dsimp only
    simp only [fl_value_1 (1 - 0) (by norm_num), fl_value_2 (0 - 0) (by norm_num)]
  have h2 : VEC3_SUB_rnd fl ⟨0, 1, 1⟩ ⟨0, 0, 0⟩ = ⟨0, 1, 1⟩ := by
    unfold VEC3_SUB_rnd
    dsimp only
    simp only [fl_value_2 (0 - 0) (by norm_num), fl_value_1 (1 - 0) (by norm_num)]
  have h3 : VEC3_CROSS_rnd fl ⟨1, 0, 0⟩ ⟨0, 1, 1⟩ = ⟨0, (-1), 1⟩ := by
    unfold VEC3_CROSS_rnd
    dsimp only
    simp only [fl_value_2 (0 * 1) (by norm_num), fl_value_2 (0 - 0) (by norm_num),
      fl_value_2 (0 * 0) (by norm_num), fl_value_1 (1 * 1) (by norm_num),
      fl_value_32 (0 - 1) (by norm_num), fl_value_1 (1 - 0) (by norm_num)]
  have h4 : VEC3_DOT_rnd fl ⟨0, (-1), 1⟩ ⟨0, (-1), 1⟩ = 2 := by
    unfold VEC3_DOT_rnd
    dsimp only
    simp only [fl_value_2 (0 * 0) (by norm_num), fl_value_1 ((-1) * (-1)) (by norm_num),
      fl_value_1 (0 + 1) (by norm_num), fl_value_1 (1 * 1) (by norm_num),
      fl_value_25 (1 + 1) (by norm_num)]
  have h5 : VEC3_LEN_rnd fl sqrtDouble ⟨0, (-1), 1⟩ = 6369051672525773 / 4503599627370496 := by
    unfold VEC3_LEN_rnd
    simp only [h4, sqrt_value_4 2 (by norm_num)]
  have h6 : VEC3_NORMALIZE_rnd fl sqrtDouble ⟨0, (-1), 1⟩
      = ⟨0, (-(1592262918131443 / 2251799813685248)), 1592262918131443 / 2251799813685248⟩ := by
    unfold VEC3_NORMALIZE_rnd
    dsimp only
    simp only [h5, fl_value_2 (0 / (6369051672525773 / 4503599627370496)) (by norm_num),
      fl_value_49 ((-1) / (6369051672525773 / 4503599627370496)) (by norm_num),
      fl_value_50 (1 / (6369051672525773 / 4503599627370496)) (by norm_num)]
    norm_num
  have h7 : TriComputeFaceNormal_rnd fl (VEC3_NORMALIZE_rnd fl sqrtDouble) ⟨0, 0, 0⟩ ⟨1, 0, 0⟩ ⟨0, 1, 1⟩
      = ⟨0, (-(1592262918131443 / 2251799813685248)), 1592262918131443 / 2251799813685248⟩ := by
    unfold TriComputeFaceNormal_rnd
    dsimp only
    simp only [h1, h2, h3, h6]
  exact h7

/-- A run in binary64: the face normal written for `(0,0,0), (2⁻⁶⁰⁰,0,0), (0,2⁻⁶⁰⁰,0)` is
the zero vector; the product `2⁻⁶⁰⁰ * 2⁻⁶⁰⁰` is rounded to 0. -/
lemma face_normal_rnd_underflow :
    TriComputeFaceNormal_rnd fl (VEC3_NORMALIZE_rnd fl sqrtDouble)
        ⟨0, 0, 0⟩ ⟨1 / 2 ^ 600, 0, 0⟩ ⟨0, 1 / 2 ^ 600, 0⟩
      = ⟨0, 0, 0⟩ := by
  have h1 : VEC3_SUB_rnd fl ⟨1 / 2 ^ 600, 0, 0⟩ ⟨0, 0, 0⟩ = ⟨1 / 2 ^ 600, 0, 0⟩ := by
    unfold VEC3_SUB_rnd
    dsimp only
    simp only [fl_value_47 ((1 / 2 ^ 600) - 0) (by norm_num), fl_value_2 (0 - 0) (by norm_num)]
  have h2 : VEC3_SUB_rnd fl ⟨0, 1 / 2 ^ 600, 0⟩ ⟨0, 0, 0⟩ = ⟨0, 1 / 2 ^ 600, 0⟩ := by
    unfold VEC3_SUB_rnd
    dsimp only
    simp only [fl_value_2 (0 - 0) (by norm_num), fl_value_47 ((1 / 2 ^ 600) - 0) (by norm_num)]
  have h3 : VEC3_CROSS_rnd fl ⟨1 / 2 ^ 600, 0, 0⟩ ⟨0, 1 / 2 ^ 600, 0⟩ = ⟨0, 0, 0⟩ := by
    unfold VEC3_CROSS_rnd
    dsimp only
    simp only [fl_value_2 (0 * 0) (by norm_num), fl_value_2 (0 * (1 / 2 ^ 600)) (by norm_num),
      fl_value_2 (0 - 0) (by norm_num), fl_value_2 ((1 / 2 ^ 600) * 0) (by norm_num),
      fl_value_48 ((1 / 2 ^ 600) * (1 / 2 ^ 600)) (by norm_num)]
  have h4 : VEC3_DOT_rnd fl ⟨0, 0, 0⟩ ⟨0, 0, 0⟩ = 0 := by
    unfold VEC3_DOT_rnd
    dsimp only
    simp only [fl_value_2 (0 * 0) (by norm_num), fl_value_2 (0 + 0) (by norm_num)]
  have h5 : VEC3_LEN_rnd fl sqrtDouble ⟨0, 0, 0⟩ = 0 := by
    unfold VEC3_LEN_rnd
    simp only [h4, sqrt_value_1 0 (by norm_num)]
  have h6 : VEC3_NORMALIZE_rnd fl sqrtDouble ⟨0, 0, 0⟩ = ⟨0, 0, 0⟩ := by
    unfold VEC3_NORMALIZE_rnd
    dsimp only
    simp only [h5]
    norm_num
  have h7 : TriComputeFaceNormal_rnd fl (VEC3_NORMALIZE_rnd fl sqrtDouble) ⟨0, 0, 0⟩ ⟨1 / 2 ^ 600, 0, 0⟩ ⟨0, 1 / 2 ^ 600, 0⟩
      = ⟨0, 0, 0⟩ := by
    unfold TriComputeFaceNormal_rnd
    dsimp only
    simp only [h1, h2, h3, h6]
  exact h7

/-- A run in binary64: the blend of three normals equal to `(0.1, 0.2, 0.3)` at
`u = v = 0.3` has the third component `2702159776422297 / 2⁵³`. -/
lemma normal_rnd_equal_normals :
    TriComputeNormal_rnd fl
        ⟨3602879701896397 / 36028797018963968, 3602879701896397 / 18014398509481984, 5404319552844595 / 18014398509481984⟩ ⟨3602879701896397 / 36028797018963968, 3602879701896397 / 18014398509481984, 5404319552844595 / 18014398509481984⟩ ⟨3602879701896397 / 36028797018963968, 3602879701896397 / 18014398509481984, 5404319552844595 / 18014398509481984⟩ (5404319552844595 / 18014398509481984) (5404319552844595 / 18014398509481984)
      = ⟨3602879701896397 / 36028797018963968, 3602879701896397 / 18014398509481984, 2702159776422297 / 9007199254740992⟩ := by
  have h1 : TriComputeNormal_rnd fl ⟨3602879701896397 / 36028797018963968, 3602879701896397 / 18014398509481984, 5404319552844595 / 18014398509481984⟩ ⟨3602879701896397 / 36028797018963968, 3602879701896397 / 18014398509481984, 5404319552844595 / 18014398509481984⟩ ⟨3602879701896397 / 36028797018963968, 3602879701896397 / 18014398509481984, 5404319552844595 / 18014398509481984⟩ (5404319552844595 / 18014398509481984) (5404319552844595 / 18014398509481984)
      = ⟨3602879701896397 / 36028797018963968, 3602879701896397 / 18014398509481984, 2702159776422297 / 9007199254740992⟩ := by
    unfold TriComputeNormal_rnd
    dsimp only
    simp only [fl_value_51 (1 - (5404319552844595 / 18014398509481984)) (by norm_num),
      fl_value_52 ((3152519739159347 / 4503599627370496) - (5404319552844595 / 18014398509481984)) (by norm_num),
      fl_value_53 ((7205759403792793 / 18014398509481984) * (3602879701896397 / 36028797018963968)) (by norm_num),
      fl_value_54 ((5404319552844595 / 18014398509481984) * (3602879701896397 / 36028797018963968)) (by norm_num),
      fl_value_55 ((5764607523034235 / 144115188075855872) + (1080863910568919 / 36028797018963968)) (by norm_num),
      fl_value_56 ((1261007895663739 / 18014398509481984) + (1080863910568919 / 36028797018963968)) (by norm_num),
      fl_value_57 ((7205759403792793 / 18014398509481984) * (3602879701896397 / 18014398509481984)) (by norm_num),
      fl_value_58 ((5404319552844595 / 18014398509481984) * (3602879701896397 / 18014398509481984)) (by norm_num),
      fl_value_59 ((5764607523034235 / 72057594037927936) + (1080863910568919 / 18014398509481984)) (by norm_num),
      fl_value_43 ((1261007895663739 / 9007199254740992) + (1080863910568919 / 18014398509481984)) (by norm_num),
      fl_value_60 ((7205759403792793 / 18014398509481984) * (5404319552844595 / 18014398509481984)) (by norm_num),
      fl_value_61 ((5404319552844595 / 18014398509481984) * (5404319552844595 / 18014398509481984)) (by norm_num),
      fl_value_62 ((8646911284551351 / 72057594037927936) + (3242591731706757 / 36028797018963968)) (by norm_num),
      fl_value_63 ((236438980436951 / 1125899906842624) + (3242591731706757 / 36028797018963968)) (by norm_num)]
  exact h1

/-! ## Theorems on `TriRayIntersect` -/

lemma EPSILON_pos : (0 : K) < EPSILON := by
  unfold EPSILON; positivity

/-- The body of `TriRayIntersect` in terms of `triDet`, `triU`, `triV`, `triT`. -/
lemma TriRayIntersect_eq (vert0 vert1 vert2 orig dir : Vec3 K) (cull : Int) (t u v : K) :
    TriRayIntersect vert0 vert1 vert2 orig dir cull t u v =
      if cull ≠ 0 then
        if triDet vert0 vert1 vert2 dir < EPSILON then ⟨0, t, u, v⟩
        else if triU vert0 vert2 orig dir < 0
            ∨ triU vert0 vert2 orig dir > triDet vert0 vert1 vert2 dir then
          ⟨0, t, triU vert0 vert2 orig dir, v⟩
        else if triV vert0 vert1 orig dir < 0
            ∨ triU vert0 vert2 orig dir + triV vert0 vert1 orig dir
                > triDet vert0 vert1 vert2 dir then
          ⟨0, t, triU vert0 vert2 orig dir, triV vert0 vert1 orig dir⟩
        else
          ⟨1, triT vert0 vert1 vert2 orig * (1 / triDet vert0 vert1 vert2 dir),
            triU vert0 vert2 orig dir * (1 / triDet vert0 vert1 vert2 dir),
            triV vert0 vert1 orig dir * (1 / triDet vert0 vert1 vert2 dir)⟩
      else
        if triDet vert0 vert1 vert2 dir > -EPSILON ∧ triDet vert0 vert1 vert2 dir < EPSILON then
          ⟨0, t, u, v⟩
        else if triU vert0 vert2 orig dir * (1 / triDet vert0 vert1 vert2 dir) < 0
            ∨ triU vert0 vert2 orig dir * (1 / triDet vert0 vert1 vert2 dir) > 1 then
          ⟨0, t, triU vert0 vert2 orig dir * (1 / triDet vert0 vert1 vert2 dir), v⟩
        else if triV vert0 vert1 orig dir * (1 / triDet vert0 vert1 vert2 dir) < 0
            ∨ triU vert0 vert2 orig dir * (1 / triDet vert0 vert1 vert2 dir)
                + triV vert0 vert1 orig dir * (1 / triDet vert0 vert1 vert2 dir) > 1 then
          ⟨0, t, triU vert0 vert2 orig dir * (1 / triDet vert0 vert1 vert2 dir),
            triV vert0 vert1 orig dir * (1 / triDet vert0 vert1 vert2 dir)⟩
        else
          ⟨1, triT vert0 vert1 vert2 orig * (1 / triDet vert0 vert1 vert2 dir),
            triU vert0 vert2 orig dir * (1 / triDet vert0 vert1 vert2 dir),
            triV vert0 vert1 orig dir * (1 / triDet vert0 vert1 vert2 dir)⟩ := rfl

/-- What a hit writes: a call returning 1 has a nonzero `det` and writes the three
quotients by `det`, which satisfy the barycentric bounds. -/
lemma tri_hit_values (vert0 vert1 vert2 orig dir : Vec3 K) (cull : Int) (t u v : K)
    (h : (TriRayIntersect vert0 vert1 vert2 orig dir cull t u v).ret = 1) :
    triDet vert0 vert1 vert2 dir ≠ 0 ∧
    (TriRayIntersect vert0 vert1 vert2 orig dir cull t u v).t
      = triT vert0 vert1 vert2 orig / triDet vert0 vert1 vert2 dir ∧
    (TriRayIntersect vert0 vert1 vert2 orig dir cull t u v).u
      = triU vert0 vert2 orig dir / triDet vert0 vert1 vert2 dir ∧
    (TriRayIntersect vert0 vert1 vert2 orig dir cull t u v).v
      = triV vert0 vert1 orig dir / triDet vert0 vert1 vert2 dir ∧
    0 ≤ triU vert0 vert2 orig dir / triDet vert0 vert1 vert2 dir ∧
    0 ≤ triV vert0 vert1 orig dir / triDet vert0 vert1 vert2 dir ∧
    triU vert0 vert2 orig dir / triDet vert0 vert1 vert2 dir
      + triV vert0 vert1 orig dir / triDet vert0 vert1 vert2 dir ≤ 1 := by
  have he : (0 : K) < EPSILON := EPSILON_pos
  revert h
  rw [TriRayIntersect_eq]
  generalize triDet vert0 vert1 vert2 dir = D
  generalize triU vert0 vert2 orig dir = U
  generalize triV vert0 vert1 orig dir = V
  generalize triT vert0 vert1 vert2 orig = T
  intro h
  split_ifs at h ⊢ with hc h1 h2 h3 h1 h2 h3
  all_goals first | (exfalso; revert h; simp; done) | skip
  · push_neg at h1 h2 h3
    have hD : 0 < D := lt_of_lt_of_le he h1
    refine ⟨hD.ne', by simp [div_eq_mul_inv], by simp [div_eq_mul_inv],
      by simp [div_eq_mul_inv], div_nonneg h2.1 hD.le, div_nonneg h3.1 hD.le, ?_⟩
    rw [← add_div, div_le_one hD]
    exact h3.2
  · push_neg at h2 h3
    have hD : D ≠ 0 := by
      intro h0
      apply h1
      rw [h0]
      exact ⟨by linarith, he⟩
    simp only [one_div, ← div_eq_mul_inv] at h2 h3 ⊢
    exact ⟨hD, trivial, trivial, trivial, h2.1, h3.1, h3.2⟩

/-- Cramer's rule behind the Möller–Trumbore test: `det * (orig - vert0)` is
`-T * dir + U * edge1 + V * edge2`. -/
lemma tri_cramer (vert0 vert1 vert2 orig dir : Vec3 K) :
    triDet vert0 vert1 vert2 dir * (orig.x - vert0.x) + triT vert0 vert1 vert2 orig * dir.x
      = triU vert0 vert2 orig dir * (vert1.x - vert0.x)
        + triV vert0 vert1 orig dir * (vert2.x - vert0.x) ∧
    triDet vert0 vert1 vert2 dir * (orig.y - vert0.y) + triT vert0 vert1 vert2 orig * dir.y
      = triU vert0 vert2 orig dir * (vert1.y - vert0.y)
        + triV vert0 vert1 orig dir * (vert2.y - vert0.y) ∧
    triDet vert0 vert1 vert2 dir * (orig.z - vert0.z) + triT vert0 vert1 vert2 orig * dir.z
      = triU vert0 vert2 orig dir * (vert1.z - vert0.z)
        + triV vert0 vert1 orig dir * (vert2.z - vert0.z) := by
  simp only [triDet, triT, triU, triV, VEC3_DOT, VEC3_SUB, VEC3_CROSS]
  refine ⟨by ring, by ring, by ring⟩

/-- A hit is a point of the triangle: the barycentric bounds and the point equation for
the values a call returning 1 writes. -/
lemma tri_hit_barycentric (vert0 vert1 vert2 orig dir : Vec3 K) (cull_backfaces : Int)
    (t u v : K)
    (h : (TriRayIntersect vert0 vert1 vert2 orig dir cull_backfaces t u v).ret = 1) :
    0 ≤ (TriRayIntersect vert0 vert1 vert2 orig dir cull_backfaces t u v).u ∧
    0 ≤ (TriRayIntersect vert0 vert1 vert2 orig dir cull_backfaces t u v).v ∧
    (TriRayIntersect vert0 vert1 vert2 orig dir cull_backfaces t u v).u
      + (TriRayIntersect vert0 vert1 vert2 orig dir cull_backfaces t u v).v ≤ 1 ∧
    rayAt orig dir (TriRayIntersect vert0 vert1 vert2 orig dir cull_backfaces t u v).t
      = triPoint vert0 vert1 vert2
          (1 - (TriRayIntersect vert0 vert1 vert2 orig dir cull_backfaces t u v).u
             - (TriRayIntersect vert0 vert1 vert2 orig dir cull_backfaces t u v).v)
          (TriRayIntersect vert0 vert1 vert2 orig dir cull_backfaces t u v).u
          (TriRayIntersect vert0 vert1 vert2 orig dir cull_backfaces t u v).v := by
  obtain ⟨hD, ht, hu, hv, h0u, h0v, huv⟩ :=
    tri_hit_values vert0 vert1 vert2 orig dir cull_backfaces t u v h
  obtain ⟨cx, cy, cz⟩ := tri_cramer vert0 vert1 vert2 orig dir
  rw [ht, hu, hv]
  refine ⟨h0u, h0v, huv, ?_⟩
  simp only [rayAt, triPoint, Vec3.mk.injEq]
  refine ⟨?_, ?_, ?_⟩
  · field_simp
    linear_combination cx
  · field_simp
    linear_combination cy
  · field_simp
    linear_combination cz

/-- C4: whenever `TriRayIntersect` returns 1, in either culling mode, the written `u`, `v`
are non-negative with `u + v ≤ 1`, and the ray point at the written `t` is the point of
the triangle with weights `1 - u - v`, `u`, `v` on `vert0`, `vert1`, `vert2`. -/
theorem tri_hit_sound (vert0 vert1 vert2 orig dir : Vec3 K) (cull_backfaces : Int)
    (t u v : K)
    (h : (TriRayIntersect vert0 vert1 vert2 orig dir cull_backfaces t u v).ret = 1) :
    0 ≤ (TriRayIntersect vert0 vert1 vert2 orig dir cull_backfaces t u v).u ∧
    0 ≤ (TriRayIntersect vert0 vert1 vert2 orig dir cull_backfaces t u v).v ∧
    (TriRayIntersect vert0 vert1 vert2 orig dir cull_backfaces t u v).u
      + (TriRayIntersect vert0 vert1 vert2 orig dir cull_backfaces t u v).v ≤ 1 ∧
    rayAt orig dir (TriRayIntersect vert0 vert1 vert2 orig dir cull_backfaces t u v).t
      = triPoint vert0 vert1 vert2
          (1 - (TriRayIntersect vert0 vert1 vert2 orig dir cull_backfaces t u v).u
             - (TriRayIntersect vert0 vert1 vert2 orig dir cull_backfaces t u v).v)
          (TriRayIntersect vert0 vert1 vert2 orig dir cull_backfaces t u v).u
          (TriRayIntersect vert0 vert1 vert2 orig dir cull_backfaces t u v).v :=
  tri_hit_barycentric vert0 vert1 vert2 orig dir cull_backfaces t u v h

/-- C4, the spec's case: the triangle `(0,0,0), (1,0,0), (0,1,0)` and the ray from
`(1/4,1/4,1)` along `(0,0,-1)` give a hit with `t = 1`, `u = v = 1/4`. -/
theorem tri_hit_sound_witness :
    (TriRayIntersect (K := ℚ) ⟨0, 0, 0⟩ ⟨1, 0, 0⟩ ⟨0, 1, 0⟩ ⟨1/4, 1/4, 1⟩ ⟨0, 0, -1⟩ 0
        0 0 0).ret = 1 ∧
    (TriRayIntersect (K := ℚ) ⟨0, 0, 0⟩ ⟨1, 0, 0⟩ ⟨0, 1, 0⟩ ⟨1/4, 1/4, 1⟩ ⟨0, 0, -1⟩ 0
        0 0 0).t = 1 ∧
    (TriRayIntersect (K := ℚ) ⟨0, 0, 0⟩ ⟨1, 0, 0⟩ ⟨0, 1, 0⟩ ⟨1/4, 1/4, 1⟩ ⟨0, 0, -1⟩ 0
        0 0 0).u = 1/4 ∧
    (TriRayIntersect (K := ℚ) ⟨0, 0, 0⟩ ⟨1, 0, 0⟩ ⟨0, 1, 0⟩ ⟨1/4, 1/4, 1⟩ ⟨0, 0, -1⟩ 0
        0 0 0).v = 1/4 ∧
    rayAt (K := ℚ) ⟨1/4, 1/4, 1⟩ ⟨0, 0, -1⟩
        (TriRayIntersect (K := ℚ) ⟨0, 0, 0⟩ ⟨1, 0, 0⟩ ⟨0, 1, 0⟩ ⟨1/4, 1/4, 1⟩ ⟨0, 0, -1⟩ 0
          0 0 0).t
      = triPoint ⟨0, 0, 0⟩ ⟨1, 0, 0⟩ ⟨0, 1, 0⟩
          (1 - (TriRayIntersect (K := ℚ) ⟨0, 0, 0⟩ ⟨1, 0, 0⟩ ⟨0, 1, 0⟩ ⟨1/4, 1/4, 1⟩
                  ⟨0, 0, -1⟩ 0 0 0 0).u
             - (TriRayIntersect (K := ℚ) ⟨0, 0, 0⟩ ⟨1, 0, 0⟩ ⟨0, 1, 0⟩ ⟨1/4, 1/4, 1⟩
                  ⟨0, 0, -1⟩ 0 0 0 0).v)
          (TriRayIntersect (K := ℚ) ⟨0, 0, 0⟩ ⟨1, 0, 0⟩ ⟨0, 1, 0⟩ ⟨1/4, 1/4, 1⟩ ⟨0, 0, -1⟩ 0
            0 0 0).u
          (TriRayIntersect (K := ℚ) ⟨0, 0, 0⟩ ⟨1, 0, 0⟩ ⟨0, 1, 0⟩ ⟨1/4, 1/4, 1⟩ ⟨0, 0, -1⟩ 0
            0 0 0).v :=
  have h : (TriRayIntersect (K := ℚ) ⟨0, 0, 0⟩ ⟨1, 0, 0⟩ ⟨0, 1, 0⟩ ⟨1/4, 1/4, 1⟩
      ⟨0, 0, -1⟩ 0 0 0 0).ret = 1 := by
    norm_num [TriRayIntersect, VEC3_SUB, VEC3_CROSS, VEC3_DOT, EPSILON]
  ⟨h, by norm_num [TriRayIntersect, VEC3_SUB, VEC3_CROSS, VEC3_DOT, EPSILON],
    by norm_num [TriRayIntersect, VEC3_SUB, VEC3_CROSS, VEC3_DOT, EPSILON],
    by norm_num [TriRayIntersect, VEC3_SUB, VEC3_CROSS, VEC3_DOT, EPSILON],
    (tri_hit_sound (K := ℚ) ⟨0, 0, 0⟩ ⟨1, 0, 0⟩ ⟨0, 1, 0⟩ ⟨1/4, 1/4, 1⟩ ⟨0, 0, -1⟩ 0
      0 0 0 h).2.2.2⟩

/-- The function `TriRayIntersect` returns 0 or 1. -/
lemma tri_ret_zero_or_one (vert0 vert1 vert2 orig dir : Vec3 K) (cull : Int) (t u v : K) :
    (TriRayIntersect vert0 vert1 vert2 orig dir cull t u v).ret = 0 ∨
    (TriRayIntersect vert0 vert1 vert2 orig dir cull t u v).ret = 1 := by
  rw [TriRayIntersect_eq]
  split_ifs <;> simp

/-- A line point that lies in the plane of the triangle with weights `a`, `b`, `c`
(`a + b + c = 1`) has un-normalised coordinates `U = b * det` and `V = c * det`. -/
lemma tri_uv_of_meet (vert0 vert1 vert2 orig dir : Vec3 K) (s a b c : K)
    (habc : a + b + c = 1)
    (hp : rayAt orig dir s = triPoint vert0 vert1 vert2 a b c) :
    triU vert0 vert2 orig dir = b * triDet vert0 vert1 vert2 dir ∧
    triV vert0 vert1 orig dir = c * triDet vert0 vert1 vert2 dir := by
  simp only [rayAt, triPoint, Vec3.mk.injEq] at hp
  obtain ⟨hx, hy, hz⟩ := hp
  have ha : a = 1 - b - c := by linarith
  subst ha
  have ox : orig.x = (1 - b - c) * vert0.x + b * vert1.x + c * vert2.x - s * dir.x := by
    linarith
  have oy : orig.y = (1 - b - c) * vert0.y + b * vert1.y + c * vert2.y - s * dir.y := by
    linarith
  have oz : orig.z = (1 - b - c) * vert0.z + b * vert1.z + c * vert2.z - s * dir.z := by
    linarith
  simp only [triDet, triU, triV, VEC3_DOT, VEC3_SUB, VEC3_CROSS, ox, oy, oz]
  constructor <;> ring

/-- C5: when `|det| ≥ EPSILON`, the non-culling test (`cull_backfaces = 0`) returns 1
exactly when the line `orig + s * dir` meets the closed triangle, and 0 exactly when it
does not. -/
theorem tri_nonculling_complete (vert0 vert1 vert2 orig dir : Vec3 K) (t u v : K)
    (hdet : EPSILON ≤ |triDet vert0 vert1 vert2 dir|) :
    ((TriRayIntersect vert0 vert1 vert2 orig dir 0 t u v).ret = 1 ↔
      ∃ s a b c : K, 0 ≤ a ∧ 0 ≤ b ∧ 0 ≤ c ∧ a + b + c = 1 ∧
        rayAt orig dir s = triPoint vert0 vert1 vert2 a b c) ∧
    ((TriRayIntersect vert0 vert1 vert2 orig dir 0 t u v).ret = 0 ↔
      ¬ ∃ s a b c : K, 0 ≤ a ∧ 0 ≤ b ∧ 0 ≤ c ∧ a + b + c = 1 ∧
        rayAt orig dir s = triPoint vert0 vert1 vert2 a b c) := by
  have key : (TriRayIntersect vert0 vert1 vert2 orig dir 0 t u v).ret = 1 ↔
      ∃ s a b c : K, 0 ≤ a ∧ 0 ≤ b ∧ 0 ≤ c ∧ a + b + c = 1 ∧
        rayAt orig dir s = triPoint vert0 vert1 vert2 a b c := by
    constructor
    · intro h
      obtain ⟨_, _, _, hs⟩ := tri_hit_barycentric vert0 vert1 vert2 orig dir 0 t u v h
      obtain ⟨h0u, h0v, huv, _⟩ := tri_hit_barycentric vert0 vert1 vert2 orig dir 0 t u v h
      exact ⟨_, _, _, _, by linarith, h0u, h0v, by ring, hs⟩
    · rintro ⟨s, a, b, c, ha, hb, hc, habc, hp⟩
      obtain ⟨hU, hV⟩ := tri_uv_of_meet vert0 vert1 vert2 orig dir s a b c habc hp
      have hD : triDet vert0 vert1 vert2 dir ≠ 0 := by
        intro h0
        rw [h0, abs_zero] at hdet
        exact absurd hdet (not_le.mpr EPSILON_pos)
      have h1 : ¬ (triDet vert0 vert1 vert2 dir > -EPSILON
          ∧ triDet vert0 vert1 vert2 dir < EPSILON) := by
        rintro ⟨hlo, hhi⟩
        exact absurd hdet (not_le.mpr (abs_lt.mpr ⟨hlo, hhi⟩))
      have eU : triU vert0 vert2 orig dir * (1 / triDet vert0 vert1 vert2 dir) = b := by
        rw [hU]; field_simp
      have eV : triV vert0 vert1 orig dir * (1 / triDet vert0 vert1 vert2 dir) = c := by
        rw [hV]; field_simp
      rw [TriRayIntersect_eq]
      simp only [ne_eq, not_true_eq_false, if_false, h1, eU, eV]
      have h2 : ¬ (b < 0 ∨ b > 1) := by
        push_neg; exact ⟨hb, by linarith⟩
      have h3 : ¬ (c < 0 ∨ b + c > 1) := by
        push_neg; exact ⟨hc, by linarith⟩
      simp only [h2, h3, if_false]
  refine ⟨key, ?_⟩
  rw [← key]
  rcases tri_ret_zero_or_one vert0 vert1 vert2 orig dir 0 t u v with h | h <;> simp [h]

/-- C5, the spec's case: the ray from `(5,5,1)` along `(0,0,-1)` has `det = 1`, crosses
the plane of `(0,0,0), (1,0,0), (0,1,0)` outside the triangle, and the non-culling test
returns 0. -/
theorem tri_nonculling_complete_witness :
    EPSILON ≤ |triDet (K := ℚ) ⟨0, 0, 0⟩ ⟨1, 0, 0⟩ ⟨0, 1, 0⟩ ⟨0, 0, -1⟩| ∧
    (TriRayIntersect (K := ℚ) ⟨0, 0, 0⟩ ⟨1, 0, 0⟩ ⟨0, 1, 0⟩ ⟨5, 5, 1⟩ ⟨0, 0, -1⟩ 0
        0 0 0).ret = 0 ∧
    ¬ ∃ s a b c : ℚ, 0 ≤ a ∧ 0 ≤ b ∧ 0 ≤ c ∧ a + b + c = 1 ∧
        rayAt ⟨5, 5, 1⟩ ⟨0, 0, -1⟩ s = triPoint ⟨0, 0, 0⟩ ⟨1, 0, 0⟩ ⟨0, 1, 0⟩ a b c :=
  have hdet : EPSILON ≤ |triDet (K := ℚ) ⟨0, 0, 0⟩ ⟨1, 0, 0⟩ ⟨0, 1, 0⟩ ⟨0, 0, -1⟩| := by
    norm_num [triDet, VEC3_SUB, VEC3_CROSS, VEC3_DOT, EPSILON]
  have h0 : (TriRayIntersect (K := ℚ) ⟨0, 0, 0⟩ ⟨1, 0, 0⟩ ⟨0, 1, 0⟩ ⟨5, 5, 1⟩ ⟨0, 0, -1⟩ 0
      0 0 0).ret = 0 := by
    norm_num [TriRayIntersect, VEC3_SUB, VEC3_CROSS, VEC3_DOT, EPSILON]
  ⟨hdet, h0,
    (tri_nonculling_complete (K := ℚ) ⟨0, 0, 0⟩ ⟨1, 0, 0⟩ ⟨0, 1, 0⟩ ⟨5, 5, 1⟩ ⟨0, 0, -1⟩
      0 0 0 hdet).2.mp h0⟩

/-- C6, amended: under every rounding of the arithmetic, so in binary64, `TriRayIntersect`
returns 0 for every origin and either culling mode if the determinant it computes is
within `EPSILON` of zero, `EPSILON` being the `double` constant
`4722366482869645 / 2 ^ 72`; in exact arithmetic (a rounding that changes nothing) it
returns 0 whenever `dir` is orthogonal to the triangle's normal
`(vert1 - vert0) × (vert2 - vert0)` or that normal is zero (a triangle without area). -/
theorem tri_parallel_no_hit (rnd : K → K) (vert0 vert1 vert2 orig dir : Vec3 K)
    (cull_backfaces : Int) (t u v : K)
    (h : |triDet_rnd rnd vert0 vert1 vert2 dir| < EPSILON
      ∨ (∀ x, rnd x = x) ∧
        (VEC3_DOT dir (VEC3_CROSS (VEC3_SUB vert1 vert0) (VEC3_SUB vert2 vert0)) = 0
        ∨ (VEC3_CROSS (VEC3_SUB vert1 vert0) (VEC3_SUB vert2 vert0)).x = 0
          ∧ (VEC3_CROSS (VEC3_SUB vert1 vert0) (VEC3_SUB vert2 vert0)).y = 0
          ∧ (VEC3_CROSS (VEC3_SUB vert1 vert0) (VEC3_SUB vert2 vert0)).z = 0)) :
    (TriRayIntersect_rnd rnd vert0 vert1 vert2 orig dir cull_backfaces t u v).ret = 0 := by
  have hdet : |triDet_rnd rnd vert0 vert1 vert2 dir| < EPSILON := by
    rcases h with h | ⟨hid, h⟩
    · exact h
    obtain rfl : rnd = fun x => x := funext hid
    rw [triDet_rnd_id]
    have hn : triDet vert0 vert1 vert2 dir
        = -VEC3_DOT dir (VEC3_CROSS (VEC3_SUB vert1 vert0) (VEC3_SUB vert2 vert0)) := by
      simp only [triDet, VEC3_DOT, VEC3_SUB, VEC3_CROSS]; ring
    rcases h with h | ⟨hx, hy, hz⟩
    · rw [hn, h, neg_zero, abs_zero]; exact EPSILON_pos
    · rw [hn, VEC3_DOT, hx, hy, hz]; simp [EPSILON_pos]
  obtain ⟨hlo, hhi⟩ := abs_lt.mp hdet
  rw [TriRayIntersect_rnd_det rnd vert0 vert1 vert2 orig dir cull_backfaces t u v]
  by_cases hc : cull_backfaces ≠ 0
  · rw [if_pos hc]; exact hhi
  · rw [if_neg hc]; exact ⟨hlo, hhi⟩

/-- C6, the spec's case, in binary64 and in exact arithmetic: direction `(1,0,0)` lies in
the plane of `(0,0,0), (1,0,0), (0,1,0)`; the determinant computed is 0, and from the
origin `(-1,1/4,0)`, where the line runs through the triangle inside its plane, both
modes return 0. -/
theorem tri_parallel_no_hit_witness :
    |triDet_rnd fl ⟨0, 0, 0⟩ ⟨1, 0, 0⟩ ⟨0, 1, 0⟩ ⟨1, 0, 0⟩| < EPSILON ∧
    (TriRayIntersect_rnd fl ⟨0, 0, 0⟩ ⟨1, 0, 0⟩ ⟨0, 1, 0⟩ ⟨-1, 1/4, 0⟩ ⟨1, 0, 0⟩ 0
        0 0 0).ret = 0 ∧
    (TriRayIntersect_rnd fl ⟨0, 0, 0⟩ ⟨1, 0, 0⟩ ⟨0, 1, 0⟩ ⟨-1, 1/4, 0⟩ ⟨1, 0, 0⟩ 1
        0 0 0).ret = 0 ∧
    VEC3_DOT (K := ℚ) ⟨1, 0, 0⟩ (VEC3_CROSS (VEC3_SUB ⟨1, 0, 0⟩ ⟨0, 0, 0⟩)
      (VEC3_SUB ⟨0, 1, 0⟩ ⟨0, 0, 0⟩)) = 0 ∧
    (TriRayIntersect_rnd (K := ℚ) (fun x => x) ⟨0, 0, 0⟩ ⟨1, 0, 0⟩ ⟨0, 1, 0⟩ ⟨-1, 1/4, 0⟩
        ⟨1, 0, 0⟩ 0 0 0 0).ret = 0 :=
  have hdet : |triDet_rnd fl ⟨0, 0, 0⟩ ⟨1, 0, 0⟩ ⟨0, 1, 0⟩ ⟨1, 0, 0⟩| < EPSILON := by
    rw [det_rnd_in_plane, abs_zero]
    exact EPSILON_pos
  have hpar : VEC3_DOT (K := ℚ) ⟨1, 0, 0⟩ (VEC3_CROSS (VEC3_SUB ⟨1, 0, 0⟩ ⟨0, 0, 0⟩)
      (VEC3_SUB ⟨0, 1, 0⟩ ⟨0, 0, 0⟩)) = 0 := by
    norm_num [VEC3_DOT, VEC3_CROSS, VEC3_SUB]
  ⟨hdet,
    tri_parallel_no_hit fl ⟨0, 0, 0⟩ ⟨1, 0, 0⟩ ⟨0, 1, 0⟩ ⟨-1, 1/4, 0⟩ ⟨1, 0, 0⟩ 0
      0 0 0 (Or.inl hdet),
    tri_parallel_no_hit fl ⟨0, 0, 0⟩ ⟨1, 0, 0⟩ ⟨0, 1, 0⟩ ⟨-1, 1/4, 0⟩ ⟨1, 0, 0⟩ 1
      0 0 0 (Or.inl hdet),
    hpar,
    tri_parallel_no_hit (K := ℚ) (fun x => x) ⟨0, 0, 0⟩ ⟨1, 0, 0⟩ ⟨0, 1, 0⟩ ⟨-1, 1/4, 0⟩
      ⟨1, 0, 0⟩ 0 0 0 0 (Or.inr ⟨fun _ => rfl, Or.inl hpar⟩)⟩

/-- C6 as stated fails on the code, in binary64 arithmetic. First, the threshold is not
`10⁻⁶`: for the triangle `(0,0,0), (1,0,0), (0,1,0)` and the direction
`(0, 0, -EPSILON)` the determinant, exact and computed, is `EPSILON`, within `10⁻⁶` of
zero, and from the origin `(1/4, 1/4, 1)` both modes return 1, with `t = 1000000` and
`u = v = 1/4`. Second, a triangle without area is hit: the vertices
`(0,0,0), (3,5,0), (6,10,0)` lie on one line, so the exact cross product of the edges is
zero, yet for the direction `(0, 0, 2⁵³ - 1)` the determinant computed is 32 and from
the origin `(0,0,0)` both modes return 1. Third, a ray in the plane of a triangle hits it:
the direction `(3, 2⁵² + 3, 2⁵² + 1)` is orthogonal to the normal of
`(0,0,0), (0,1,1), (3,2,0)`, yet the determinant computed is 2 and from the origin
`(0,0,0)` both modes return 1. -/
theorem tri_parallel_no_hit_refuted :
    (|triDet (K := ℚ) ⟨0, 0, 0⟩ ⟨1, 0, 0⟩ ⟨0, 1, 0⟩ ⟨0, 0, -EPSILON⟩| < 1 / 1000000 ∧
      |triDet_rnd fl ⟨0, 0, 0⟩ ⟨1, 0, 0⟩ ⟨0, 1, 0⟩ ⟨0, 0, -EPSILON⟩| < 1 / 1000000 ∧
      TriRayIntersect_rnd fl ⟨0, 0, 0⟩ ⟨1, 0, 0⟩ ⟨0, 1, 0⟩ ⟨1 / 4, 1 / 4, 1⟩
        ⟨0, 0, -EPSILON⟩ 0 0 0 0 = ⟨1, 1000000, 1 / 4, 1 / 4⟩ ∧
      TriRayIntersect_rnd fl ⟨0, 0, 0⟩ ⟨1, 0, 0⟩ ⟨0, 1, 0⟩ ⟨1 / 4, 1 / 4, 1⟩
        ⟨0, 0, -EPSILON⟩ 1 0 0 0 = ⟨1, 1000000, 1 / 4, 1 / 4⟩) ∧
    (VEC3_CROSS (K := ℚ) (VEC3_SUB ⟨3, 5, 0⟩ ⟨0, 0, 0⟩) (VEC3_SUB ⟨6, 10, 0⟩ ⟨0, 0, 0⟩)
        = ⟨0, 0, 0⟩ ∧
      triDet_rnd fl ⟨0, 0, 0⟩ ⟨3, 5, 0⟩ ⟨6, 10, 0⟩ ⟨0, 0, 9007199254740991⟩ = 32 ∧
      (TriRayIntersect_rnd fl ⟨0, 0, 0⟩ ⟨3, 5, 0⟩ ⟨6, 10, 0⟩ ⟨0, 0, 0⟩
        ⟨0, 0, 9007199254740991⟩ 0 0 0 0).ret = 1 ∧
      (TriRayIntersect_rnd fl ⟨0, 0, 0⟩ ⟨3, 5, 0⟩ ⟨6, 10, 0⟩ ⟨0, 0, 0⟩
        ⟨0, 0, 9007199254740991⟩ 1 0 0 0).ret = 1) ∧
    (VEC3_DOT (K := ℚ) ⟨3, 4503599627370499, 4503599627370497⟩
        (VEC3_CROSS (VEC3_SUB ⟨0, 1, 1⟩ ⟨0, 0, 0⟩) (VEC3_SUB ⟨3, 2, 0⟩ ⟨0, 0, 0⟩)) = 0 ∧
      ¬ OnOneLine (K := ℚ) ⟨0, 0, 0⟩ ⟨0, 1, 1⟩ ⟨3, 2, 0⟩ ∧
      triDet_rnd fl ⟨0, 0, 0⟩ ⟨0, 1, 1⟩ ⟨3, 2, 0⟩
        ⟨3, 4503599627370499, 4503599627370497⟩ = 2 ∧
      (TriRayIntersect_rnd fl ⟨0, 0, 0⟩ ⟨0, 1, 1⟩ ⟨3, 2, 0⟩ ⟨0, 0, 0⟩
        ⟨3, 4503599627370499, 4503599627370497⟩ 0 0 0 0).ret = 1 ∧
      (TriRayIntersect_rnd fl ⟨0, 0, 0⟩ ⟨0, 1, 1⟩ ⟨3, 2, 0⟩ ⟨0, 0, 0⟩
        ⟨3, 4503599627370499, 4503599627370497⟩ 1 0 0 0).ret = 1) := by
  refine ⟨⟨?_, ?_, hit_rnd_at_epsilon, hit_rnd_at_epsilon_culling⟩,
    ⟨?_, det_rnd_on_a_line, by rw [hit_rnd_on_a_line], by rw [hit_rnd_on_a_line_culling]⟩,
    ?_, ?_, det_rnd_in_tilted_plane, by rw [hit_rnd_in_tilted_plane],
    by rw [hit_rnd_in_tilted_plane_culling]⟩
  · rw [abs_lt]
    constructor <;> norm_num [triDet, VEC3_SUB, VEC3_CROSS, VEC3_DOT, EPSILON]
  · rw [det_rnd_at_epsilon, abs_lt]
    constructor <;> norm_num
  · norm_num [VEC3_SUB, VEC3_CROSS]
  · norm_num [VEC3_DOT, VEC3_SUB, VEC3_CROSS]
  · rw [← cross_eq_zero_iff_onOneLine]
    norm_num [VEC3_CROSS, VEC3_SUB]

/-- C7, amended: under every rounding of the arithmetic, so in binary64 and in exact
arithmetic, with `cull_backfaces ≠ 0` a ray whose computed determinant is below `EPSILON`
(from the back side, or nearly parallel) gets the answer 0, `EPSILON` being the `double`
constant `4722366482869645 / 2 ^ 72`. -/
theorem tri_backface_culled (rnd : K → K) (vert0 vert1 vert2 orig dir : Vec3 K)
    (cull_backfaces : Int) (t u v : K) (hc : cull_backfaces ≠ 0)
    (hdet : triDet_rnd rnd vert0 vert1 vert2 dir < EPSILON) :
    (TriRayIntersect_rnd rnd vert0 vert1 vert2 orig dir cull_backfaces t u v).ret = 0 := by
  rw [TriRayIntersect_rnd_det rnd vert0 vert1 vert2 orig dir cull_backfaces t u v]
  rw [if_pos hc]; exact hdet

/-- C7, the spec's case, in binary64: the triangle `(0,0,0), (1,0,0), (0,1,0)` seen from
`-z`, origin `(1/4,1/4,-1)`, direction `(0,0,1)`: the determinant computed is `-1`,
culling returns 0, and the same call without culling returns 1 with `t = 1`,
`u = v = 1/4`. -/
theorem tri_backface_culled_witness :
    triDet_rnd fl ⟨0, 0, 0⟩ ⟨1, 0, 0⟩ ⟨0, 1, 0⟩ ⟨0, 0, 1⟩ < EPSILON ∧
    (TriRayIntersect_rnd fl ⟨0, 0, 0⟩ ⟨1, 0, 0⟩ ⟨0, 1, 0⟩ ⟨1 / 4, 1 / 4, -1⟩ ⟨0, 0, 1⟩ 1
        0 0 0).ret = 0 ∧
    TriRayIntersect_rnd fl ⟨0, 0, 0⟩ ⟨1, 0, 0⟩ ⟨0, 1, 0⟩ ⟨1 / 4, 1 / 4, -1⟩ ⟨0, 0, 1⟩ 0
        0 0 0 = ⟨1, 1, 1 / 4, 1 / 4⟩ :=
  have hdet : triDet_rnd fl ⟨0, 0, 0⟩ ⟨1, 0, 0⟩ ⟨0, 1, 0⟩ ⟨0, 0, 1⟩ < EPSILON := by
    rw [det_rnd_from_behind]
    norm_num [EPSILON]
  ⟨hdet,
    tri_backface_culled fl ⟨0, 0, 0⟩ ⟨1, 0, 0⟩ ⟨0, 1, 0⟩ ⟨1 / 4, 1 / 4, -1⟩ ⟨0, 0, 1⟩ 1
      0 0 0 (by decide) hdet,
    hit_rnd_from_behind⟩

/-- C7 as stated fails on the code, in binary64 arithmetic: the threshold is not `10⁻⁶`.
For the triangle `(0,0,0), (1,0,0), (0,1,0)` and the direction `(0, 0, -EPSILON)` the
determinant, exact and computed, is `EPSILON`, less than `10⁻⁶`, and from the origin
`(1/2, 1/4, 2)` the call with culling returns 1, with `t = 2000000`, `u = 1/2` and
`v = 1/4`. -/
theorem tri_backface_culled_refuted :
    triDet (K := ℚ) ⟨0, 0, 0⟩ ⟨1, 0, 0⟩ ⟨0, 1, 0⟩ ⟨0, 0, -EPSILON⟩ < 1 / 1000000 ∧
    triDet_rnd fl ⟨0, 0, 0⟩ ⟨1, 0, 0⟩ ⟨0, 1, 0⟩ ⟨0, 0, -EPSILON⟩ < 1 / 1000000 ∧
    TriRayIntersect_rnd fl ⟨0, 0, 0⟩ ⟨1, 0, 0⟩ ⟨0, 1, 0⟩ ⟨1 / 2, 1 / 4, 2⟩ ⟨0, 0, -EPSILON⟩ 1
      0 0 0 = ⟨1, 2000000, 1 / 2, 1 / 4⟩ := by
  refine ⟨?_, ?_, hit_rnd_at_epsilon_from_afar⟩
  · norm_num [triDet, VEC3_SUB, VEC3_CROSS, VEC3_DOT, EPSILON]
  · rw [det_rnd_at_epsilon]
    norm_num

/-! ## Theorems on `ObjectInstance.c` -/

/-- The macro `MAX` is the maximum of the order. -/
lemma MAX_eq_max (a b : K) : MAX a b = max a b := by
  unfold MAX
  split_ifs with h
  · exact (max_eq_right h.le).symm
  · exact (max_eq_left (not_lt.mp h)).symm

lemma foldr_max_max (l : List K) (a b : K) :
    l.foldr max (max a b) = max b (l.foldr max a) := by
  induction l with
  | nil => simp [max_comm]
  | cons c l ih => simp only [List.foldr_cons, ih, max_left_comm]

/-- The max-scale loop, run from any start `S` over any list of indices, leaves on each
axis the maximum of the start and of the listed samples. -/
lemma maxLoop_fold (g : Nat → Vec3 K) (l : List Nat) (S : Vec3 K) :
    l.foldl (fun S i => (⟨MAX S.x (g i).x, MAX S.y (g i).y, MAX S.z (g i).z⟩ : Vec3 K)) S
      = ⟨((l.map g).map Vec3.x).foldr max S.x, ((l.map g).map Vec3.y).foldr max S.y,
          ((l.map g).map Vec3.z).foldr max S.z⟩ := by
  induction l generalizing S with
  | nil => rfl
  | cons i l ih =>
    rw [List.foldl_cons, ih]
    simp only [List.map_cons, List.foldr_cons, MAX_eq_max, foldr_max_max]

/-- The loop of `merge_sampled_bounds` computes the maximum per axis of §4.4, step 2, on
every scale sequence holding a sample. -/
lemma maxScaleLoop_eq_spec (scale : PropertySampleList K) (h : 0 < scale.sample_count) :
    maxScaleLoop scale = specMaxScale scale := by
  obtain ⟨n, hn⟩ : ∃ n, scale.sample_count = n + 1 := ⟨scale.sample_count - 1, by omega⟩
  have hr : List.range (n + 1) = 0 :: List.range' 1 n := by
    rw [List.range_eq_range', List.range'_succ]
  unfold maxScaleLoop specMaxScale sampleVectors
  rw [hn, hr, Nat.add_sub_cancel]
  exact maxLoop_fold (fun i => (scale.samples i).vector) (List.range' 1 n)
    (scale.samples 0).vector

/-- The function `merge_sampled_bounds` computes steps 1 to 4 of §4.4 from the bounds it
finds. -/
lemma merge_bounds_eq_spec (E : Env K) (o : ObjectInstance K)
    (h : 0 < o.transform_samples.scale.sample_count) :
    (merge_sampled_bounds E o).bounds = computeBounds E o.bounds o.transform_samples := by
  simp only [merge_sampled_bounds, ObjGetBounds, computeBounds, List.foldl_map,
    maxScaleLoop_eq_spec _ h, specExpand, emptyBox, gt_iff_lt]

/-- What `update_object_bounds` does: it aborts exactly when both references are set, and
otherwise writes the field `bounds` only, from the local bounds and the sample list. -/
lemma update_object_bounds_eq (E : Env K) (obj : ObjectInstance K) :
    update_object_bounds E obj =
      if obj.acc ≠ none ∧ obj.volume ≠ none then none
      else some { obj with bounds :=
        (merge_sampled_bounds E { obj with bounds := localBounds E obj }).bounds } := by
  unfold update_object_bounds ObjIsSurface ObjIsVolume localBounds
  by_cases ha : obj.acc = none <;> by_cases hv : obj.volume = none <;>
    simp [ha, hv, merge_sampled_bounds, emptyBox]

/-- What `ObjSetVolume` does: -1 and no change when a reference is already set; an abort
on the closing assertion for a null volume; else 0, the volume set and the bounds
recomputed. -/
lemma ObjSetVolume_eq (E : Env K) (obj : ObjectInstance K) (volume : Ptr) :
    ObjSetVolume E obj volume =
      if obj.acc ≠ none ∨ obj.volume ≠ none then some (-1, obj)
      else if volume = none then none
      else some (0, merge_sampled_bounds E
        { obj with volume := volume, bounds := localBounds E { obj with volume := volume } })
    := by
  unfold ObjSetVolume
  rw [update_object_bounds_eq]
  by_cases ha : obj.acc = none <;> by_cases hv : obj.volume = none <;>
    cases volume <;> simp [ha, hv]
  rfl

/-- One call keeps the two facts that hold of every created instance: the two references
are not both set, and the cached bounds are the ones `merge_sampled_bounds` computes from
the local bounds and the current samples. -/
lemma exec_inv (E : Env K) (s s' : ObjectInstance K) (c : Call K)
    (hex : c.exec E s = some s')
    (hx : ¬ (s.acc ≠ none ∧ s.volume ≠ none))
    (hJ : s.bounds = (merge_sampled_bounds E { s with bounds := localBounds E s }).bounds) :
    ¬ (s'.acc ≠ none ∧ s'.volume ≠ none) ∧
    s'.bounds = (merge_sampled_bounds E { s' with bounds := localBounds E s' }).bounds := by
  cases c with
  | SetVolume volume =>
    simp only [Call.exec, ObjSetVolume_eq] at hex
    by_cases h1 : s.acc ≠ none ∨ s.volume ≠ none
    · rw [if_pos h1] at hex
      simp only [Option.map_some', Option.some.injEq] at hex
      subst hex; exact ⟨hx, hJ⟩
    · rw [if_neg h1] at hex
      have ha' : s.acc = none := by
        by_contra hne; exact h1 (Or.inl hne)
      by_cases h2 : volume = none
      · rw [if_pos h2] at hex; simp at hex
      · rw [if_neg h2] at hex
        simp only [Option.map_some', Option.some.injEq] at hex
        subst hex
        exact ⟨by simp [merge_sampled_bounds, ha'], rfl⟩
  | SetTranslate tx ty tz time =>
    simp only [Call.exec, ObjSetTranslate, update_object_bounds_eq, hx, if_false,
      Option.some.injEq] at hex
    subst hex; exact ⟨hx, rfl⟩
  | SetRotate rx ry rz time =>
    simp only [Call.exec, ObjSetRotate, update_object_bounds_eq, hx, if_false,
      Option.some.injEq] at hex
    subst hex; exact ⟨hx, rfl⟩
  | SetScale sx sy sz time =>
    simp only [Call.exec, ObjSetScale, update_object_bounds_eq, hx, if_false,
      Option.some.injEq] at hex
    subst hex; exact ⟨hx, rfl⟩
  | SetTransformOrder order =>
    simp only [Call.exec, ObjSetTransformOrder, update_object_bounds_eq, hx, if_false,
      Option.some.injEq] at hex
    subst hex; exact ⟨hx, rfl⟩
  | SetRotateOrder order =>
    simp only [Call.exec, ObjSetRotateOrder, update_object_bounds_eq, hx, if_false,
      Option.some.injEq] at hex
    subst hex; exact ⟨hx, rfl⟩
  | SetShader shader =>
    simp only [Call.exec, ObjSetShader, Option.some.injEq] at hex
    subst hex; exact ⟨hx, hJ⟩
  | SetLightList lights count =>
    simp only [Call.exec, ObjSetLightList, Option.some.injEq] at hex
    subst hex; exact ⟨hx, hJ⟩
  | SetReflectTarget grp =>
    simp only [Call.exec, ObjSetReflectTarget] at hex
    split_ifs at hex
    simp only [Option.some.injEq] at hex
    subst hex; exact ⟨hx, hJ⟩
  | SetRefractTarget grp =>
    simp only [Call.exec, ObjSetRefractTarget] at hex
    split_ifs at hex
    simp only [Option.some.injEq] at hex
    subst hex; exact ⟨hx, hJ⟩

/-- The two facts of `exec_inv` hold after any sequence of calls that does not abort. -/
lemma runCalls_inv (E : Env K) (calls : List (Call K)) (s s' : ObjectInstance K)
    (hrun : runCalls E s calls = some s')
    (hx : ¬ (s.acc ≠ none ∧ s.volume ≠ none))
    (hJ : s.bounds = (merge_sampled_bounds E { s with bounds := localBounds E s }).bounds) :
    ¬ (s'.acc ≠ none ∧ s'.volume ≠ none) ∧
    s'.bounds = (merge_sampled_bounds E { s' with bounds := localBounds E s' }).bounds := by
  induction calls generalizing s with
  | nil =>
    simp only [runCalls, Option.some.injEq] at hrun
    subst hrun; exact ⟨hx, hJ⟩
  | cons c cs ih =>
    simp only [runCalls] at hrun
    cases hc : c.exec E s with
    | none => simp [hc] at hrun
    | some s1 =>
      simp only [hc] at hrun
      obtain ⟨hx1, hJ1⟩ := exec_inv E s s1 c hc hx hJ
      exact ih s1 hrun hx1 hJ1

/-- The function `ObjNew` never aborts, and the instance it creates has no volume and the bounds
`merge_sampled_bounds` computes. -/
lemma ObjNew_spec (E : Env K) (mem : ObjectInstance K) (acc : Ptr) :
    ∃ s, ObjNew E mem acc = some s ∧ s.acc = acc ∧ s.volume = none ∧
      s.bounds = (merge_sampled_bounds E { s with bounds := localBounds E s }).bounds := by
  simp only [ObjNew, update_object_bounds_eq, ne_eq, not_true_eq_false, and_false, if_false]
  exact ⟨_, rfl, rfl, rfl, rfl⟩

/-- The two facts of `exec_inv` hold of every instance `ObjNew` creates, after any
sequence of calls. -/
lemma created_inv (E : Env K) (mem : ObjectInstance K) (acc : Ptr) (calls : List (Call K))
    (s : ObjectInstance K) (h : created E mem acc calls = some s) :
    ¬ (s.acc ≠ none ∧ s.volume ≠ none) ∧
    s.bounds = (merge_sampled_bounds E { s with bounds := localBounds E s }).bounds := by
  obtain ⟨s0, h0, _, hv, hJ⟩ := ObjNew_spec E mem acc
  simp only [created, h0] at h
  exact runCalls_inv E calls s0 s h (by simp [hv]) hJ

/-- C1: an instance created by `ObjNew(acc)`, after any sequence of setter calls, never has
both the accelerator and the volume reference set; so the assertions of `ObjIsSurface`
and `ObjIsVolume` hold on it, the two never both return 1, and a further call aborts
only on one of the other assertions (a null volume or a null target group). -/
theorem surface_volume_exclusive (E : Env K) (mem : ObjectInstance K) (acc : Ptr)
    (calls : List (Call K)) (s : ObjectInstance K)
    (h : created E mem acc calls = some s) :
    ¬ (s.acc ≠ none ∧ s.volume ≠ none) ∧
    ObjIsSurface s ≠ none ∧ ObjIsVolume s ≠ none ∧
    ¬ (ObjIsSurface s = some 1 ∧ ObjIsVolume s = some 1) ∧
    ∀ c : Call K, c.exec E s = none →
      c = .SetVolume none ∨ c = .SetReflectTarget none ∨ c = .SetRefractTarget none := by
  obtain ⟨hx, -⟩ := created_inv E mem acc calls s h
  refine ⟨hx, ?_, ?_, ?_, ?_⟩
  · unfold ObjIsSurface
    by_cases ha : s.acc = none <;> by_cases hv : s.volume = none <;> simp_all
  · unfold ObjIsVolume
    by_cases ha : s.acc = none <;> by_cases hv : s.volume = none <;> simp_all
  · unfold ObjIsSurface ObjIsVolume
    by_cases ha : s.acc = none <;> by_cases hv : s.volume = none <;> simp_all
  · intro c hc
    cases c with
    | SetVolume volume =>
      left
      simp only [Call.exec, ObjSetVolume_eq] at hc
      by_cases h1 : s.acc ≠ none ∨ s.volume ≠ none
      · rw [if_pos h1] at hc; simp at hc
      · rw [if_neg h1] at hc
        by_cases h2 : volume = none
        · rw [h2]
        · rw [if_neg h2] at hc; simp at hc
    | SetTranslate tx ty tz time =>
      simp [Call.exec, ObjSetTranslate, update_object_bounds_eq, hx] at hc
    | SetRotate rx ry rz time =>
      simp [Call.exec, ObjSetRotate, update_object_bounds_eq, hx] at hc
    | SetScale sx sy sz time =>
      simp [Call.exec, ObjSetScale, update_object_bounds_eq, hx] at hc
    | SetTransformOrder order =>
      simp [Call.exec, ObjSetTransformOrder, update_object_bounds_eq, hx] at hc
    | SetRotateOrder order =>
      simp [Call.exec, ObjSetRotateOrder, update_object_bounds_eq, hx] at hc
    | SetShader shader => simp [Call.exec] at hc
    | SetLightList lights count => simp [Call.exec] at hc
    | SetReflectTarget grp =>
      right; left
      simp only [Call.exec, ObjSetReflectTarget] at hc
      split_ifs at hc with hg
      rw [not_not.mp hg]
    | SetRefractTarget grp =>
      right; right
      simp only [Call.exec, ObjSetRefractTarget] at hc
      split_ifs at hc with hg
      rw [not_not.mp hg]

/-- C2: on an instance whose accelerator reference or whose volume reference is set,
`ObjSetVolume` returns -1 and leaves the whole instance as it was. -/
theorem setVolume_conflict_atomic (E : Env K) (obj : ObjectInstance K) (volume : Ptr)
    (h : obj.acc ≠ none ∨ obj.volume ≠ none) :
    ObjSetVolume E obj volume = some (-1, obj) := by
  unfold ObjSetVolume
  by_cases ha : obj.acc ≠ none
  · rw [if_pos ha]
  · rw [if_neg ha, if_pos (h.resolve_left ha)]

/-- C8: on an instance without accelerator `ObjIntersect` returns 0 and leaves the
intersection record, the instance (its interpolation cache included) and the ray as they
were; on an instance without volume `ObjVolumeIntersect` and `ObjGetVolumeSample` return
0 and leave the interval, the sample and the instance as they were. -/
theorem misuse_is_silent_miss {S : Type} (E : Env K)
    (VolGetSample : Ptr → Vec3 K → S → Int × S) (self : Ptr) (obj : ObjectInstance K)
    (time : K) (ray : Ray K) (isect : Intersection K) (interval : Interval K)
    (point : Vec3 K) (sample : S) :
    (obj.acc = none → ObjIntersect E self obj time ray isect = some ⟨0, isect, obj, ray⟩) ∧
    (obj.volume = none →
      ObjVolumeIntersect E self obj time ray interval = some ⟨0, interval, obj⟩ ∧
      ObjGetVolumeSample E VolGetSample obj time point sample = some ⟨0, sample, obj⟩) := by
  refine ⟨fun ha => ?_, fun hv => ⟨?_, ?_⟩⟩
  · simp [ObjIntersect, ObjIsSurface, ha]
  · simp [ObjVolumeIntersect, ObjIsVolume, hv]
  · simp [ObjGetVolumeSample, ObjIsVolume, hv]

/-- C9: in every state an instance created by `ObjNew` reaches, the cached bounds are the
bounds of §4.4 computed from the local bounds and the current samples (the scale sequence
holding a sample, as §4.4 supposes); the recomputation does not read the bounds cached
before, and running it again changes nothing. -/
theorem bounds_eager_history_free (E : Env K) (mem : ObjectInstance K) (acc : Ptr)
    (calls : List (Call K)) (s : ObjectInstance K)
    (h : created E mem acc calls = some s) :
    (0 < s.transform_samples.scale.sample_count →
      s.bounds = computeBounds E (localBounds E s) s.transform_samples) ∧
    (∀ b : Box K, update_object_bounds E { s with bounds := b } = some s) ∧
    update_object_bounds E s = some s := by
  obtain ⟨hx, hJ⟩ := created_inv E mem acc calls s h
  have hb : ∀ b : Box K, update_object_bounds E { s with bounds := b } = some s := by
    intro b
    rw [update_object_bounds_eq]
    have hx' : ¬ (({ s with bounds := b } : ObjectInstance K).acc ≠ none
        ∧ ({ s with bounds := b } : ObjectInstance K).volume ≠ none) := hx
    rw [if_neg hx']
    have e : (merge_sampled_bounds E { s with bounds := localBounds E s }).bounds
        = s.bounds := hJ.symm
    show some ({ s with bounds :=
      (merge_sampled_bounds E { s with bounds := localBounds E s }).bounds }) = some s
    rw [e]
  refine ⟨fun hs => ?_, hb, hb s.bounds⟩
  rw [hJ]
  exact merge_bounds_eq_spec E { s with bounds := localBounds E s } hs

/-- C10: on a surface instance `ObjIntersect` calls `XfmLerpTransformSample` on the
instance's sample list at `time`, leaves the list that call returns in the instance, and
works with the transform `transform_sample` of that list. It returns 1 exactly when
`AccIntersect` reports a hit for the ray whose origin and direction are the inverse point-
and vector-transform of the caller's, with `tmin`, `tmax` kept; on a hit `P`, `N`, `dPds`,
`dPdt` are the accelerator's, mapped forward (`N` normalised after, the tangents not) and
`object` is this instance; the caller's ray is unchanged. -/
theorem intersect_world_space (E : Env K) (self : Ptr) (obj : ObjectInstance K) (time : K)
    (ray : Ray K) (isect : Intersection K) (hsurf : ObjIsSurface obj = some 1)
    (list : TransformSampleList K)
    (hlist : list = E.XfmLerpTransformSample obj.transform_samples time)
    (local_ray : Ray K)
    (hlocal : local_ray = ⟨E.XfmTransformPointInverse list.transform_sample ray.orig,
      E.XfmTransformVectorInverse list.transform_sample ray.dir, ray.tmin, ray.tmax⟩)
    (hit : Int × Intersection K)
    (hhit : hit = E.AccIntersect obj.acc time local_ray isect) :
    ∃ r : IntersectResult K, ObjIntersect E self obj time ray isect = some r ∧
      r.ray = ray ∧
      r.obj = { obj with transform_samples := list } ∧
      (r.ret = 1 ↔ hit.1 ≠ 0) ∧
      (r.ret = 0 ↔ hit.1 = 0) ∧
      (r.ret = 1 →
        r.isect.P = E.XfmTransformPoint list.transform_sample hit.2.P ∧
        r.isect.N = E.VEC3_NORMALIZE (E.XfmTransformVector list.transform_sample hit.2.N) ∧
        r.isect.dPds = E.XfmTransformVector list.transform_sample hit.2.dPds ∧
        r.isect.dPdt = E.XfmTransformVector list.transform_sample hit.2.dPdt ∧
        r.isect.object = self) := by
  subst hlist hlocal hhit
  unfold ObjIntersect get_interpolated_transform
  rw [hsurf]
  simp only [one_ne_zero, if_false]
  by_cases hmiss : (E.AccIntersect obj.acc time
      ⟨E.XfmTransformPointInverse
          (E.XfmLerpTransformSample obj.transform_samples time).transform_sample ray.orig,
        E.XfmTransformVectorInverse
          (E.XfmLerpTransformSample obj.transform_samples time).transform_sample ray.dir,
        ray.tmin, ray.tmax⟩ isect).1 = 0
  · refine ⟨_, if_pos hmiss, rfl, rfl, ?_, ?_, ?_⟩ <;> simp [hmiss]
  · refine ⟨_, if_neg hmiss, rfl, rfl, ?_, ?_, fun _ => ⟨rfl, rfl, rfl, rfl, rfl⟩⟩ <;>
      simp [hmiss]

/-- The bounds of the triangle of `triangleScene`. -/
lemma triangle_bounds :
    TriComputeBounds (K := K) ⟨1, 1, 1⟩ ⟨2, 1, 1⟩ ⟨1, 2, 1⟩ = ⟨1, 1, 1, 2, 2, 1⟩ := by
  norm_num [TriComputeBounds, BoxAddPoint, FLT_MAX]

/-- Without rotation and translation, in the order `ORDER_SRT` with `ORDER_ZXY`, the
matrix of the spec's transform is the scale matrix. -/
lemma specSetTransform_scale (trig : K → K × K) (h0 : trig 0 = (1, 0)) (S : Vec3 K) :
    (specSetTransform trig 0 10 ⟨0, 0, 0⟩ ⟨0, 0, 0⟩ S).matrix = scaleMatrix S := by
  simp [specSetTransform, composeInOrder, h0, rotateXMatrix, rotateYMatrix, rotateZMatrix,
    translateMatrix, scaleMatrix, Mat4.mul]

/-- Without rotation and translation, in the order `ORDER_SRT` with `ORDER_ZXY`, the
inverse matrix of the spec's transform is the reciprocal scale matrix. -/
lemma specSetTransform_scale_inverse (trig : K → K × K) (h0 : trig 0 = (1, 0)) (S : Vec3 K) :
    (specSetTransform trig 0 10 ⟨0, 0, 0⟩ ⟨0, 0, 0⟩ S).inverse
      = scaleMatrix ⟨1 / S.x, 1 / S.y, 1 / S.z⟩ := by
  simp [specSetTransform, composeInOrder, composeInReverse, h0, rotateXMatrix,
    rotateYMatrix, rotateZMatrix, translateMatrix, scaleMatrix, Mat4.mul, Mat4.transpose]

/-- A scale matrix with positive entries maps a box of positive extent to the box of the
scaled corners. -/
lemma scale_applyBounds (S : Vec3 K) (b : Box K)
    (hx : 0 < S.x) (hy : 0 < S.y) (hz : 0 < S.z)
    (ex : b.xmin ≤ b.xmax) (ey : b.ymin ≤ b.ymax) (ez : b.zmin ≤ b.zmax)
    (lo : -FLT_MAX ≤ S.x * b.xmin ∧ -FLT_MAX ≤ S.y * b.ymin ∧ -FLT_MAX ≤ S.z * b.zmin)
    (hi : S.x * b.xmax ≤ FLT_MAX ∧ S.y * b.ymax ≤ FLT_MAX ∧ S.z * b.zmax ≤ FLT_MAX) :
    (scaleMatrix S).applyBounds b
      = ⟨S.x * b.xmin, S.y * b.ymin, S.z * b.zmin, S.x * b.xmax, S.y * b.ymax, S.z * b.zmax⟩ := by
  have mx : S.x * b.xmin ≤ S.x * b.xmax := mul_le_mul_of_nonneg_left ex hx.le
  have my : S.y * b.ymin ≤ S.y * b.ymax := mul_le_mul_of_nonneg_left ey hy.le
  have mz : S.z * b.zmin ≤ S.z * b.zmax := mul_le_mul_of_nonneg_left ez hz.le
  obtain ⟨l1, l2, l3⟩ := lo
  obtain ⟨h1, h2, h3⟩ := hi
  simp only [Mat4.applyBounds, Box.corners, scaleMatrix, Mat4.applyPoint, List.map_cons,
    List.map_nil, List.foldl_cons, List.foldl_nil, BoxAddPoint, emptyBox, zero_mul, add_zero,
    zero_add, Box.mk.injEq]
  refine ⟨?_, ?_, ?_, ?_, ?_, ?_⟩
  · simp [mx, min_eq_right (mx.trans h1)]
  · simp [my, min_eq_right (my.trans h2)]
  · simp [mz, min_eq_right (mz.trans h3)]
  · simp [mx, l1.trans mx]
  · simp [my, l2.trans my]
  · simp [mz, l3.trans mz]

/-- C3 (fails on the code): an instance on the triangle `(1,1,1), (2,1,1), (1,2,1)`, at
rest with unit scale at time 0, is given the scale 2 at time 1 by `ObjSetScale`. The cached
bounds become `[2,4] × [2,4] × [2,2]`, the local bounds scaled by the maximum scale 2; at
time 1/2, between the two keyframes, the interpolated transform scales by 3/2 and maps
the local bounds to `[3/2,3] × [3/2,3] × [3/2,3/2]`, which is not inside the cached
bounds. -/
theorem bounds_miss_interpolated_box (trig : K → K × K) (sqrt : K → K)
    (h0 : trig 0 = (1, 0)) :
    ∃ s, created (specEnv trig sqrt triangleScene restPose) zeroMemory (some 1)
            [.SetScale 2 2 2 1] = some s ∧
      ObjGetBounds s = ⟨2, 2, 2, 4, 4, 2⟩ ∧
      localBounds (specEnv trig sqrt triangleScene restPose) s = ⟨1, 1, 1, 2, 2, 1⟩ ∧
      (specEnv trig sqrt triangleScene restPose).XfmTransformBounds
          (get_interpolated_transform (specEnv trig sqrt triangleScene restPose) s (1 / 2)).2
          (localBounds (specEnv trig sqrt triangleScene restPose) s)
        = ⟨3 / 2, 3 / 2, 3 / 2, 3, 3, 3 / 2⟩ ∧
      ¬ Box.inside
          ((specEnv trig sqrt triangleScene restPose).XfmTransformBounds
            (get_interpolated_transform (specEnv trig sqrt triangleScene restPose) s
              (1 / 2)).2
            (localBounds (specEnv trig sqrt triangleScene restPose) s))
          (ObjGetBounds s) := by
  have r1 : List.range 1 = [0] := rfl
  have r2 : List.range 2 = [0, 1] := rfl
  have r11 : List.range' 1 1 = [1] := rfl
  have hne : ¬ ((1 / 2 : K) = -FLT_MAX) := by norm_num [FLT_MAX]
  obtain ⟨s, hs, hb, hl, ht⟩ :
      ∃ s, created (specEnv trig sqrt triangleScene restPose) zeroMemory (some 1)
            [.SetScale 2 2 2 1] = some s ∧
        ObjGetBounds s = ⟨2, 2, 2, 4, 4, 2⟩ ∧
        localBounds (specEnv trig sqrt triangleScene restPose) s = ⟨1, 1, 1, 2, 2, 1⟩ ∧
        (specEnv trig sqrt triangleScene restPose).XfmTransformBounds
            (get_interpolated_transform (specEnv trig sqrt triangleScene restPose) s
              (1 / 2)).2
            (localBounds (specEnv trig sqrt triangleScene restPose) s)
          = ⟨3 / 2, 3 / 2, 3 / 2, 3, 3, 3 / 2⟩ := by
    refine ⟨_, rfl, ?_, ?_, ?_⟩
    · simp only [ObjGetBounds, merge_sampled_bounds, maxScaleLoop, specEnv, pushSample,
        restPose, triangleScene, zeroMemory, triangle_bounds, r1, r11, List.foldl_cons,
        List.foldl_nil]
      norm_num [MAX, specSetTransform_scale trig h0]
      rw [scale_applyBounds] <;> norm_num [specBoxAddBox, FLT_MAX]
    · simp [localBounds, merge_sampled_bounds, specEnv, triangleScene, triangle_bounds]
    · simp only [get_interpolated_transform, localBounds, merge_sampled_bounds, specEnv,
        triangleScene, triangle_bounds, specLerpTransformSample, restPose]
      rw [if_neg hne]
      simp only [specInterpolate, sampleList, pushSample, r1, r2, List.map_cons,
        List.map_nil, lerpSamples, ne_eq, reduceCtorEq, not_false_eq_true, if_true]
      norm_num [specSetTransform_scale trig h0]
      rw [scale_applyBounds] <;> norm_num [FLT_MAX]
  refine ⟨s, hs, hb, hl, ht, ?_⟩
  rw [ht, hb]
  norm_num [Box.inside]

/-- C3, a run of `bounds_miss_interpolated_box` over `ℚ` with the collaborators
`runEnv`. -/
theorem bounds_miss_interpolated_box_witness :
    trigZero 0 = (1, 0) ∧
    ∃ s, created runEnv zeroMemory (some 1) [.SetScale 2 2 2 1] = some s ∧
      ObjGetBounds s = ⟨2, 2, 2, 4, 4, 2⟩ ∧
      localBounds runEnv s = ⟨1, 1, 1, 2, 2, 1⟩ ∧
      runEnv.XfmTransformBounds (get_interpolated_transform runEnv s (1 / 2)).2
          (localBounds runEnv s)
        = ⟨3 / 2, 3 / 2, 3 / 2, 3, 3, 3 / 2⟩ ∧
      ¬ Box.inside
          (runEnv.XfmTransformBounds (get_interpolated_transform runEnv s (1 / 2)).2
            (localBounds runEnv s))
          (ObjGetBounds s) :=
  ⟨rfl, bounds_miss_interpolated_box trigZero Rat.sqrt rfl⟩

/-! ## Runs on the concrete scene -/

/-- C1, a run: a surface instance is created on the accelerator at address 1, moved, and
asked to take a volume, which it refuses; the instance reached has the accelerator and no
volume. -/
theorem surface_volume_exclusive_witness :
    ∃ s, created runEnv zeroMemory (some 1)
        [.SetTranslate 1 0 0 1, .SetVolume (some 5), .SetShader (some 3)] = some s ∧
      s.acc = some 1 ∧ s.volume = none ∧
      (¬ (s.acc ≠ none ∧ s.volume ≠ none) ∧
        ObjIsSurface s ≠ none ∧ ObjIsVolume s ≠ none ∧
        ¬ (ObjIsSurface s = some 1 ∧ ObjIsVolume s = some 1) ∧
        ∀ c : Call ℚ, c.exec runEnv s = none →
          c = .SetVolume none ∨ c = .SetReflectTarget none ∨ c = .SetRefractTarget none) :=
  ⟨_, rfl, rfl, rfl,
    surface_volume_exclusive runEnv zeroMemory (some 1)
      [.SetTranslate 1 0 0 1, .SetVolume (some 5), .SetShader (some 3)] _ rfl⟩

/-- C2, two runs: a surface instance and a volume instance are each asked to take the
volume at address 7; both calls return -1 and change nothing. -/
theorem setVolume_conflict_atomic_witness :
    (restingSurface.acc ≠ none ∨ restingSurface.volume ≠ none) ∧
    ObjSetVolume runEnv restingSurface (some 7) = some (-1, restingSurface) ∧
    (restingVolume.acc ≠ none ∨ restingVolume.volume ≠ none) ∧
    ObjSetVolume runEnv restingVolume (some 7) = some (-1, restingVolume) :=
  ⟨Or.inl (by simp [restingSurface]),
    setVolume_conflict_atomic runEnv restingSurface (some 7)
      (Or.inl (by simp [restingSurface])),
    Or.inr (by simp [restingVolume]),
    setVolume_conflict_atomic runEnv restingVolume (some 7)
      (Or.inr (by simp [restingVolume]))⟩

/-- C8, two runs: a ray sent at the volume instance through `ObjIntersect`, and at the
surface instance through `ObjVolumeIntersect` and `ObjGetVolumeSample`, misses and leaves
everything as it was. -/
theorem misuse_is_silent_miss_witness :
    restingVolume.acc = none ∧ restingSurface.volume = none ∧
    ObjIntersect runEnv (some 200) restingVolume 0 downRay blankIsect
      = some ⟨0, blankIsect, restingVolume, downRay⟩ ∧
    ObjVolumeIntersect runEnv (some 100) restingSurface 0 downRay ⟨3, 4, none⟩
      = some ⟨0, ⟨3, 4, none⟩, restingSurface⟩ ∧
    ObjGetVolumeSample runEnv (fun _ _ (d : ℚ) => ((1 : Int), d + 1)) restingSurface 0
        ⟨0, 0, 0⟩ 9
      = some ⟨0, 9, restingSurface⟩ :=
  ⟨rfl, rfl,
    (misuse_is_silent_miss runEnv (fun _ _ (d : ℚ) => ((1 : Int), d + 1)) (some 200)
      restingVolume 0 downRay blankIsect ⟨3, 4, none⟩ ⟨0, 0, 0⟩ 9).1 rfl,
    ((misuse_is_silent_miss runEnv (fun _ _ (d : ℚ) => ((1 : Int), d + 1)) (some 100)
      restingSurface 0 downRay blankIsect ⟨3, 4, none⟩ ⟨0, 0, 0⟩ 9).2 rfl).1,
    ((misuse_is_silent_miss runEnv (fun _ _ (d : ℚ) => ((1 : Int), d + 1)) (some 100)
      restingSurface 0 downRay blankIsect ⟨3, 4, none⟩ ⟨0, 0, 0⟩ 9).2 rfl).2⟩

/-- C9, a run: after `ObjSetScale` on a fresh surface instance the scale sequence holds two
samples and the cached bounds, `[2,4] × [2,4] × [2,2]`, are those of §4.4 for the samples
as they then are. -/
theorem bounds_eager_history_free_witness :
    ∃ s, created runEnv zeroMemory (some 1) [.SetScale 2 2 2 1] = some s ∧
      s.transform_samples.scale.sample_count = 2 ∧
      s.bounds = computeBounds runEnv (localBounds runEnv s) s.transform_samples ∧
      (∀ b : Box ℚ, update_object_bounds runEnv { s with bounds := b } = some s) ∧
      update_object_bounds runEnv s = some s :=
  ⟨_, rfl, rfl,
    (bounds_eager_history_free runEnv zeroMemory (some 1) [.SetScale 2 2 2 1] _ rfl).1
      (Nat.zero_lt_succ 1),
    (bounds_eager_history_free runEnv zeroMemory (some 1) [.SetScale 2 2 2 1] _ rfl).2⟩

/-- The list `runEnv` leaves when it interpolates `growingPose` at time 1/2: the samples
as they were, the cache holding the scale by 3/2, forward and inverse, for the time 1/2. -/
lemma growingPose_lerp :
    runEnv.XfmLerpTransformSample growingPose (1 / 2)
      = { growingPose with
          transform_sample := specInterpolate trigZero growingPose (1 / 2)
          last_sample_time := 1 / 2 } ∧
    (specInterpolate trigZero growingPose (1 / 2)).matrix
      = scaleMatrix (⟨3 / 2, 3 / 2, 3 / 2⟩ : Vec3 ℚ) ∧
    (specInterpolate trigZero growingPose (1 / 2)).inverse
      = scaleMatrix (⟨2 / 3, 2 / 3, 2 / 3⟩ : Vec3 ℚ) := by
  have r1 : List.range 1 = [0] := rfl
  have r2 : List.range 2 = [0, 1] := rfl
  have hne : ¬ ((1 / 2 : ℚ) = -FLT_MAX) := by norm_num [FLT_MAX]
  refine ⟨?_, ?_, ?_⟩
  · simp only [runEnv, specEnv, specLerpTransformSample, growingPose, restPose]
    rw [if_neg hne]
  · simp only [specInterpolate, growingPose, restPose, sampleList, r1, r2, List.map_cons,
      List.map_nil, lerpSamples]
    norm_num
    rw [specSetTransform_scale trigZero rfl]
  · simp only [specInterpolate, growingPose, restPose, sampleList, r1, r2, List.map_cons,
      List.map_nil, lerpSamples]
    norm_num
    rw [specSetTransform_scale_inverse trigZero rfl]
    norm_num

/-- C10, a run at time 1/2 on the surface instance growing from scale 1 at time 0 to scale
2 at time 1, whose cache holds the identity: the ray from `(7/4, 7/4, 5)` straight down is
taken to the local ray from `(7/6, 7/6, 10/3)` with direction `(0, 0, -2/3)`, which hits
the triangle at `(7/6, 7/6, 1)`; `ObjIntersect` returns 1 with `P = (7/4, 7/4, 3/2)`,
`N = (0, 0, 1)` and the tangents `(3/2, 0, 0)`, `(0, 3/2, 0)`, stamps the record with the
instance's address, leaves the ray as it was and the cache at time 1/2. Under the cached
identity the ray would pass beside the triangle. -/
theorem intersect_world_space_witness :
    ObjIsSurface growingSurface = some 1 ∧
    ∃ r : IntersectResult ℚ,
      ObjIntersect runEnv (some 100) growingSurface (1 / 2) highRay blankIsect = some r ∧
      r.ray = highRay ∧ r.obj.transform_samples.last_sample_time = 1 / 2 ∧
      r.ret = 1 ∧ r.isect.P = ⟨7 / 4, 7 / 4, 3 / 2⟩ ∧ r.isect.N = ⟨0, 0, 1⟩ ∧
      r.isect.dPds = ⟨3 / 2, 0, 0⟩ ∧ r.isect.dPdt = ⟨0, 3 / 2, 0⟩ ∧
      r.isect.object = some 100 := by
  refine ⟨rfl, ?_⟩
  obtain ⟨hl, hm, hi⟩ := growingPose_lerp
  have hts : growingSurface.transform_samples = growingPose := rfl
  have hacc : runEnv.AccIntersect growingSurface.acc (1 / 2)
      ⟨runEnv.XfmTransformPointInverse
          (runEnv.XfmLerpTransformSample growingSurface.transform_samples
            (1 / 2)).transform_sample highRay.orig,
        runEnv.XfmTransformVectorInverse
          (runEnv.XfmLerpTransformSample growingSurface.transform_samples
            (1 / 2)).transform_sample highRay.dir, highRay.tmin, highRay.tmax⟩ blankIsect
      = (1, ⟨⟨7 / 6, 7 / 6, 1⟩, ⟨0, 0, 1⟩, ⟨1, 0, 0⟩, ⟨0, 1, 0⟩, none⟩) := by
    have e : runEnv.XfmTransformPointInverse
        (runEnv.XfmLerpTransformSample growingSurface.transform_samples
          (1 / 2)).transform_sample highRay.orig = ⟨7 / 6, 7 / 6, 10 / 3⟩
        ∧ runEnv.XfmTransformVectorInverse
        (runEnv.XfmLerpTransformSample growingSurface.transform_samples
          (1 / 2)).transform_sample highRay.dir = ⟨0, 0, -(2 / 3)⟩ := by
      rw [hts, hl]
      simp only [runEnv, specEnv]
      rw [hi]
      norm_num [Mat4.applyPoint, Mat4.applyVector, scaleMatrix, highRay]
    rw [e.1, e.2]
    norm_num [runEnv, specEnv, triangleScene, TriRayIntersect, VEC3_SUB, VEC3_CROSS,
      VEC3_DOT, EPSILON, highRay, blankIsect, rayAt, growingSurface, restingSurface]
  obtain ⟨r, hr, hray, hobj, h1, -, hhit⟩ :=
    intersect_world_space runEnv (some 100) growingSurface (1 / 2) highRay blankIsect rfl
      _ rfl _ rfl _ rfl
  have hret : r.ret = 1 := h1.mpr (by rw [hacc]; decide)
  obtain ⟨hP, hN, hs, ht, ho⟩ := hhit hret
  refine ⟨r, hr, hray, ?_, hret, ?_, ?_, ?_, ?_, ho⟩
  · rw [hobj, hts, hl]
  · rw [hP, hacc, hts, hl]
    simp only [runEnv, specEnv]
    rw [hm]
    norm_num [Mat4.applyPoint, scaleMatrix]
  · rw [hN, hacc, hts, hl]
    simp only [runEnv, specEnv]
    rw [hm]
    have hq : Rat.sqrt (9 / 4) = 3 / 2 := by
      have h := Rat.sqrt_eq (3 / 2)
      rw [abs_of_nonneg (by norm_num : (0 : ℚ) ≤ 3 / 2)] at h
      rw [← h]
      norm_num
    norm_num [Mat4.applyVector, scaleMatrix, specNormalize, VEC3_DOT, hq]
  · rw [hs, hacc, hts, hl]
    simp only [runEnv, specEnv]
    rw [hm]
    norm_num [Mat4.applyVector, scaleMatrix]
  · rw [ht, hacc, hts, hl]
    simp only [runEnv, specEnv]
    rw [hm]
    norm_num [Mat4.applyVector, scaleMatrix]

/-! ## Volume intervals -/

/-- C11: on a volume instance `ObjVolumeIntersect` calls `XfmLerpTransformSample` on the
instance's sample list at `time`, leaves the list that call returns in the instance, and
works with the transform `transform_sample` of that list. It returns 1 exactly when
`BoxRayIntersect` reports a hit of the volume's bounds by the ray whose origin and
direction are the inverse point- and vector-transform of the caller's, with the ray's own
`tmin`, `tmax`; on a hit the interval holds the two parameters that test wrote, as they
are, and this instance; on a miss the interval is left as it was. -/
theorem volume_interval (E : Env K) (self : Ptr) (obj : ObjectInstance K) (time : K)
    (ray : Ray K) (interval : Interval K) (hvol : ObjIsVolume obj = some 1)
    (list : TransformSampleList K)
    (hlist : list = E.XfmLerpTransformSample obj.transform_samples time)
    (slab : Int × K × K)
    (hslab : slab = E.BoxRayIntersect (E.VolGetBounds obj.volume)
      (E.XfmTransformPointInverse list.transform_sample ray.orig)
      (E.XfmTransformVectorInverse list.transform_sample ray.dir) ray.tmin ray.tmax 0 0) :
    ∃ r : VolumeIntersectResult K,
      ObjVolumeIntersect E self obj time ray interval = some r ∧
      r.obj = { obj with transform_samples := list } ∧
      (r.ret = 1 ↔ slab.1 ≠ 0) ∧
      (r.ret = 0 ↔ slab.1 = 0) ∧
      (r.ret = 1 →
        r.interval.tmin = slab.2.1 ∧ r.interval.tmax = slab.2.2 ∧
        r.interval.object = self) ∧
      (r.ret = 0 → r.interval = interval) := by
  subst hlist hslab
  unfold ObjVolumeIntersect get_interpolated_transform
  rw [hvol]
  simp only [one_ne_zero, if_false]
  by_cases hmiss : (E.BoxRayIntersect (E.VolGetBounds obj.volume)
      (E.XfmTransformPointInverse
        (E.XfmLerpTransformSample obj.transform_samples time).transform_sample ray.orig)
      (E.XfmTransformVectorInverse
        (E.XfmLerpTransformSample obj.transform_samples time).transform_sample ray.dir)
      ray.tmin ray.tmax 0 0).1 = 0
  · refine ⟨_, if_pos hmiss, rfl, ?_, ?_, ?_, fun _ => rfl⟩ <;> simp [hmiss]
  · refine ⟨_, if_neg hmiss, rfl, ?_, ?_, fun _ => ⟨rfl, rfl, rfl⟩, ?_⟩ <;> simp [hmiss]

/-- C11, a run at time 1/2 on the volume instance growing from scale 1 at time 0 to scale
2 at time 1, whose cache holds the identity: the ray from `(5/4, 5/4, 3)` straight down,
clamped to `[0, 10]`, is taken to the local ray from `(5/6, 5/6, 2)` with direction
`(0, 0, -2/3)`, which enters the unit cube at `t = 3/2` and leaves it at `t = 3`;
`ObjVolumeIntersect` returns 1 with that interval and the instance's address and leaves
the cache at time 1/2. Under the cached identity the ray would pass beside the cube. -/
theorem volume_interval_witness :
    ObjIsVolume growingVolume = some 1 ∧
    ∃ r : VolumeIntersectResult ℚ,
      ObjVolumeIntersect runEnv (some 200) growingVolume (1 / 2) cubeRay ⟨0, 0, none⟩
        = some r ∧
      r.obj.transform_samples.last_sample_time = 1 / 2 ∧
      r.ret = 1 ∧ r.interval = ⟨3 / 2, 3, some 200⟩ := by
  refine ⟨rfl, ?_⟩
  obtain ⟨hl, -, hi⟩ := growingPose_lerp
  have hts : growingVolume.transform_samples = growingPose := rfl
  have hbox : runEnv.BoxRayIntersect (runEnv.VolGetBounds growingVolume.volume)
      (runEnv.XfmTransformPointInverse
        (runEnv.XfmLerpTransformSample growingVolume.transform_samples
          (1 / 2)).transform_sample cubeRay.orig)
      (runEnv.XfmTransformVectorInverse
        (runEnv.XfmLerpTransformSample growingVolume.transform_samples
          (1 / 2)).transform_sample cubeRay.dir)
      cubeRay.tmin cubeRay.tmax 0 0 = (1, 3 / 2, 3) := by
    have e : runEnv.XfmTransformPointInverse
        (runEnv.XfmLerpTransformSample growingVolume.transform_samples
          (1 / 2)).transform_sample cubeRay.orig = ⟨5 / 6, 5 / 6, 2⟩
        ∧ runEnv.XfmTransformVectorInverse
        (runEnv.XfmLerpTransformSample growingVolume.transform_samples
          (1 / 2)).transform_sample cubeRay.dir = ⟨0, 0, -(2 / 3)⟩ := by
      rw [hts, hl]
      simp only [runEnv, specEnv]
      rw [hi]
      norm_num [Mat4.applyPoint, Mat4.applyVector, scaleMatrix, cubeRay]
    rw [e.1, e.2]
    norm_num [runEnv, specEnv, triangleScene, specBoxRayIntersect, slabAxis, cubeRay]
  obtain ⟨r, hr, hobj, h1, -, hhit, -⟩ :=
    volume_interval runEnv (some 200) growingVolume (1 / 2) cubeRay ⟨0, 0, none⟩ rfl
      _ rfl _ rfl
  have hret : r.ret = 1 := h1.mpr (by rw [hbox]; decide)
  obtain ⟨hmin, hmax, ho⟩ := hhit hret
  refine ⟨r, hr, ?_, hret, ?_⟩
  · rw [hobj, hts, hl]
  rw [hbox] at hmin hmax
  cases hri : r.interval with
  | mk a b c =>
    rw [hri] at hmin hmax ho
    simp only at hmin hmax ho
    rw [hmin, hmax, ho]

/-! ## Area and normals of a triangle -/

/-- C12, amended: in exact arithmetic, with `VEC3_LEN` the Euclidean length, `sqrt` being
the non-negative square root of the squared length of `(vert1 - vert0) × (vert2 - vert0)`,
`TriComputeArea` returns half that length: a non-negative number whose double squares to
the squared length of the cross product, zero exactly when the three vertices lie on one
line, and the same for every order of the vertices. Under every rounding of the
arithmetic that keeps a number from becoming negative and with every square root that is
not negative, so in binary64, the area computed is not negative. -/
theorem tri_area_half_cross_length (sqrt : K → K) (vert0 vert1 vert2 : Vec3 K)
    (hs : 0 ≤ sqrt (VEC3_DOT (VEC3_CROSS (VEC3_SUB vert1 vert0) (VEC3_SUB vert2 vert0))
        (VEC3_CROSS (VEC3_SUB vert1 vert0) (VEC3_SUB vert2 vert0))) ∧
      sqrt (VEC3_DOT (VEC3_CROSS (VEC3_SUB vert1 vert0) (VEC3_SUB vert2 vert0))
          (VEC3_CROSS (VEC3_SUB vert1 vert0) (VEC3_SUB vert2 vert0)))
        * sqrt (VEC3_DOT (VEC3_CROSS (VEC3_SUB vert1 vert0) (VEC3_SUB vert2 vert0))
          (VEC3_CROSS (VEC3_SUB vert1 vert0) (VEC3_SUB vert2 vert0)))
        = VEC3_DOT (VEC3_CROSS (VEC3_SUB vert1 vert0) (VEC3_SUB vert2 vert0))
          (VEC3_CROSS (VEC3_SUB vert1 vert0) (VEC3_SUB vert2 vert0))) :
    (TriComputeArea (specLen sqrt) vert0 vert1 vert2
      = 1 / 2 * specLen sqrt (VEC3_CROSS (VEC3_SUB vert1 vert0) (VEC3_SUB vert2 vert0)) ∧
    0 ≤ TriComputeArea (specLen sqrt) vert0 vert1 vert2 ∧
    (2 * TriComputeArea (specLen sqrt) vert0 vert1 vert2)
        * (2 * TriComputeArea (specLen sqrt) vert0 vert1 vert2)
      = VEC3_DOT (VEC3_CROSS (VEC3_SUB vert1 vert0) (VEC3_SUB vert2 vert0))
          (VEC3_CROSS (VEC3_SUB vert1 vert0) (VEC3_SUB vert2 vert0)) ∧
    (TriComputeArea (specLen sqrt) vert0 vert1 vert2 = 0 ↔ OnOneLine vert0 vert1 vert2) ∧
    TriComputeArea (specLen sqrt) vert0 vert2 vert1
      = TriComputeArea (specLen sqrt) vert0 vert1 vert2 ∧
    TriComputeArea (specLen sqrt) vert1 vert0 vert2
      = TriComputeArea (specLen sqrt) vert0 vert1 vert2 ∧
    TriComputeArea (specLen sqrt) vert1 vert2 vert0
      = TriComputeArea (specLen sqrt) vert0 vert1 vert2 ∧
    TriComputeArea (specLen sqrt) vert2 vert0 vert1
      = TriComputeArea (specLen sqrt) vert0 vert1 vert2 ∧
    TriComputeArea (specLen sqrt) vert2 vert1 vert0
      = TriComputeArea (specLen sqrt) vert0 vert1 vert2) ∧
    (∀ rnd root : K → K, (∀ x, 0 ≤ x → 0 ≤ rnd x) → (∀ x, 0 ≤ root x) →
      0 ≤ TriComputeArea_rnd rnd (VEC3_LEN_rnd rnd root) vert0 vert1 vert2) := by
  refine ⟨?_, fun rnd root hr hroot => area_rnd_nonneg rnd root hr hroot vert0 vert1 vert2⟩
  obtain ⟨h0, hsq⟩ := hs
  obtain ⟨p021, p102, p120, p201, p210⟩ := cross_dot_perm vert0 vert1 vert2
  simp only [TriComputeArea, specLen, true_and]
  refine ⟨by linarith, ?_, ?_, ?_, ?_, ?_, ?_, ?_⟩
  · linear_combination hsq
  · rw [← cross_eq_zero_iff_onOneLine, ← dot_self_eq_zero]
    constructor
    · intro h
      have hz : sqrt (VEC3_DOT (VEC3_CROSS (VEC3_SUB vert1 vert0) (VEC3_SUB vert2 vert0))
          (VEC3_CROSS (VEC3_SUB vert1 vert0) (VEC3_SUB vert2 vert0))) = 0 := by linarith
      rw [← hsq, hz, mul_zero]
    · intro h
      have hz := hsq
      rw [h] at hz
      rw [h, mul_self_eq_zero.mp hz, mul_zero]
  · rw [p021]
  · rw [p102]
  · rw [p120]
  · rw [p201]
  · rw [p210]

/-- The square root of `ℚ` at 1. -/
lemma rat_sqrt_one : Rat.sqrt 1 = 1 := by
  have h := Rat.sqrt_eq 1
  rwa [mul_one, abs_one] at h

/-- C12, the spec's case: the triangle `(0,0,0), (1,0,0), (0,1,0)` has area 1/2, in exact
arithmetic, where the square root of `ℚ` is exact at 1, and in binary64, where the area
computed is not negative. -/
theorem tri_area_half_cross_length_witness :
    TriComputeArea (specLen Rat.sqrt) ⟨0, 0, 0⟩ ⟨1, 0, 0⟩ ⟨0, 1, 0⟩ = 1 / 2 ∧
    ¬ OnOneLine (K := ℚ) ⟨0, 0, 0⟩ ⟨1, 0, 0⟩ ⟨0, 1, 0⟩ ∧
    TriComputeArea (specLen Rat.sqrt) ⟨0, 1, 0⟩ ⟨1, 0, 0⟩ ⟨0, 0, 0⟩ = 1 / 2 ∧
    0 ≤ TriComputeArea_rnd fl (VEC3_LEN_rnd fl sqrtDouble) ⟨0, 0, 0⟩ ⟨1, 0, 0⟩ ⟨0, 1, 0⟩ ∧
    TriComputeArea_rnd fl (VEC3_LEN_rnd fl sqrtDouble) ⟨0, 0, 0⟩ ⟨1, 0, 0⟩ ⟨0, 1, 0⟩
      = 1 / 2 := by
  have hX : VEC3_DOT (K := ℚ) (VEC3_CROSS (VEC3_SUB ⟨1, 0, 0⟩ ⟨0, 0, 0⟩)
        (VEC3_SUB ⟨0, 1, 0⟩ ⟨0, 0, 0⟩))
      (VEC3_CROSS (VEC3_SUB ⟨1, 0, 0⟩ ⟨0, 0, 0⟩) (VEC3_SUB ⟨0, 1, 0⟩ ⟨0, 0, 0⟩)) = 1 := by
    norm_num [VEC3_DOT, VEC3_CROSS, VEC3_SUB]
  obtain ⟨⟨hdef, -, -, hzero, -, -, -, -, hperm⟩, hround⟩ :=
    tri_area_half_cross_length Rat.sqrt ⟨0, 0, 0⟩ ⟨1, 0, 0⟩ ⟨0, 1, 0⟩
      (by rw [hX, rat_sqrt_one]; norm_num)
  have harea : TriComputeArea (specLen Rat.sqrt) ⟨0, 0, 0⟩ ⟨1, 0, 0⟩ ⟨0, 1, 0⟩ = 1 / 2 := by
    rw [hdef, specLen, hX, rat_sqrt_one]; norm_num
  refine ⟨harea, fun h => ?_, hperm.trans harea,
    hround fl sqrtDouble fl_nonneg sqrtDouble_nonneg, area_rnd_unit_triangle⟩
  have := hzero.mpr h
  rw [harea] at this
  norm_num at this

/-- C12 as stated fails on the code, in binary64 arithmetic with the binary64 square
root. The vertices `(0, 0.3, 0), (0, 0.1, 2), (0, 0, 3)`, with `0.3` and `0.1` the
binary64 numbers of these names, do not lie on one line, yet the area computed is 0; and
with the first two vertices exchanged the area computed is `2⁻⁵⁶`, not 0. The vertices
`(0,0,0), (2⁻⁶⁰⁰,0,0), (0,2⁻⁶⁰⁰,0)` do not lie on one line either, and the area
computed is 0, the products of the cross product being too small for a binary64
number. -/
theorem tri_area_refuted :
    (¬ OnOneLine (K := ℚ) ⟨0, 5404319552844595 / 18014398509481984, 0⟩
        ⟨0, 3602879701896397 / 36028797018963968, 2⟩ ⟨0, 0, 3⟩ ∧
      TriComputeArea_rnd fl (VEC3_LEN_rnd fl sqrtDouble)
        ⟨0, 5404319552844595 / 18014398509481984, 0⟩
        ⟨0, 3602879701896397 / 36028797018963968, 2⟩ ⟨0, 0, 3⟩ = 0 ∧
      TriComputeArea_rnd fl (VEC3_LEN_rnd fl sqrtDouble)
        ⟨0, 3602879701896397 / 36028797018963968, 2⟩
        ⟨0, 5404319552844595 / 18014398509481984, 0⟩ ⟨0, 0, 3⟩ = 1 / 72057594037927936) ∧
    (¬ OnOneLine (K := ℚ) ⟨0, 0, 0⟩ ⟨1 / 2 ^ 600, 0, 0⟩ ⟨0, 1 / 2 ^ 600, 0⟩ ∧
      TriComputeArea_rnd fl (VEC3_LEN_rnd fl sqrtDouble)
        ⟨0, 0, 0⟩ ⟨1 / 2 ^ 600, 0, 0⟩ ⟨0, 1 / 2 ^ 600, 0⟩ = 0) := by
  refine ⟨⟨?_, area_rnd_vanishes, area_rnd_exchanged⟩, ?_, area_rnd_underflow⟩
  · rw [← cross_eq_zero_iff_onOneLine]
    norm_num [VEC3_CROSS, VEC3_SUB]
  · rw [← cross_eq_zero_iff_onOneLine]
    norm_num [VEC3_CROSS, VEC3_SUB]

/-- C13, amended: in exact arithmetic, for vertices not on one line, with `VEC3_NORMALIZE`
the division by the Euclidean length (`sqrt` being the non-negative square root of the
squared length of the cross product), `TriComputeFaceNormal` writes the cross product
`(vert1 - vert0) × (vert2 - vert0)` divided by its length; the result has unit length and
is orthogonal to both edges; exchanging `vert1` and `vert2` gives its negative. Under
every rounding of the arithmetic that commutes with the change of sign, so in binary64,
and with every square root, exchanging `vert1` and `vert2` still gives exactly the
negative of the vector written, for all vertices. -/
theorem tri_face_normal (sqrt : K → K) (vert0 vert1 vert2 : Vec3 K)
    (hnd : ¬ OnOneLine vert0 vert1 vert2)
    (hs : 0 ≤ sqrt (VEC3_DOT (VEC3_CROSS (VEC3_SUB vert1 vert0) (VEC3_SUB vert2 vert0))
        (VEC3_CROSS (VEC3_SUB vert1 vert0) (VEC3_SUB vert2 vert0))) ∧
      sqrt (VEC3_DOT (VEC3_CROSS (VEC3_SUB vert1 vert0) (VEC3_SUB vert2 vert0))
          (VEC3_CROSS (VEC3_SUB vert1 vert0) (VEC3_SUB vert2 vert0)))
        * sqrt (VEC3_DOT (VEC3_CROSS (VEC3_SUB vert1 vert0) (VEC3_SUB vert2 vert0))
          (VEC3_CROSS (VEC3_SUB vert1 vert0) (VEC3_SUB vert2 vert0)))
        = VEC3_DOT (VEC3_CROSS (VEC3_SUB vert1 vert0) (VEC3_SUB vert2 vert0))
          (VEC3_CROSS (VEC3_SUB vert1 vert0) (VEC3_SUB vert2 vert0))) :
    (TriComputeFaceNormal (specNormalize sqrt) vert0 vert1 vert2
      = ⟨(VEC3_CROSS (VEC3_SUB vert1 vert0) (VEC3_SUB vert2 vert0)).x
          / specLen sqrt (VEC3_CROSS (VEC3_SUB vert1 vert0) (VEC3_SUB vert2 vert0)),
        (VEC3_CROSS (VEC3_SUB vert1 vert0) (VEC3_SUB vert2 vert0)).y
          / specLen sqrt (VEC3_CROSS (VEC3_SUB vert1 vert0) (VEC3_SUB vert2 vert0)),
        (VEC3_CROSS (VEC3_SUB vert1 vert0) (VEC3_SUB vert2 vert0)).z
          / specLen sqrt (VEC3_CROSS (VEC3_SUB vert1 vert0) (VEC3_SUB vert2 vert0))⟩ ∧
    VEC3_DOT (TriComputeFaceNormal (specNormalize sqrt) vert0 vert1 vert2)
      (TriComputeFaceNormal (specNormalize sqrt) vert0 vert1 vert2) = 1 ∧
    VEC3_DOT (TriComputeFaceNormal (specNormalize sqrt) vert0 vert1 vert2)
      (VEC3_SUB vert1 vert0) = 0 ∧
    VEC3_DOT (TriComputeFaceNormal (specNormalize sqrt) vert0 vert1 vert2)
      (VEC3_SUB vert2 vert0) = 0 ∧
    TriComputeFaceNormal (specNormalize sqrt) vert0 vert2 vert1
      = ⟨-(TriComputeFaceNormal (specNormalize sqrt) vert0 vert1 vert2).x,
        -(TriComputeFaceNormal (specNormalize sqrt) vert0 vert1 vert2).y,
        -(TriComputeFaceNormal (specNormalize sqrt) vert0 vert1 vert2).z⟩) ∧
    (∀ rnd root : K → K, (∀ x, rnd (-x) = -rnd x) →
      TriComputeFaceNormal_rnd rnd (VEC3_NORMALIZE_rnd rnd root) vert0 vert2 vert1
        = ⟨-(TriComputeFaceNormal_rnd rnd (VEC3_NORMALIZE_rnd rnd root) vert0 vert1 vert2).x,
          -(TriComputeFaceNormal_rnd rnd (VEC3_NORMALIZE_rnd rnd root) vert0 vert1 vert2).y,
          -(TriComputeFaceNormal_rnd rnd (VEC3_NORMALIZE_rnd rnd root) vert0 vert1
            vert2).z⟩) := by
  refine ⟨?_, fun rnd root hodd => face_normal_rnd_swap rnd root hodd vert0 vert1 vert2⟩
  obtain ⟨-, hsq⟩ := hs
  have hX : VEC3_DOT (VEC3_CROSS (VEC3_SUB vert1 vert0) (VEC3_SUB vert2 vert0))
      (VEC3_CROSS (VEC3_SUB vert1 vert0) (VEC3_SUB vert2 vert0)) ≠ 0 := by
    intro h
    exact hnd ((cross_eq_zero_iff_onOneLine vert0 vert1 vert2).mp
      ((dot_self_eq_zero _).mp h))
  have hL : sqrt (VEC3_DOT (VEC3_CROSS (VEC3_SUB vert1 vert0) (VEC3_SUB vert2 vert0))
      (VEC3_CROSS (VEC3_SUB vert1 vert0) (VEC3_SUB vert2 vert0))) ≠ 0 := by
    intro h
    rw [h, mul_zero] at hsq
    exact hX hsq.symm
  have hswap : VEC3_DOT (VEC3_CROSS (VEC3_SUB vert2 vert0) (VEC3_SUB vert1 vert0))
      (VEC3_CROSS (VEC3_SUB vert2 vert0) (VEC3_SUB vert1 vert0))
      = VEC3_DOT (VEC3_CROSS (VEC3_SUB vert1 vert0) (VEC3_SUB vert2 vert0))
        (VEC3_CROSS (VEC3_SUB vert1 vert0) (VEC3_SUB vert2 vert0)) :=
    (cross_dot_perm vert0 vert1 vert2).1
  have hN : TriComputeFaceNormal (specNormalize sqrt) vert0 vert1 vert2
      = ⟨(VEC3_CROSS (VEC3_SUB vert1 vert0) (VEC3_SUB vert2 vert0)).x
          / specLen sqrt (VEC3_CROSS (VEC3_SUB vert1 vert0) (VEC3_SUB vert2 vert0)),
        (VEC3_CROSS (VEC3_SUB vert1 vert0) (VEC3_SUB vert2 vert0)).y
          / specLen sqrt (VEC3_CROSS (VEC3_SUB vert1 vert0) (VEC3_SUB vert2 vert0)),
        (VEC3_CROSS (VEC3_SUB vert1 vert0) (VEC3_SUB vert2 vert0)).z
          / specLen sqrt (VEC3_CROSS (VEC3_SUB vert1 vert0) (VEC3_SUB vert2 vert0))⟩ := by
    simp only [TriComputeFaceNormal, specNormalize, specLen, if_neg hL]
  have hN' : TriComputeFaceNormal (specNormalize sqrt) vert0 vert2 vert1
      = ⟨(VEC3_CROSS (VEC3_SUB vert2 vert0) (VEC3_SUB vert1 vert0)).x
          / specLen sqrt (VEC3_CROSS (VEC3_SUB vert1 vert0) (VEC3_SUB vert2 vert0)),
        (VEC3_CROSS (VEC3_SUB vert2 vert0) (VEC3_SUB vert1 vert0)).y
          / specLen sqrt (VEC3_CROSS (VEC3_SUB vert1 vert0) (VEC3_SUB vert2 vert0)),
        (VEC3_CROSS (VEC3_SUB vert2 vert0) (VEC3_SUB vert1 vert0)).z
          / specLen sqrt (VEC3_CROSS (VEC3_SUB vert1 vert0) (VEC3_SUB vert2 vert0))⟩ := by
    simp only [TriComputeFaceNormal, specNormalize, specLen, hswap, if_neg hL]
  rw [hN', hN]
  simp only [specLen] at hsq ⊢
  generalize sqrt (VEC3_DOT (VEC3_CROSS (VEC3_SUB vert1 vert0) (VEC3_SUB vert2 vert0))
      (VEC3_CROSS (VEC3_SUB vert1 vert0) (VEC3_SUB vert2 vert0))) = L at hsq hL ⊢
  simp only [VEC3_DOT, VEC3_CROSS, VEC3_SUB, Vec3.mk.injEq] at hsq ⊢
  refine ⟨trivial, ?_, ?_, ?_, ?_, ?_, ?_⟩
  · field_simp
    linear_combination -hsq
  · field_simp
    ring
  · field_simp
    ring
  · field_simp
    ring
  · field_simp
    ring
  · field_simp
    ring

/-- C13, a run: the face normal of `(0,0,0), (1,0,0), (0,1,0)` is `(0,0,1)`, and with the
last two vertices exchanged `(0,0,-1)`, in exact arithmetic, where the square root of `ℚ`
is exact at 1, and in binary64. -/
theorem tri_face_normal_witness :
    ¬ OnOneLine (K := ℚ) ⟨0, 0, 0⟩ ⟨1, 0, 0⟩ ⟨0, 1, 0⟩ ∧
    TriComputeFaceNormal (specNormalize Rat.sqrt) ⟨0, 0, 0⟩ ⟨1, 0, 0⟩ ⟨0, 1, 0⟩ = ⟨0, 0, 1⟩ ∧
    TriComputeFaceNormal (specNormalize Rat.sqrt) ⟨0, 0, 0⟩ ⟨0, 1, 0⟩ ⟨1, 0, 0⟩
      = ⟨0, 0, -1⟩ ∧
    TriComputeFaceNormal_rnd fl (VEC3_NORMALIZE_rnd fl sqrtDouble)
      ⟨0, 0, 0⟩ ⟨1, 0, 0⟩ ⟨0, 1, 0⟩ = ⟨0, 0, 1⟩ ∧
    TriComputeFaceNormal_rnd fl (VEC3_NORMALIZE_rnd fl sqrtDouble)
      ⟨0, 0, 0⟩ ⟨0, 1, 0⟩ ⟨1, 0, 0⟩ = ⟨0, 0, -1⟩ := by
  have hX : VEC3_DOT (K := ℚ) (VEC3_CROSS (VEC3_SUB ⟨1, 0, 0⟩ ⟨0, 0, 0⟩)
        (VEC3_SUB ⟨0, 1, 0⟩ ⟨0, 0, 0⟩))
      (VEC3_CROSS (VEC3_SUB ⟨1, 0, 0⟩ ⟨0, 0, 0⟩) (VEC3_SUB ⟨0, 1, 0⟩ ⟨0, 0, 0⟩)) = 1 := by
    norm_num [VEC3_DOT, VEC3_CROSS, VEC3_SUB]
  have hnd : ¬ OnOneLine (K := ℚ) ⟨0, 0, 0⟩ ⟨1, 0, 0⟩ ⟨0, 1, 0⟩ := by
    rw [← cross_eq_zero_iff_onOneLine]
    norm_num [VEC3_CROSS, VEC3_SUB]
  obtain ⟨⟨hN, -, -, -, hswap⟩, hround⟩ :=
    tri_face_normal Rat.sqrt ⟨0, 0, 0⟩ ⟨1, 0, 0⟩ ⟨0, 1, 0⟩ hnd
      (by rw [hX, rat_sqrt_one]; norm_num)
  have hval : TriComputeFaceNormal (specNormalize Rat.sqrt) ⟨0, 0, 0⟩ ⟨1, 0, 0⟩ ⟨0, 1, 0⟩
      = ⟨0, 0, 1⟩ := by
    rw [hN, specLen, hX, rat_sqrt_one]
    norm_num [VEC3_CROSS, VEC3_SUB]
  refine ⟨hnd, hval, ?_, face_normal_rnd_unit_triangle, ?_⟩
  · rw [hswap, hval]
    norm_num
  · rw [hround fl sqrtDouble fl_neg, face_normal_rnd_unit_triangle]
    norm_num

/-- C13 as stated fails on the code, in binary64 arithmetic with the binary64 square
root. The vertices `(0,0,0), (1,0,0), (0,1,1)` do not lie on one line; the cross product
of the edges is `(0,-1,1)`, its computed length the binary64 number next to `√2`, and the
normal written is `(0, -a, a)` with `a = 1592262918131443 / 2⁵¹`
(`0.7071067811865475`), which is not of unit length. The vertices
`(0,0,0), (2⁻⁶⁰⁰,0,0), (0,2⁻⁶⁰⁰,0)` do not lie on one line either, and the normal
written is the zero vector. -/
theorem tri_face_normal_refuted :
    (¬ OnOneLine (K := ℚ) ⟨0, 0, 0⟩ ⟨1, 0, 0⟩ ⟨0, 1, 1⟩ ∧
      TriComputeFaceNormal_rnd fl (VEC3_NORMALIZE_rnd fl sqrtDouble)
        ⟨0, 0, 0⟩ ⟨1, 0, 0⟩ ⟨0, 1, 1⟩
        = ⟨0, (-(1592262918131443 / 2251799813685248)), 1592262918131443 / 2251799813685248⟩ ∧
      VEC3_DOT (K := ℚ)
        ⟨0, (-(1592262918131443 / 2251799813685248)), 1592262918131443 / 2251799813685248⟩
        ⟨0, (-(1592262918131443 / 2251799813685248)), 1592262918131443 / 2251799813685248⟩
        ≠ 1) ∧
    (¬ OnOneLine (K := ℚ) ⟨0, 0, 0⟩ ⟨1 / 2 ^ 600, 0, 0⟩ ⟨0, 1 / 2 ^ 600, 0⟩ ∧
      TriComputeFaceNormal_rnd fl (VEC3_NORMALIZE_rnd fl sqrtDouble)
        ⟨0, 0, 0⟩ ⟨1 / 2 ^ 600, 0, 0⟩ ⟨0, 1 / 2 ^ 600, 0⟩ = ⟨0, 0, 0⟩ ∧
      VEC3_DOT (K := ℚ) ⟨0, 0, 0⟩ ⟨0, 0, 0⟩ ≠ 1) := by
  refine ⟨⟨?_, face_normal_rnd_diagonal, ?_⟩, ?_, face_normal_rnd_underflow, ?_⟩
  · rw [← cross_eq_zero_iff_onOneLine]
    norm_num [VEC3_CROSS, VEC3_SUB]
  · norm_num [VEC3_DOT]
  · rw [← cross_eq_zero_iff_onOneLine]
    norm_num [VEC3_CROSS, VEC3_SUB]
  · norm_num [VEC3_DOT]

/-- C14, amended: in exact arithmetic `TriComputeNormal` is the blend
`(1 - u - v) * N0 + u * N1 + v * N2`, component by component, not normalised: the weights
`(0,0)`, `(1,0)`, `(0,1)` give `N0`, `N1`, `N2`, three equal normals give that normal for
every `(u, v)`, and the unit normals `(1,0,0)`, `(0,1,0)`, `(0,0,1)` blended at
`u = v = 1/3` give a vector of squared length `1/3`, shorter than 1. Under every rounding
of the arithmetic that leaves 0, 1 and the components of the three normals as they are,
so in binary64 for normals of binary64 numbers, the weights `(0,0)`, `(1,0)`, `(0,1)`
still give `N0`, `N1`, `N2`. -/
theorem tri_normal_blend :
    ((∀ (N0 N1 N2 : Vec3 K) (u v : K),
      TriComputeNormal N0 N1 N2 u v =
        ⟨(1 - u - v) * N0.x + u * N1.x + v * N2.x, (1 - u - v) * N0.y + u * N1.y + v * N2.y,
          (1 - u - v) * N0.z + u * N1.z + v * N2.z⟩) ∧
    (∀ N0 N1 N2 : Vec3 K, TriComputeNormal N0 N1 N2 0 0 = N0 ∧
      TriComputeNormal N0 N1 N2 1 0 = N1 ∧ TriComputeNormal N0 N1 N2 0 1 = N2) ∧
    (∀ (N : Vec3 K) (u v : K), TriComputeNormal N N N u v = N) ∧
    (VEC3_DOT (⟨1, 0, 0⟩ : Vec3 K) ⟨1, 0, 0⟩ = 1 ∧ VEC3_DOT (⟨0, 1, 0⟩ : Vec3 K) ⟨0, 1, 0⟩ = 1 ∧
      VEC3_DOT (⟨0, 0, 1⟩ : Vec3 K) ⟨0, 0, 1⟩ = 1 ∧
      (0 : K) ≤ 1 / 3 ∧ (1 / 3 : K) + 1 / 3 ≤ 1 ∧
      TriComputeNormal (⟨1, 0, 0⟩ : Vec3 K) ⟨0, 1, 0⟩ ⟨0, 0, 1⟩ (1 / 3) (1 / 3)
        = ⟨1 / 3, 1 / 3, 1 / 3⟩ ∧
      VEC3_DOT (TriComputeNormal (⟨1, 0, 0⟩ : Vec3 K) ⟨0, 1, 0⟩ ⟨0, 0, 1⟩ (1 / 3) (1 / 3))
        (TriComputeNormal (⟨1, 0, 0⟩ : Vec3 K) ⟨0, 1, 0⟩ ⟨0, 0, 1⟩ (1 / 3) (1 / 3)) < 1)) ∧
    (∀ (rnd : K → K) (N0 N1 N2 : Vec3 K), rnd 0 = 0 → rnd 1 = 1 →
      rnd N0.x = N0.x ∧ rnd N0.y = N0.y ∧ rnd N0.z = N0.z →
      rnd N1.x = N1.x ∧ rnd N1.y = N1.y ∧ rnd N1.z = N1.z →
      rnd N2.x = N2.x ∧ rnd N2.y = N2.y ∧ rnd N2.z = N2.z →
      TriComputeNormal_rnd rnd N0 N1 N2 0 0 = N0 ∧
      TriComputeNormal_rnd rnd N0 N1 N2 1 0 = N1 ∧
      TriComputeNormal_rnd rnd N0 N1 N2 0 1 = N2) := by
  refine ⟨⟨fun _ _ _ _ _ => rfl, ?_, ?_, ?_⟩,
    fun rnd N0 N1 N2 h0 h1 hN0 hN1 hN2 => normal_rnd_corners rnd N0 N1 N2 h0 h1 hN0 hN1 hN2⟩
  · intro N0 N1 N2
    obtain ⟨x0, y0, z0⟩ := N0
    obtain ⟨x1, y1, z1⟩ := N1
    obtain ⟨x2, y2, z2⟩ := N2
    simp [TriComputeNormal]
  · intro N u v
    obtain ⟨x, y, z⟩ := N
    simp only [TriComputeNormal, Vec3.mk.injEq]
    refine ⟨by ring, by ring, by ring⟩
  · norm_num [TriComputeNormal, VEC3_DOT]

/-- C14, a run in binary64: 0 and 1 are binary64 numbers, and with the normals `(1,0,0)`,
`(0,1,0)`, `(0,0,1)` the weights `(0,0)`, `(1,0)`, `(0,1)` give the three normals as they
are. -/
theorem tri_normal_blend_witness :
    fl 0 = 0 ∧ fl 1 = 1 ∧
    TriComputeNormal_rnd fl ⟨1, 0, 0⟩ ⟨0, 1, 0⟩ ⟨0, 0, 1⟩ 0 0 = ⟨1, 0, 0⟩ ∧
    TriComputeNormal_rnd fl ⟨1, 0, 0⟩ ⟨0, 1, 0⟩ ⟨0, 0, 1⟩ 1 0 = ⟨0, 1, 0⟩ ∧
    TriComputeNormal_rnd fl ⟨1, 0, 0⟩ ⟨0, 1, 0⟩ ⟨0, 0, 1⟩ 0 1 = ⟨0, 0, 1⟩ :=
  have h1 : fl 1 = 1 := fl_value_1 1 rfl
  ⟨fl_zero, h1,
    (tri_normal_blend (K := ℚ)).2 fl ⟨1, 0, 0⟩ ⟨0, 1, 0⟩ ⟨0, 0, 1⟩ fl_zero h1
      ⟨h1, fl_zero, fl_zero⟩ ⟨fl_zero, h1, fl_zero⟩ ⟨fl_zero, fl_zero, h1⟩⟩

/-- C14 as stated fails on the code, in binary64 arithmetic: with the three normals equal
to `N = (0.1, 0.2, 0.3)` and `u = v = 0.3`, these being the binary64 numbers of these
names, the third component written is `2702159776422297 / 2⁵³`
(`0.29999999999999993`), not that of `N`: the result is not `N`, which is the blend
`(1 - u - v) * N + u * N + v * N`. -/
theorem tri_normal_blend_refuted :
    TriComputeNormal_rnd fl
        ⟨3602879701896397 / 36028797018963968, 3602879701896397 / 18014398509481984, 5404319552844595 / 18014398509481984⟩
        ⟨3602879701896397 / 36028797018963968, 3602879701896397 / 18014398509481984, 5404319552844595 / 18014398509481984⟩
        ⟨3602879701896397 / 36028797018963968, 3602879701896397 / 18014398509481984, 5404319552844595 / 18014398509481984⟩
        (5404319552844595 / 18014398509481984) (5404319552844595 / 18014398509481984)
      = ⟨3602879701896397 / 36028797018963968, 3602879701896397 / 18014398509481984, 2702159776422297 / 9007199254740992⟩ ∧
    TriComputeNormal_rnd fl
        ⟨3602879701896397 / 36028797018963968, 3602879701896397 / 18014398509481984, 5404319552844595 / 18014398509481984⟩
        ⟨3602879701896397 / 36028797018963968, 3602879701896397 / 18014398509481984, 5404319552844595 / 18014398509481984⟩
        ⟨3602879701896397 / 36028797018963968, 3602879701896397 / 18014398509481984, 5404319552844595 / 18014398509481984⟩
        (5404319552844595 / 18014398509481984) (5404319552844595 / 18014398509481984)
      ≠ ⟨3602879701896397 / 36028797018963968, 3602879701896397 / 18014398509481984, 5404319552844595 / 18014398509481984⟩ ∧
    TriComputeNormal (K := ℚ)
        ⟨3602879701896397 / 36028797018963968, 3602879701896397 / 18014398509481984, 5404319552844595 / 18014398509481984⟩
        ⟨3602879701896397 / 36028797018963968, 3602879701896397 / 18014398509481984, 5404319552844595 / 18014398509481984⟩
        ⟨3602879701896397 / 36028797018963968, 3602879701896397 / 18014398509481984, 5404319552844595 / 18014398509481984⟩
        (5404319552844595 / 18014398509481984) (5404319552844595 / 18014398509481984)
      = ⟨3602879701896397 / 36028797018963968, 3602879701896397 / 18014398509481984, 5404319552844595 / 18014398509481984⟩ := by
  refine ⟨normal_rnd_equal_normals, ?_, ?_⟩
  · rw [normal_rnd_equal_normals]
    norm_num
  · norm_num [TriComputeNormal]

/-! ## The two branches of `TriRayIntersect` compared -/

/-- C15: on a ray with `det ≥ EPSILON` the culling branch returns what the non-culling
branch returns, and on a hit the two write the same `t`, `u`, `v`. -/
theorem tri_culling_refines (vert0 vert1 vert2 orig dir : Vec3 K) (cull_backfaces : Int)
    (t u v : K) (hc : cull_backfaces ≠ 0)
    (hdet : EPSILON ≤ triDet vert0 vert1 vert2 dir) :
    (TriRayIntersect vert0 vert1 vert2 orig dir cull_backfaces t u v).ret
      = (TriRayIntersect vert0 vert1 vert2 orig dir 0 t u v).ret ∧
    ((TriRayIntersect vert0 vert1 vert2 orig dir cull_backfaces t u v).ret = 1 →
      (TriRayIntersect vert0 vert1 vert2 orig dir cull_backfaces t u v).t
        = (TriRayIntersect vert0 vert1 vert2 orig dir 0 t u v).t ∧
      (TriRayIntersect vert0 vert1 vert2 orig dir cull_backfaces t u v).u
        = (TriRayIntersect vert0 vert1 vert2 orig dir 0 t u v).u ∧
      (TriRayIntersect vert0 vert1 vert2 orig dir cull_backfaces t u v).v
        = (TriRayIntersect vert0 vert1 vert2 orig dir 0 t u v).v) := by
  have he : (0 : K) < EPSILON := EPSILON_pos
  have hD : 0 < triDet vert0 vert1 vert2 dir := lt_of_lt_of_le he hdet
  have h1 : ¬ triDet vert0 vert1 vert2 dir < EPSILON := not_lt.mpr hdet
  have h1' : ¬ (triDet vert0 vert1 vert2 dir > -EPSILON
      ∧ triDet vert0 vert1 vert2 dir < EPSILON) := fun h => h1 h.2
  have hz : ¬ ((0 : Int) ≠ 0) := fun h => h rfl
  rw [TriRayIntersect_eq vert0 vert1 vert2 orig dir cull_backfaces,
    TriRayIntersect_eq vert0 vert1 vert2 orig dir 0, if_pos hc, if_neg h1, if_neg hz,
    if_neg h1']
  generalize triDet vert0 vert1 vert2 dir = D at hD
  generalize triU vert0 vert2 orig dir = U
  generalize triV vert0 vert1 orig dir = V
  generalize triT vert0 vert1 vert2 orig = T
  have eU : U * (1 / D) < 0 ∨ U * (1 / D) > 1 ↔ U < 0 ∨ U > D := by
    rw [mul_one_div, div_lt_iff₀ hD, gt_iff_lt, lt_div_iff₀ hD, zero_mul, one_mul]
  have eV : V * (1 / D) < 0 ∨ U * (1 / D) + V * (1 / D) > 1 ↔ V < 0 ∨ U + V > D := by
    rw [← add_mul, mul_one_div, mul_one_div, div_lt_iff₀ hD, gt_iff_lt, lt_div_iff₀ hD,
      zero_mul, one_mul]
  by_cases hu : U < 0 ∨ U > D
  · rw [if_pos hu, if_pos (eU.mpr hu)]
    simp
  · rw [if_neg hu, if_neg (fun h => hu (eU.mp h))]
    by_cases hv : V < 0 ∨ U + V > D
    · rw [if_pos hv, if_pos (eV.mpr hv)]
      simp
    · rw [if_neg hv, if_neg (fun h => hv (eV.mp h))]
      simp

/-- C15, a run: the triangle `(0,0,0), (2,0,0), (0,2,0)` and the ray from `(1/2,1/2,3)`
along `(0,0,-1)` have `det = 4`; both branches return 1 with `t = 3`, `u = v = 1/4`. -/
theorem tri_culling_refines_witness :
    EPSILON ≤ triDet (K := ℚ) ⟨0, 0, 0⟩ ⟨2, 0, 0⟩ ⟨0, 2, 0⟩ ⟨0, 0, -1⟩ ∧
    (TriRayIntersect (K := ℚ) ⟨0, 0, 0⟩ ⟨2, 0, 0⟩ ⟨0, 2, 0⟩ ⟨1/2, 1/2, 3⟩ ⟨0, 0, -1⟩ 1
        0 0 0).ret = 1 ∧
    (TriRayIntersect (K := ℚ) ⟨0, 0, 0⟩ ⟨2, 0, 0⟩ ⟨0, 2, 0⟩ ⟨1/2, 1/2, 3⟩ ⟨0, 0, -1⟩ 1
        0 0 0).t = 3 ∧
    (TriRayIntersect (K := ℚ) ⟨0, 0, 0⟩ ⟨2, 0, 0⟩ ⟨0, 2, 0⟩ ⟨1/2, 1/2, 3⟩ ⟨0, 0, -1⟩ 1
        0 0 0).u = 1/4 ∧
    (TriRayIntersect (K := ℚ) ⟨0, 0, 0⟩ ⟨2, 0, 0⟩ ⟨0, 2, 0⟩ ⟨1/2, 1/2, 3⟩ ⟨0, 0, -1⟩ 1
        0 0 0).v = 1/4 ∧
    (TriRayIntersect (K := ℚ) ⟨0, 0, 0⟩ ⟨2, 0, 0⟩ ⟨0, 2, 0⟩ ⟨1/2, 1/2, 3⟩ ⟨0, 0, -1⟩ 0
        0 0 0).ret = 1 ∧
    (TriRayIntersect (K := ℚ) ⟨0, 0, 0⟩ ⟨2, 0, 0⟩ ⟨0, 2, 0⟩ ⟨1/2, 1/2, 3⟩ ⟨0, 0, -1⟩ 0
        0 0 0).t = 3 ∧
    (TriRayIntersect (K := ℚ) ⟨0, 0, 0⟩ ⟨2, 0, 0⟩ ⟨0, 2, 0⟩ ⟨1/2, 1/2, 3⟩ ⟨0, 0, -1⟩ 0
        0 0 0).u = 1/4 ∧
    (TriRayIntersect (K := ℚ) ⟨0, 0, 0⟩ ⟨2, 0, 0⟩ ⟨0, 2, 0⟩ ⟨1/2, 1/2, 3⟩ ⟨0, 0, -1⟩ 0
        0 0 0).v = 1/4 := by
  have hdet : EPSILON ≤ triDet (K := ℚ) ⟨0, 0, 0⟩ ⟨2, 0, 0⟩ ⟨0, 2, 0⟩ ⟨0, 0, -1⟩ := by
    norm_num [triDet, VEC3_SUB, VEC3_CROSS, VEC3_DOT, EPSILON]
  obtain ⟨hret, hval⟩ := tri_culling_refines (K := ℚ) ⟨0, 0, 0⟩ ⟨2, 0, 0⟩ ⟨0, 2, 0⟩
    ⟨1/2, 1/2, 3⟩ ⟨0, 0, -1⟩ 1 0 0 0 (by decide) hdet
  have h1 : (TriRayIntersect (K := ℚ) ⟨0, 0, 0⟩ ⟨2, 0, 0⟩ ⟨0, 2, 0⟩ ⟨1/2, 1/2, 3⟩
      ⟨0, 0, -1⟩ 1 0 0 0).ret = 1 := by
    norm_num [TriRayIntersect, VEC3_SUB, VEC3_CROSS, VEC3_DOT, EPSILON]
  have ht : (TriRayIntersect (K := ℚ) ⟨0, 0, 0⟩ ⟨2, 0, 0⟩ ⟨0, 2, 0⟩ ⟨1/2, 1/2, 3⟩
      ⟨0, 0, -1⟩ 1 0 0 0).t = 3 := by
    norm_num [TriRayIntersect, VEC3_SUB, VEC3_CROSS, VEC3_DOT, EPSILON]
  have hu : (TriRayIntersect (K := ℚ) ⟨0, 0, 0⟩ ⟨2, 0, 0⟩ ⟨0, 2, 0⟩ ⟨1/2, 1/2, 3⟩
      ⟨0, 0, -1⟩ 1 0 0 0).u = 1/4 := by
    norm_num [TriRayIntersect, VEC3_SUB, VEC3_CROSS, VEC3_DOT, EPSILON]
  have hv : (TriRayIntersect (K := ℚ) ⟨0, 0, 0⟩ ⟨2, 0, 0⟩ ⟨0, 2, 0⟩ ⟨1/2, 1/2, 3⟩
      ⟨0, 0, -1⟩ 1 0 0 0).v = 1/4 := by
    norm_num [TriRayIntersect, VEC3_SUB, VEC3_CROSS, VEC3_DOT, EPSILON]
  obtain ⟨et, eu, ev⟩ := hval h1
  exact ⟨hdet, h1, ht, hu, hv, hret ▸ h1, et ▸ ht, eu ▸ hu, ev ▸ hv⟩

/-- C19: a call of `TriRayIntersect` that returns 0 leaves `*t` as it found it, in either
mode. -/
theorem tri_miss_keeps_t (vert0 vert1 vert2 orig dir : Vec3 K) (cull_backfaces : Int)
    (t u v : K)
    (h : (TriRayIntersect vert0 vert1 vert2 orig dir cull_backfaces t u v).ret = 0) :
    (TriRayIntersect vert0 vert1 vert2 orig dir cull_backfaces t u v).t = t := by
  revert h
  rw [TriRayIntersect_eq]
  split_ifs <;> simp

/-- C19, a run: the culling test of the triangle `(0,0,0), (2,0,0), (0,2,0)` (`det = 4`)
with the ray from `(5,5,1)` along `(0,0,-1)` returns 0 on the test of `u`; `*t` keeps its
value 7, `*u` holds the un-normalised 10 (not `10 / 4`) in place of its 8, and `*v`, not
yet written, keeps its 9. From `(1/2,5,1)` the call returns 0 on the test of `v`: `*t`
keeps 7, `*u` and `*v` hold the un-normalised 1 and 10. -/
theorem tri_miss_keeps_t_witness :
    (TriRayIntersect (K := ℚ) ⟨0, 0, 0⟩ ⟨2, 0, 0⟩ ⟨0, 2, 0⟩ ⟨5, 5, 1⟩ ⟨0, 0, -1⟩ 1
        7 8 9).ret = 0 ∧
    (TriRayIntersect (K := ℚ) ⟨0, 0, 0⟩ ⟨2, 0, 0⟩ ⟨0, 2, 0⟩ ⟨5, 5, 1⟩ ⟨0, 0, -1⟩ 1
        7 8 9).t = 7 ∧
    (TriRayIntersect (K := ℚ) ⟨0, 0, 0⟩ ⟨2, 0, 0⟩ ⟨0, 2, 0⟩ ⟨5, 5, 1⟩ ⟨0, 0, -1⟩ 1
        7 8 9).u = 10 ∧
    (TriRayIntersect (K := ℚ) ⟨0, 0, 0⟩ ⟨2, 0, 0⟩ ⟨0, 2, 0⟩ ⟨5, 5, 1⟩ ⟨0, 0, -1⟩ 1
        7 8 9).v = 9 ∧
    (TriRayIntersect (K := ℚ) ⟨0, 0, 0⟩ ⟨2, 0, 0⟩ ⟨0, 2, 0⟩ ⟨1/2, 5, 1⟩ ⟨0, 0, -1⟩ 1
        7 8 9).ret = 0 ∧
    (TriRayIntersect (K := ℚ) ⟨0, 0, 0⟩ ⟨2, 0, 0⟩ ⟨0, 2, 0⟩ ⟨1/2, 5, 1⟩ ⟨0, 0, -1⟩ 1
        7 8 9).t = 7 ∧
    (TriRayIntersect (K := ℚ) ⟨0, 0, 0⟩ ⟨2, 0, 0⟩ ⟨0, 2, 0⟩ ⟨1/2, 5, 1⟩ ⟨0, 0, -1⟩ 1
        7 8 9).u = 1 ∧
    (TriRayIntersect (K := ℚ) ⟨0, 0, 0⟩ ⟨2, 0, 0⟩ ⟨0, 2, 0⟩ ⟨1/2, 5, 1⟩ ⟨0, 0, -1⟩ 1
        7 8 9).v = 10 := by
  have h0 : (TriRayIntersect (K := ℚ) ⟨0, 0, 0⟩ ⟨2, 0, 0⟩ ⟨0, 2, 0⟩ ⟨5, 5, 1⟩ ⟨0, 0, -1⟩ 1
      7 8 9).ret = 0 := by
    norm_num [TriRayIntersect, VEC3_SUB, VEC3_CROSS, VEC3_DOT, EPSILON]
  have h1 : (TriRayIntersect (K := ℚ) ⟨0, 0, 0⟩ ⟨2, 0, 0⟩ ⟨0, 2, 0⟩ ⟨1/2, 5, 1⟩ ⟨0, 0, -1⟩ 1
      7 8 9).ret = 0 := by
    norm_num [TriRayIntersect, VEC3_SUB, VEC3_CROSS, VEC3_DOT, EPSILON]
  refine ⟨h0, tri_miss_keeps_t (K := ℚ) ⟨0, 0, 0⟩ ⟨2, 0, 0⟩ ⟨0, 2, 0⟩ ⟨5, 5, 1⟩
    ⟨0, 0, -1⟩ 1 7 8 9 h0, ?_, ?_, h1,
    tri_miss_keeps_t (K := ℚ) ⟨0, 0, 0⟩ ⟨2, 0, 0⟩ ⟨0, 2, 0⟩ ⟨1/2, 5, 1⟩
      ⟨0, 0, -1⟩ 1 7 8 9 h1, ?_, ?_⟩ <;>
    norm_num [TriRayIntersect, VEC3_SUB, VEC3_CROSS, VEC3_DOT, EPSILON]

/-- C20: the triangle `(0,0,0), (1,0,0), (0,1,0)` lies behind the origin `(1/4,1/4,-1)` of a
ray along `(0,0,-1)`; with and without culling `TriRayIntersect` returns 1, with `t = -1`
and `u = v = 1/4`. -/
theorem tri_hit_behind_origin :
    (TriRayIntersect (K := ℚ) ⟨0, 0, 0⟩ ⟨1, 0, 0⟩ ⟨0, 1, 0⟩ ⟨1/4, 1/4, -1⟩ ⟨0, 0, -1⟩ 1
        0 0 0).ret = 1 ∧
    (TriRayIntersect (K := ℚ) ⟨0, 0, 0⟩ ⟨1, 0, 0⟩ ⟨0, 1, 0⟩ ⟨1/4, 1/4, -1⟩ ⟨0, 0, -1⟩ 1
        0 0 0).t = -1 ∧
    (TriRayIntersect (K := ℚ) ⟨0, 0, 0⟩ ⟨1, 0, 0⟩ ⟨0, 1, 0⟩ ⟨1/4, 1/4, -1⟩ ⟨0, 0, -1⟩ 1
        0 0 0).u = 1/4 ∧
    (TriRayIntersect (K := ℚ) ⟨0, 0, 0⟩ ⟨1, 0, 0⟩ ⟨0, 1, 0⟩ ⟨1/4, 1/4, -1⟩ ⟨0, 0, -1⟩ 1
        0 0 0).v = 1/4 ∧
    (TriRayIntersect (K := ℚ) ⟨0, 0, 0⟩ ⟨1, 0, 0⟩ ⟨0, 1, 0⟩ ⟨1/4, 1/4, -1⟩ ⟨0, 0, -1⟩ 0
        0 0 0).ret = 1 ∧
    (TriRayIntersect (K := ℚ) ⟨0, 0, 0⟩ ⟨1, 0, 0⟩ ⟨0, 1, 0⟩ ⟨1/4, 1/4, -1⟩ ⟨0, 0, -1⟩ 0
        0 0 0).t = -1 ∧
    (TriRayIntersect (K := ℚ) ⟨0, 0, 0⟩ ⟨1, 0, 0⟩ ⟨0, 1, 0⟩ ⟨1/4, 1/4, -1⟩ ⟨0, 0, -1⟩ 0
        0 0 0).u = 1/4 ∧
    (TriRayIntersect (K := ℚ) ⟨0, 0, 0⟩ ⟨1, 0, 0⟩ ⟨0, 1, 0⟩ ⟨1/4, 1/4, -1⟩ ⟨0, 0, -1⟩ 0
        0 0 0).v = 1/4 := by
  refine ⟨?_, ?_, ?_, ?_, ?_, ?_, ?_, ?_⟩ <;>
    norm_num [TriRayIntersect, VEC3_SUB, VEC3_CROSS, VEC3_DOT, EPSILON]

/-! ## The loops of `merge_sampled_bounds` -/

/-- The bounds `merge_sampled_bounds` leaves: the union, over the translate samples, of the
box `rotationBounds` under the transform of translate sample `i`, rotate sample `i` and
the vector `maxScaleLoop` computes. -/
lemma merge_sampled_bounds_loop (E : Env K) (obj : ObjectInstance K) :
    (merge_sampled_bounds E obj).bounds =
      (List.range obj.transform_samples.translate.sample_count).foldl
        (fun merged_bounds i => E.BoxAddBox merged_bounds
          (E.XfmTransformBounds
            (E.XfmSetTransform obj.transform_samples.transform_order
              obj.transform_samples.rotate_order
              (obj.transform_samples.translate.samples i).vector
              (obj.transform_samples.rotate.samples i).vector
              (maxScaleLoop obj.transform_samples.scale))
            (rotationBounds E obj)))
        emptyBox :=
  rfl

/-- The logged accumulation loop carries the bounds of the plain loop and the list of the
indices it has passed. -/
lemma logged_fold (f : Box K → Nat → Box K) (l : List Nat) (b : Box K) (log : List Nat) :
    l.foldl (fun (logged : Box K × List Nat) i => (f logged.1 i, logged.2 ++ [i])) (b, log)
      = (l.foldl f b, log ++ l) := by
  induction l generalizing b log with
  | nil => simp
  | cons i l ih => simp [List.foldl_cons, ih]

/-- The logged `merge_sampled_bounds` leaves the instance `merge_sampled_bounds` leaves, and
its log is the list of the translate indices. -/
lemma merge_sampled_bounds_logged_eq (E : Env K) (obj : ObjectInstance K) :
    merge_sampled_bounds_logged E obj
      = (merge_sampled_bounds E obj,
          List.range obj.transform_samples.translate.sample_count) := by
  have h := logged_fold
    (fun merged_bounds i => E.BoxAddBox merged_bounds
      (E.XfmTransformBounds
        (E.XfmSetTransform obj.transform_samples.transform_order
          obj.transform_samples.rotate_order
          (obj.transform_samples.translate.samples i).vector
          (obj.transform_samples.rotate.samples i).vector
          (maxScaleLoop obj.transform_samples.scale))
        (rotationBounds E obj)))
    (List.range obj.transform_samples.translate.sample_count) emptyBox []
  have h1 : (merge_sampled_bounds_logged E obj).1 = merge_sampled_bounds E obj :=
    congrArg (fun p : Box K × List Nat => ({ obj with bounds := p.1 } : ObjectInstance K)) h
  have h2 : (merge_sampled_bounds_logged E obj).2
      = List.range obj.transform_samples.translate.sample_count :=
    (congrArg Prod.snd h).trans (List.nil_append _)
  exact Prod.ext h1 h2

/-- The maximum of a value `f 0` and the values `f 1 … f (n - 1)`, folded as the max-scale
loop folds them, bounds every `f i` with `i < n` and is one of them. -/
lemma foldr_max_index (f : Nat → K) (n : Nat) (h : 0 < n) :
    (∀ i < n, f i ≤ ((List.range' 1 (n - 1)).map f).foldr max (f 0)) ∧
    ∃ i < n, ((List.range' 1 (n - 1)).map f).foldr max (f 0) = f i := by
  have gen : ∀ (l : List Nat) (a : K),
      (a ≤ (l.map f).foldr max a ∧ ∀ i ∈ l, f i ≤ (l.map f).foldr max a) ∧
      ((l.map f).foldr max a = a ∨ ∃ i ∈ l, (l.map f).foldr max a = f i) := by
    intro l a
    induction l with
    | nil => simp
    | cons j l ih =>
      obtain ⟨⟨ha, hall⟩, hex⟩ := ih
      simp only [List.map_cons, List.foldr_cons, List.mem_cons, forall_eq_or_imp,
        exists_eq_or_imp]
      refine ⟨⟨le_max_of_le_right ha, le_max_left _ _,
        fun i hi => le_max_of_le_right (hall i hi)⟩, ?_⟩
      rcases le_total (f j) ((l.map f).foldr max a) with hle | hle
      · rw [max_eq_right hle]
        rcases hex with he | ⟨i, hi, he⟩
        · exact Or.inl he
        · exact Or.inr (Or.inr ⟨i, hi, he⟩)
      · rw [max_eq_left hle]
        exact Or.inr (Or.inl rfl)
  obtain ⟨⟨ha, hall⟩, hex⟩ := gen (List.range' 1 (n - 1)) (f 0)
  constructor
  · intro i hi
    rcases Nat.eq_zero_or_pos i with h0 | hpos
    · rw [h0]; exact ha
    · exact hall i (List.mem_range'_1.mpr ⟨hpos, by omega⟩)
  · rcases hex with he | ⟨i, hi, he⟩
    · exact ⟨0, h, he⟩
    · exact ⟨i, by have := (List.mem_range'_1.mp hi).2; omega, he⟩

/-- The components of what the max-scale loop leaves, as folds over the sample indices. -/
lemma maxScaleLoop_components (scale : PropertySampleList K) :
    (maxScaleLoop scale).x
      = ((List.range' 1 (scale.sample_count - 1)).map
          (fun i => (scale.samples i).vector.x)).foldr max (scale.samples 0).vector.x ∧
    (maxScaleLoop scale).y
      = ((List.range' 1 (scale.sample_count - 1)).map
          (fun i => (scale.samples i).vector.y)).foldr max (scale.samples 0).vector.y ∧
    (maxScaleLoop scale).z
      = ((List.range' 1 (scale.sample_count - 1)).map
          (fun i => (scale.samples i).vector.z)).foldr max (scale.samples 0).vector.z := by
  unfold maxScaleLoop
  rw [maxLoop_fold (fun i => (scale.samples i).vector)]
  simp only [List.map_map]
  exact ⟨rfl, rfl, rfl⟩

/-- C16 (fails on the code): a fresh instance holds one sample per property;
`ObjSetTranslate` at time 1 gives it a second translate sample and no second rotate sample.
The accumulation loop of `merge_sampled_bounds` then pairs the samples by index over the
translate indices 0 and 1, and so reads `rotate.samples[1]`, an index that is not below the
rotate `sample_count` 1. -/
theorem merge_reads_rotate_beyond_count :
    ∃ s, created runEnv zeroMemory (some 1) [.SetTranslate 1 0 0 1] = some s ∧
      s.transform_samples.translate.sample_count = 2 ∧
      s.transform_samples.rotate.sample_count = 1 ∧
      (merge_sampled_bounds_logged runEnv s).1 = merge_sampled_bounds runEnv s ∧
      (merge_sampled_bounds_logged runEnv s).2 = [0, 1] ∧
      ¬ ∀ i ∈ (merge_sampled_bounds_logged runEnv s).2,
          i < s.transform_samples.rotate.sample_count := by
  refine ⟨_, rfl, rfl, rfl, ?_, ?_, ?_⟩
  · rw [merge_sampled_bounds_logged_eq]
  · rw [merge_sampled_bounds_logged_eq]
    rfl
  · rw [merge_sampled_bounds_logged_eq]
    intro h
    exact absurd (h 1 (by decide)) (by decide)

/-- C17: on a scale sequence holding a sample, the vector `S` the max-scale loop leaves,
which `merge_sampled_bounds` hands to every per-sample transform, is on each axis at
least the component of every scale sample and equal to the component of one of them. -/
theorem max_scale_per_axis (E : Env K) (obj : ObjectInstance K)
    (h : 0 < obj.transform_samples.scale.sample_count) :
    (merge_sampled_bounds E obj).bounds =
      (List.range obj.transform_samples.translate.sample_count).foldl
        (fun merged_bounds i => E.BoxAddBox merged_bounds
          (E.XfmTransformBounds
            (E.XfmSetTransform obj.transform_samples.transform_order
              obj.transform_samples.rotate_order
              (obj.transform_samples.translate.samples i).vector
              (obj.transform_samples.rotate.samples i).vector
              (maxScaleLoop obj.transform_samples.scale))
            (rotationBounds E obj)))
        emptyBox ∧
    (∀ i < obj.transform_samples.scale.sample_count,
      (obj.transform_samples.scale.samples i).vector.x
          ≤ (maxScaleLoop obj.transform_samples.scale).x ∧
      (obj.transform_samples.scale.samples i).vector.y
          ≤ (maxScaleLoop obj.transform_samples.scale).y ∧
      (obj.transform_samples.scale.samples i).vector.z
          ≤ (maxScaleLoop obj.transform_samples.scale).z) ∧
    (∃ i < obj.transform_samples.scale.sample_count,
      (maxScaleLoop obj.transform_samples.scale).x
        = (obj.transform_samples.scale.samples i).vector.x) ∧
    (∃ i < obj.transform_samples.scale.sample_count,
      (maxScaleLoop obj.transform_samples.scale).y
        = (obj.transform_samples.scale.samples i).vector.y) ∧
    (∃ i < obj.transform_samples.scale.sample_count,
      (maxScaleLoop obj.transform_samples.scale).z
        = (obj.transform_samples.scale.samples i).vector.z) := by
  obtain ⟨ex, ey, ez⟩ := maxScaleLoop_components obj.transform_samples.scale
  obtain ⟨hx, mx⟩ := foldr_max_index
    (fun i => (obj.transform_samples.scale.samples i).vector.x) _ h
  obtain ⟨hy, my⟩ := foldr_max_index
    (fun i => (obj.transform_samples.scale.samples i).vector.y) _ h
  obtain ⟨hz, mz⟩ := foldr_max_index
    (fun i => (obj.transform_samples.scale.samples i).vector.z) _ h
  rw [ex, ey, ez]
  exact ⟨merge_sampled_bounds_loop E obj, fun i hi => ⟨hx i hi, hy i hi, hz i hi⟩,
    mx, my, mz⟩

/-- C17, a run: for the scale samples `(-3, 1, 1)` and `(2, 1, 1)` the loop leaves
`(2, 1, 1)`: on the first axis the signed maximum 2, not the largest magnitude 3. -/
theorem max_scale_per_axis_witness :
    0 < ({ restingSurface with transform_samples :=
        { (restPose : TransformSampleList ℚ) with scale := mirrorScale } }
        : ObjectInstance ℚ).transform_samples.scale.sample_count ∧
    (maxScaleLoop mirrorScale).x = 2 ∧ (maxScaleLoop mirrorScale).y = 1 ∧
    (maxScaleLoop mirrorScale).z = 1 ∧
    (∀ i < mirrorScale.sample_count,
      (mirrorScale.samples i).vector.x ≤ (maxScaleLoop mirrorScale).x) := by
  have hpos : 0 < ({ restingSurface with transform_samples :=
      { (restPose : TransformSampleList ℚ) with scale := mirrorScale } }
      : ObjectInstance ℚ).transform_samples.scale.sample_count := Nat.zero_lt_succ 1
  have r11 : List.range' 1 1 = [1] := rfl
  obtain ⟨-, hall, -, -, -⟩ := max_scale_per_axis runEnv
    ({ restingSurface with transform_samples :=
      { (restPose : TransformSampleList ℚ) with scale := mirrorScale } }) hpos
  refine ⟨hpos, ?_, ?_, ?_, fun i hi => (hall i hi).1⟩ <;>
    simp only [maxScaleLoop, mirrorScale, r11, List.foldl_cons, List.foldl_nil] <;>
    norm_num [MAX]

/-- C18: with more than one rotate sample the box `merge_sampled_bounds` hands to the
per-sample transforms is the cube of half-extent `BoxDiagonal` about `BoxCentroid` of the
bounds it finds, and with at most one it is those bounds unchanged. When `BoxCentroid` is
the centre of the box and `BoxDiagonal` half the length of its diagonal (`sqrt` being the
non-negative square root of the squared diagonal), the cube contains every box with
`min ≤ max` on each axis. -/
theorem rotation_expands_to_cube (E : Env K) (obj : ObjectInstance K) :
    (merge_sampled_bounds E obj).bounds =
      (List.range obj.transform_samples.translate.sample_count).foldl
        (fun merged_bounds i => E.BoxAddBox merged_bounds
          (E.XfmTransformBounds
            (E.XfmSetTransform obj.transform_samples.transform_order
              obj.transform_samples.rotate_order
              (obj.transform_samples.translate.samples i).vector
              (obj.transform_samples.rotate.samples i).vector
              (maxScaleLoop obj.transform_samples.scale))
            (rotationBounds E obj)))
        emptyBox ∧
    (1 < obj.transform_samples.rotate.sample_count →
      rotationBounds E obj =
        ⟨(E.BoxCentroid obj.bounds).x - E.BoxDiagonal obj.bounds,
          (E.BoxCentroid obj.bounds).y - E.BoxDiagonal obj.bounds,
          (E.BoxCentroid obj.bounds).z - E.BoxDiagonal obj.bounds,
          (E.BoxCentroid obj.bounds).x + E.BoxDiagonal obj.bounds,
          (E.BoxCentroid obj.bounds).y + E.BoxDiagonal obj.bounds,
          (E.BoxCentroid obj.bounds).z + E.BoxDiagonal obj.bounds⟩) ∧
    (obj.transform_samples.rotate.sample_count ≤ 1 → rotationBounds E obj = obj.bounds) ∧
    (∀ sqrt : K → K,
      E.BoxCentroid = specBoxCentroid → E.BoxDiagonal = specBoxDiagonal sqrt →
      obj.bounds.xmin ≤ obj.bounds.xmax → obj.bounds.ymin ≤ obj.bounds.ymax →
      obj.bounds.zmin ≤ obj.bounds.zmax →
      0 ≤ sqrt ((obj.bounds.xmax - obj.bounds.xmin) * (obj.bounds.xmax - obj.bounds.xmin)
        + (obj.bounds.ymax - obj.bounds.ymin) * (obj.bounds.ymax - obj.bounds.ymin)
        + (obj.bounds.zmax - obj.bounds.zmin) * (obj.bounds.zmax - obj.bounds.zmin)) →
      sqrt ((obj.bounds.xmax - obj.bounds.xmin) * (obj.bounds.xmax - obj.bounds.xmin)
          + (obj.bounds.ymax - obj.bounds.ymin) * (obj.bounds.ymax - obj.bounds.ymin)
          + (obj.bounds.zmax - obj.bounds.zmin) * (obj.bounds.zmax - obj.bounds.zmin))
        * sqrt ((obj.bounds.xmax - obj.bounds.xmin) * (obj.bounds.xmax - obj.bounds.xmin)
          + (obj.bounds.ymax - obj.bounds.ymin) * (obj.bounds.ymax - obj.bounds.ymin)
          + (obj.bounds.zmax - obj.bounds.zmin) * (obj.bounds.zmax - obj.bounds.zmin))
        = (obj.bounds.xmax - obj.bounds.xmin) * (obj.bounds.xmax - obj.bounds.xmin)
          + (obj.bounds.ymax - obj.bounds.ymin) * (obj.bounds.ymax - obj.bounds.ymin)
          + (obj.bounds.zmax - obj.bounds.zmin) * (obj.bounds.zmax - obj.bounds.zmin) →
      1 < obj.transform_samples.rotate.sample_count →
      Box.inside obj.bounds (rotationBounds E obj)) := by
  have hgt : 1 < obj.transform_samples.rotate.sample_count →
      rotationBounds E obj =
        ⟨(E.BoxCentroid obj.bounds).x - E.BoxDiagonal obj.bounds,
          (E.BoxCentroid obj.bounds).y - E.BoxDiagonal obj.bounds,
          (E.BoxCentroid obj.bounds).z - E.BoxDiagonal obj.bounds,
          (E.BoxCentroid obj.bounds).x + E.BoxDiagonal obj.bounds,
          (E.BoxCentroid obj.bounds).y + E.BoxDiagonal obj.bounds,
          (E.BoxCentroid obj.bounds).z + E.BoxDiagonal obj.bounds⟩ := by
    intro h
    simp only [rotationBounds, ObjGetBounds, gt_iff_lt, if_pos h]
  refine ⟨merge_sampled_bounds_loop E obj, hgt, ?_, ?_⟩
  · intro h
    simp only [rotationBounds, ObjGetBounds, gt_iff_lt, if_neg (not_lt.mpr h)]
  · intro sqrt hc hd bx bY bz h0 hsq hrot
    rw [hgt hrot, hc, hd]
    simp only [Box.inside, specBoxCentroid, specBoxDiagonal]
    generalize sqrt _ = L at h0 hsq
    have hLx : obj.bounds.xmax - obj.bounds.xmin ≤ L := by
      by_contra hlt
      push_neg at hlt
      nlinarith [mul_self_nonneg (obj.bounds.ymax - obj.bounds.ymin),
        mul_self_nonneg (obj.bounds.zmax - obj.bounds.zmin),
        mul_lt_mul'' hlt hlt h0 h0]
    have hLy : obj.bounds.ymax - obj.bounds.ymin ≤ L := by
      by_contra hlt
      push_neg at hlt
      nlinarith [mul_self_nonneg (obj.bounds.xmax - obj.bounds.xmin),
        mul_self_nonneg (obj.bounds.zmax - obj.bounds.zmin),
        mul_lt_mul'' hlt hlt h0 h0]
    have hLz : obj.bounds.zmax - obj.bounds.zmin ≤ L := by
      by_contra hlt
      push_neg at hlt
      nlinarith [mul_self_nonneg (obj.bounds.xmax - obj.bounds.xmin),
        mul_self_nonneg (obj.bounds.ymax - obj.bounds.ymin),
        mul_lt_mul'' hlt hlt h0 h0]
    refine ⟨?_, ?_, ?_, ?_, ?_, ?_⟩ <;> linarith

/-- The square root of `ℚ` at 9. -/
lemma rat_sqrt_nine : Rat.sqrt 9 = 3 := by
  have h := Rat.sqrt_eq 3
  rw [abs_of_nonneg (by norm_num : (0 : ℚ) ≤ 3)] at h
  rw [← h]
  norm_num

/-- C18, a run: the instance with local bounds `[0,2] × [0,1] × [0,2]` and two rotate
samples has centroid `(1, 1/2, 1)` and half-diagonal `3/2`; the box handed to the
transforms is the cube `[-1/2, 5/2] × [-1, 2] × [-1/2, 5/2]`, which contains the local
bounds. The instance at rest, with one rotate sample, keeps its bounds. -/
theorem rotation_expands_to_cube_witness :
    1 < turningBox.transform_samples.rotate.sample_count ∧
    rotationBounds runEnv turningBox = ⟨-1 / 2, -1, -1 / 2, 5 / 2, 2, 5 / 2⟩ ∧
    Box.inside turningBox.bounds (rotationBounds runEnv turningBox) ∧
    restingSurface.transform_samples.rotate.sample_count ≤ 1 ∧
    rotationBounds runEnv restingSurface = restingSurface.bounds := by
  have hrot : 1 < turningBox.transform_samples.rotate.sample_count := Nat.lt_succ_self 1
  have hX : (turningBox.bounds.xmax - turningBox.bounds.xmin)
        * (turningBox.bounds.xmax - turningBox.bounds.xmin)
      + (turningBox.bounds.ymax - turningBox.bounds.ymin)
        * (turningBox.bounds.ymax - turningBox.bounds.ymin)
      + (turningBox.bounds.zmax - turningBox.bounds.zmin)
        * (turningBox.bounds.zmax - turningBox.bounds.zmin) = 9 := by
    norm_num [turningBox]
  obtain ⟨-, hcube, -, hin⟩ := rotation_expands_to_cube runEnv turningBox
  obtain ⟨-, -, hkeep, -⟩ := rotation_expands_to_cube runEnv restingSurface
  refine ⟨hrot, ?_, hin Rat.sqrt rfl rfl (by norm_num [turningBox]) (by norm_num [turningBox])
    (by norm_num [turningBox]) (by rw [hX, rat_sqrt_nine]; norm_num)
    (by rw [hX, rat_sqrt_nine]; norm_num) hrot, Nat.le_refl 1, hkeep (Nat.le_refl 1)⟩
  rw [hcube hrot]
  have hd : runEnv.BoxDiagonal turningBox.bounds = 3 / 2 := by
    show specBoxDiagonal Rat.sqrt turningBox.bounds = 3 / 2
    rw [specBoxDiagonal, hX, rat_sqrt_nine]
  have hc : runEnv.BoxCentroid turningBox.bounds = ⟨1, 1 / 2, 1⟩ := by
    show specBoxCentroid turningBox.bounds = ⟨1, 1 / 2, 1⟩
    norm_num [specBoxCentroid, turningBox]
  rw [hd, hc]
  norm_num

/-! ## The success path of `ObjSetVolume` -/

/-- C21: on an instance with neither accelerator nor volume, `ObjSetVolume` passes both
guards and reaches its closing assertion `acc == NULL && volume != NULL` with the volume
reference set to the argument and the accelerator still null. The assertion holds there
exactly when the argument is non-null: then the call returns 0 and leaves an instance on
which `ObjIsVolume` returns 1 and `ObjIsSurface` returns 0; with a null argument the
assertion fails and the call aborts. -/
theorem setVolume_success (E : Env K) (obj : ObjectInstance K) (volume : Ptr)
    (ha : obj.acc = none) (hv : obj.volume = none) :
    ∃ obj1 : ObjectInstance K,
      update_object_bounds E { obj with volume := volume } = some obj1 ∧
      obj1.volume = volume ∧ obj1.acc = none ∧
      ((obj1.acc = none ∧ obj1.volume ≠ none) ↔ volume ≠ none) ∧
      (volume ≠ none →
        ObjSetVolume E obj volume = some (0, obj1) ∧
        ObjIsVolume obj1 = some 1 ∧ ObjIsSurface obj1 = some 0) ∧
      (volume = none → ObjSetVolume E obj volume = none) := by
  have hx : ¬ (({ obj with volume := volume } : ObjectInstance K).acc ≠ none
      ∧ ({ obj with volume := volume } : ObjectInstance K).volume ≠ none) :=
    fun h => h.1 ha
  have hup := update_object_bounds_eq E { obj with volume := volume }
  rw [if_neg hx] at hup
  have hg : ¬ (obj.acc ≠ none ∨ obj.volume ≠ none) := fun h => h.elim (· ha) (· hv)
  refine ⟨_, hup, rfl, ha, ?_, ?_, ?_⟩
  · constructor
    · exact fun h => h.2
    · exact fun h => ⟨ha, h⟩
  · intro hne
    refine ⟨?_, ?_, ?_⟩
    · rw [ObjSetVolume_eq, if_neg hg, if_neg hne]
      rfl
    · simp [ObjIsVolume, ha, hne]
    · simp [ObjIsSurface, ha]
  · intro hnull
    rw [ObjSetVolume_eq, if_neg hg, if_pos hnull]

/-- C21, two runs on the instance with neither accelerator nor volume: given the volume at
address 5 the call returns 0 and the instance is a volume; given a null volume the call
aborts on the closing assertion. -/
theorem setVolume_success_witness :
    restingEmpty.acc = none ∧ restingEmpty.volume = none ∧
    (∃ obj1 : ObjectInstance ℚ,
      ObjSetVolume runEnv restingEmpty (some 5) = some (0, obj1) ∧
      obj1.volume = some 5 ∧ obj1.acc = none ∧
      ObjIsVolume obj1 = some 1 ∧ ObjIsSurface obj1 = some 0) ∧
    ObjSetVolume runEnv restingEmpty none = none := by
  obtain ⟨obj1, -, hvol, hacc, -, hok, -⟩ :=
    setVolume_success runEnv restingEmpty (some 5) rfl rfl
  obtain ⟨-, -, -, -, -, -, hnull⟩ := setVolume_success runEnv restingEmpty none rfl rfl
  obtain ⟨hret, hisv, hiss⟩ := hok (by simp)
  exact ⟨rfl, rfl, ⟨obj1, hret, hvol, hacc, hisv, hiss⟩, hnull rfl⟩

end Fujiyama
